import Mathlib

/-!
Verification of the awen-runtime photonic execution core against its
specification.  Rust sources are shallowly embedded: each Rust module becomes
a namespace, structs become structures, `Result<T, E>` becomes `Except E T`,
`HashMap<String, V>` becomes an insertion-ordered association list `SMap V`
(iteration order is never observed by the embedded code except where the
source explicitly sorts), `f64` becomes `ℝ`, and machine integers (`u64`)
become `Nat` with explicit reduction modulo `2 ^ 64` where overflow matters.
External crates (sha2, hex, rand, ryu-style float printing inside serde_json)
are modelled as opaque function parameters that the theorems quantify over.
-/

namespace Awen

/-- Model of `HashMap<String, α>` / `serde_json::Map`: an association list in
insertion order.  The embedded code only ever observes lookup, insertion and
key membership. -/
abbrev SMap (α : Type) : Type := List (String × α)

/-- Key lookup, first match wins (keys are unique in every map the code
builds, mirroring `HashMap`). -/
def SMap.find {α : Type} (m : SMap α) (key : String) : Option α :=
  match m with
  | [] => none
  | (k, v) :: rest => if k = key then some v else SMap.find rest key

/-- Insert-or-replace, mirroring `HashMap::insert` (the original position of a
replaced key is kept, new keys are appended). -/
def SMap.insert {α : Type} (m : SMap α) (key : String) (v : α) : SMap α :=
  match m with
  | [] => [(key, v)]
  | (k0, v0) :: rest =>
      if k0 = key then (key, v) :: rest else (k0, v0) :: SMap.insert rest key v

/-- `HashMap::contains_key`. -/
def SMap.hasKey {α : Type} (m : SMap α) (k : String) : Bool :=
  (SMap.find m k).isSome

/-- `HashMap::is_empty`. -/
def SMap.isEmptyMap {α : Type} (m : SMap α) : Bool :=
  m.isEmpty

-- ━━━━━━━━━━━━━━━━━━━━━━━━━━━━━━━━━━━━━━━━━━━━━━━━━━━━━━━━━━━━━━━━━━━━━━━
-- src/ir/mod.rs — IR data model and validator
-- ━━━━━━━━━━━━━━━━━━━━━━━━━━━━━━━━━━━━━━━━━━━━━━━━━━━━━━━━━━━━━━━━━━━━━━━

namespace Ir

/-- `ir::ConditionalBranch`. -/
structure ConditionalBranch where
  outcome_index : Nat
  then_nodes : List String
  else_nodes : Option (List String)
deriving Repr

/-- `ir::Node` (`params` values are `f64`, modelled as `ℝ`). -/
structure Node where
  id : String
  node_type : String
  params : SMap ℝ
  measure_mode : Option String
  conditional_branches : Option (List ConditionalBranch)

/-- `ir::Edge`. -/
structure Edge where
  src_node : String
  src_port : Option String
  dst_node : String
  dst_port : Option String
  delay : Option ℝ

/-- `ir::Graph`. -/
structure Graph where
  nodes : List Node
  edges : List Edge
  metadata : SMap String

/-- The `HashSet` of declared node ids built at the top of `validate_graph`. -/
def nodeIds (g : Graph) : List String :=
  g.nodes.map (fun n => n.id)

/-- Error text used for an unresolved then-target in `validate_graph`. -/
def thenErr : String := "conditional branch references non-existent node: "

/-- Error text used for an unresolved else-target in `validate_graph`. -/
def elseErr : String := "else branch references non-existent node: "

/-- Inner loop of `validate_graph` over one target list: first missing id
aborts with the given message prefix. -/
def checkTargets (ids : List String) (msg : String) : List String → Except String Unit
  | [] => Except.ok ()
  | t :: ts =>
      if ids.contains t then checkTargets ids msg ts
      else Except.error (msg ++ t)

/-- Loop of `validate_graph` over one node's conditional branches. -/
def checkBranches (ids : List String) : List ConditionalBranch → Except String Unit
  | [] => Except.ok ()
  | b :: bs =>
      match checkTargets ids thenErr b.then_nodes with
      | Except.error e => Except.error e
      | Except.ok () =>
          match b.else_nodes with
          | none => checkBranches ids bs
          | some es =>
              match checkTargets ids elseErr es with
              | Except.error e => Except.error e
              | Except.ok () => checkBranches ids bs

/-- Outer loop of `validate_graph` over the nodes. -/
def checkNodes (ids : List String) : List Node → Except String Unit
  | [] => Except.ok ()
  | n :: ns =>
      match n.conditional_branches with
      | none => checkNodes ids ns
      | some bs =>
          match checkBranches ids bs with
          | Except.error e => Except.error e
          | Except.ok () => checkNodes ids ns

/-- `ir::validate_graph`: checks that conditional branches reference existing
nodes.  (The Rust early-returns on the first offending identifier.) -/
def validate_graph (g : Graph) : Except String Unit :=
  checkNodes (nodeIds g) g.nodes

/-- Does the graph satisfy the branch-target half of the referential
invariant: every then-node / else-node id of every ConditionalBranch is a
declared node id. -/
def branchTargetsDeclared (g : Graph) : Bool :=
  g.nodes.all fun n =>
    match n.conditional_branches with
    | none => true
    | some bs =>
        bs.all fun b =>
          b.then_nodes.all (fun t => (nodeIds g).contains t) &&
          (match b.else_nodes with
           | none => true
           | some es => es.all fun t => (nodeIds g).contains t)

/-- Does the graph satisfy the edge half of the referential invariant claimed
by the specification: every edge endpoint is a declared node id. -/
def edgeEndpointsDeclared (g : Graph) : Bool :=
  g.edges.all fun e =>
    (nodeIds g).contains e.src_node && (nodeIds g).contains e.dst_node

/-- Validation-success condition exactly as the specification words claim it
(edge endpoints AND branch targets); to be compared against the behaviour of
`validate_graph` as implemented. -/
def specClaimedValidateOk (g : Graph) : Bool :=
  edgeEndpointsDeclared g && branchTargetsDeclared g

/-- Propositional form of "every branch target of branch `b` resolves in
`ids`". -/
def BranchOk (ids : List String) (b : ConditionalBranch) : Prop :=
  (∀ t ∈ b.then_nodes, t ∈ ids) ∧
  (∀ es, b.else_nodes = some es → ∀ t ∈ es, t ∈ ids)

/-- Propositional form of "every branch target of node `n` resolves in
`ids`". -/
def NodeBranchesOk (ids : List String) (n : Node) : Prop :=
  ∀ bs, n.conditional_branches = some bs → ∀ b ∈ bs, BranchOk ids b

/-- `t` is mentioned as a then-target or else-target of some branch of `g`. -/
def IsBranchTarget (g : Graph) (t : String) : Prop :=
  ∃ n ∈ g.nodes, ∃ bs, n.conditional_branches = some bs ∧
    ∃ b ∈ bs, t ∈ b.then_nodes ∨ ∃ es, b.else_nodes = some es ∧ t ∈ es

/-- C1 counterexample input: a single declared node `a` and one edge whose
source endpoint `x` is undeclared; no conditional branches. -/
def c1Graph : Graph :=
  { nodes := [{ id := "a", node_type := "Source", params := [],
                measure_mode := none, conditional_branches := none }],
    edges := [{ src_node := "x", src_port := none, dst_node := "a",
                dst_port := none, delay := none }],
    metadata := [] }

/-- C1 amended-witness input: a detector whose branch then-target `ghost` is
undeclared. -/
def c1BadBranchGraph : Graph :=
  { nodes := [{ id := "m0", node_type := "DETECTOR", params := [],
                measure_mode := none,
                conditional_branches := some
                  [{ outcome_index := 0, then_nodes := ["ghost"],
                     else_nodes := none }] }],
    edges := [],
    metadata := [] }

end Ir

-- ━━━━━━━━━━━━━━━━━━━━━━━━━━━━━━━━━━━━━━━━━━━━━━━━━━━━━━━━━━━━━━━━━━━━━━━
-- serde_json::Value — JSON abstract syntax shared by storage and chokepoint
-- ━━━━━━━━━━━━━━━━━━━━━━━━━━━━━━━━━━━━━━━━━━━━━━━━━━━━━━━━━━━━━━━━━━━━━━━
/-- Model of `serde_json::Value`.  As in serde_json, a number is either an
unsigned integer (`natNum`, for `u64`/`u32`/`usize` sources) or a float
(`num`, an `f64` modelled as `ℝ`). -/
inductive Json where
  | null : Json
  | bool (b : Bool) : Json
  | num (x : ℝ) : Json
  | natNum (n : Nat) : Json
  | str (s : String) : Json
  | arr (xs : List Json) : Json
  | obj (fields : List (String × Json)) : Json

/-- Insertion sort of an association list by key, modelling the key ordering
of `serde_json::Map` (a `BTreeMap`, therefore always sorted). -/
def sortFieldsIns {α : Type} (p : String × α) : List (String × α) → List (String × α)
  | [] => [p]
  | q :: rest => if p.1 ≤ q.1 then p :: q :: rest else q :: sortFieldsIns p rest

/-- Sort an association list by key (see `sortFieldsIns`). -/
def sortFields {α : Type} (l : List (String × α)) : List (String × α) :=
  l.foldr sortFieldsIns []

/-- JSON string quoting.  Escaping of special characters is elided: no string
the embedded code hashes or compares contains them, and no theorem depends on
the concrete characters. -/
def jsonQuote (s : String) : String :=
  "\"" ++ s ++ "\""

mutual

/-- Compact JSON serialization, modelling `serde_json::to_string` of a
`Value` (object keys are already sorted by construction, matching
`BTreeMap`-backed maps).  `rf` models the float formatting routine of
serde_json (ryu), an external dependency: it is opaque here; every theorem
quantifies over it. -/
def canonicalJsonStr (rf : ℝ → String) : Json → String
  | Json.null => "null"
  | Json.bool true => "true"
  | Json.bool false => "false"
  | Json.num x => rf x
  | Json.natNum n => toString n
  | Json.str s => jsonQuote s
  | Json.arr xs => "[" ++ canonicalArrStr rf xs ++ "]"
  | Json.obj fs => "\x7b" ++ canonicalObjStr rf fs ++ "\x7d"

/-- Comma-joined serialization of array elements. -/
def canonicalArrStr (rf : ℝ → String) : List Json → String
  | [] => ""
  | [x] => canonicalJsonStr rf x
  | x :: y :: rest => canonicalJsonStr rf x ++ "," ++ canonicalArrStr rf (y :: rest)

/-- Comma-joined serialization of object fields. -/
def canonicalObjStr (rf : ℝ → String) : List (String × Json) → String
  | [] => ""
  | [(k, v)] => jsonQuote k ++ ":" ++ canonicalJsonStr rf v
  | (k, v) :: q :: rest =>
      jsonQuote k ++ ":" ++ canonicalJsonStr rf v ++ "," ++ canonicalObjStr rf (q :: rest)

end

-- ━━━━━━━━━━━━━━━━━━━━━━━━━━━━━━━━━━━━━━━━━━━━━━━━━━━━━━━━━━━━━━━━━━━━━━━
-- serde serialization of the IR graph (used by canonical_json in
-- storage/deterministic_id.rs).  serde_json::to_value inserts struct fields
-- into a BTreeMap, so object keys below appear in sorted order.
-- ━━━━━━━━━━━━━━━━━━━━━━━━━━━━━━━━━━━━━━━━━━━━━━━━━━━━━━━━━━━━━━━━━━━━━━━

namespace Ir

/-- serde_json value of a `ConditionalBranch` (keys sorted: else_nodes,
outcome_index, then_nodes). -/
def branchToJson (b : ConditionalBranch) : Json :=
  Json.obj
    [("else_nodes",
        match b.else_nodes with
        | none => Json.null
        | some es => Json.arr (es.map Json.str)),
     ("outcome_index", Json.natNum b.outcome_index),
     ("then_nodes", Json.arr (b.then_nodes.map Json.str))]

/-- serde_json value of a `Node` (keys sorted: conditional_branches, id,
measure_mode, params, type). -/
def nodeToJson (n : Node) : Json :=
  Json.obj
    [("conditional_branches",
        match n.conditional_branches with
        | none => Json.null
        | some bs => Json.arr (bs.map branchToJson)),
     ("id", Json.str n.id),
     ("measure_mode",
        match n.measure_mode with
        | none => Json.null
        | some m => Json.str m),
     ("params", Json.obj (sortFields (n.params.map (fun kv => (kv.1, Json.num kv.2))))),
     ("type", Json.str n.node_type)]

/-- serde_json value of an `Edge` (keys sorted: delay, dst_node, dst_port,
src_node, src_port). -/
def edgeToJson (e : Edge) : Json :=
  Json.obj
    [("delay", match e.delay with | none => Json.null | some d => Json.num d),
     ("dst_node", Json.str e.dst_node),
     ("dst_port", match e.dst_port with | none => Json.null | some p => Json.str p),
     ("src_node", Json.str e.src_node),
     ("src_port", match e.src_port with | none => Json.null | some p => Json.str p)]

/-- serde_json value of a `Graph` (keys sorted: edges, metadata, nodes). -/
def graphToJson (g : Graph) : Json :=
  Json.obj
    [("edges", Json.arr (g.edges.map edgeToJson)),
     ("metadata", Json.obj (sortFields (g.metadata.map (fun kv => (kv.1, Json.str kv.2))))),
     ("nodes", Json.arr (g.nodes.map nodeToJson))]

end Ir

-- ━━━━━━━━━━━━━━━━━━━━━━━━━━━━━━━━━━━━━━━━━━━━━━━━━━━━━━━━━━━━━━━━━━━━━━━
-- src/storage/deterministic_id.rs — content-addressed artifact ids
-- ━━━━━━━━━━━━━━━━━━━━━━━━━━━━━━━━━━━━━━━━━━━━━━━━━━━━━━━━━━━━━━━━━━━━━━━

namespace Storage

/-- Bytes of the UTF-8 encoding of a string (for `Sha256::update(s.as_bytes())`). -/
def utf8Bytes (s : String) : List Nat :=
  s.toUTF8.toList.map (fun b => b.toNat)

/-- Little-endian bytes of a `u64` (`u64::to_le_bytes`). -/
def u64leBytes (n : Nat) : List Nat :=
  [n % 256, n / 2 ^ 8 % 256, n / 2 ^ 16 % 256, n / 2 ^ 24 % 256,
   n / 2 ^ 32 % 256, n / 2 ^ 40 % 256, n / 2 ^ 48 % 256, n / 2 ^ 56 % 256]

/-- `storage::deterministic_id::canonical_json`: serialize to a
`serde_json::Value` (sorted keys) and print without whitespace. -/
def canonical_json (rf : ℝ → String) (v : Json) : String :=
  canonicalJsonStr rf v

/-- The exact byte stream `compute_deterministic_id` feeds to the SHA-256
hasher, in hasher-update order: canonical IR JSON, then each parameter key in
sorted order followed by the little-endian bytes of its `f64` value, then the
canonical calibration JSON if present, then the little-endian seed if present,
then the runtime version.  `f64le` models `f64::to_le_bytes` (IEEE-754 bit
layout, opaque at this level); `rf` models serde_json float formatting. -/
def idByteStream (f64le : ℝ → List Nat) (rf : ℝ → String)
    (ir : Ir.Graph) (parameters : SMap ℝ) (calibration_state : Option Json)
    (seed : Option Nat) (runtime_version : String) : List Nat :=
  utf8Bytes (canonical_json rf (Ir.graphToJson ir))
    ++ ((parameters.map Prod.fst).insertionSort (fun a b => a ≤ b)).flatMap
        (fun k => utf8Bytes k ++ f64le ((SMap.find parameters k).getD 0))
    ++ (match calibration_state with
        | some c => utf8Bytes (canonical_json rf c)
        | none => [])
    ++ (match seed with
        | some s => u64leBytes s
        | none => [])
    ++ utf8Bytes runtime_version

def compute_deterministic_id
    (sha256 : List Nat → List Nat) (hexEnc : List Nat → String)
    (f64le : ℝ → List Nat) (rf : ℝ → String)
    (ir : Ir.Graph) (parameters : SMap ℝ) (calibration_state : Option Json)
    (seed : Option Nat) (runtime_version : String) : String :=
  "awen_" ++ hexEnc (sha256
    (idByteStream f64le rf ir parameters calibration_state seed runtime_version))

end Storage

-- ━━━━━━━━━━━━━━━━━━━━━━━━━━━━━━━━━━━━━━━━━━━━━━━━━━━━━━━━━━━━━━━━━━━━━━━
-- src/scheduler/mod.rs — static scheduler
--
-- The scheduler module is written against a graph shape with fields
-- `version / nodes / edges`, edges carrying `src / dst / delay_ns` and nodes
-- carrying `params : Option<…>` (its own unit tests construct exactly this
-- shape).  That shape differs from `ir::Graph`; the embedding follows the
-- scheduler code as written.
-- ━━━━━━━━━━━━━━━━━━━━━━━━━━━━━━━━━━━━━━━━━━━━━━━━━━━━━━━━━━━━━━━━━━━━━━━

namespace Scheduler

/-- Wrap to `u64` (release-mode wrapping arithmetic). -/
def wrap64 (n : Nat) : Nat := n % 2 ^ 64

/-- `u64` subtraction `a - b` as the machine performs it (wrapping). -/
def wrapSub64 (a b : Nat) : Nat := (a % 2 ^ 64 + 2 ^ 64 - b % 2 ^ 64) % 2 ^ 64

/-- Edge as read by the scheduler (`edge.src`, `edge.dst`, `edge.delay_ns`). -/
structure SchedEdge where
  src : String
  dst : String
  delay_ns : Option ℝ

/-- Node as read by the scheduler. -/
structure SchedNode where
  id : String
  node_type : String
  params : Option (SMap ℝ)

/-- Graph as read by the scheduler. -/
structure SchedGraph where
  version : String
  metadata : SMap String
  nodes : List SchedNode
  edges : List SchedEdge

/-- `scheduler::CoherenceWindow` as the scheduler reads it
(`start_time_ns`, `duration_ns`, `fidelity_threshold`). -/
structure SchedCoherenceWindow where
  id : String
  start_time_ns : Nat
  duration_ns : Nat
  fidelity_threshold : ℝ

/-- `scheduler::Priority`. -/
inductive SchedPriority where
  | background
  | normal
  | high
  | critical

/-- `scheduler::FeedbackLoop`. -/
structure FeedbackLoop where
  id : String
  measurement_node : String
  control_node : String
  deadline_ns : Nat
  priority : SchedPriority

/-- `scheduler::ResourceLimits`. -/
structure ResourceLimits where
  max_wavelengths : Nat
  max_memory_slots : Nat
  max_concurrent_operations : Nat

/-- `scheduler::SchedulingConstraints` (timing constraints are carried but
never read by `StaticScheduler`, so they are kept abstract as a list of
units). -/
structure SchedulingConstraints where
  coherence_windows : List SchedCoherenceWindow
  feedback_loops : List FeedbackLoop
  timing_constraints : List Unit
  resource_limits : ResourceLimits

/-- `scheduler::ResourceAllocation`. -/
structure ResourceAllocation where
  resource_type : String
  resource_id : String
  start_ns : Nat
  end_ns : Nat

/-- `scheduler::ScheduledNode`. -/
structure ScheduledNode where
  node_id : String
  start_time_ns : Nat
  end_time_ns : Nat
  allocated_resources : List ResourceAllocation
  coherence_window_id : Option String

/-- `scheduler::ResourceUsageReport`. -/
structure ResourceUsageReport where
  wavelengths_used : Nat
  memory_slots_used : Nat
  peak_concurrent_operations : Nat
  average_parallelism : ℝ

/-- `scheduler::WavelengthChannel`. -/
structure WavelengthChannel where
  lambda_nm : ℝ
  bandwidth_ghz : ℝ
  dispersion_ps_per_nm : ℝ
  skew_compensation_ns : ℝ

/-- `scheduler::ResourceState`. -/
structure ResourceState where
  available_wavelengths : List WavelengthChannel
  available_memory_slots : List String
  device_availability : SMap Bool

/-- `scheduler::ExecutionPlan`. -/
structure ExecutionPlan where
  id : String
  seed : Nat
  algorithm : String
  makespan_ns : Nat
  critical_path : List String
  schedule : SMap ScheduledNode
  resource_usage : ResourceUsageReport
  provenance : SMap String

/-- One relaxation pass of the critical-path loop (the body of the
`for edge in &graph.edges` scan); returns the updated depth map and the
`changed` flag.  `f2u` models the `f64 → u64` cast of `delay_ns`. -/
def relaxPass (f2u : ℝ → Nat) (lat : SMap Nat) (edges : List SchedEdge)
    (depths : SMap Nat) : SMap Nat × Bool :=
  edges.foldl
    (fun acc e =>
      let src_depth := (SMap.find acc.1 e.src).getD 0
      let src_latency := (SMap.find lat e.src).getD 100
      let edge_delay := f2u (e.delay_ns.getD 0)
      let new_depth := wrap64 (src_depth + src_latency + edge_delay)
      let dst_depth := (SMap.find acc.1 e.dst).getD 0
      if new_depth > dst_depth then (SMap.insert acc.1 e.dst new_depth, true) else acc)
    (depths, false)

/-- The `while changed` relaxation loop, made total with a fuel parameter;
all theorems quantify over the fuel, whose value is irrelevant whenever the
Rust loop terminates. -/
def relaxLoop (f2u : ℝ → Nat) (lat : SMap Nat) (edges : List SchedEdge) :
    Nat → SMap Nat → SMap Nat
  | 0, depths => depths
  | fuel + 1, depths =>
      match relaxPass f2u lat edges depths with
      | (d2, true) => relaxLoop f2u lat edges fuel d2
      | (d2, false) => d2

/-- `StaticScheduler::compute_critical_path` (infallible in the source; the
`Result` wrapper is dropped). -/
def compute_critical_path (f2u : ℝ → Nat) (fuel : Nat) (g : SchedGraph) :
    List String :=
  let node_depths : SMap Nat := g.nodes.foldl (fun m n => SMap.insert m n.id 0) []
  let node_latencies : SMap Nat := g.nodes.foldl (fun m n => SMap.insert m n.id 100) []
  let depths := relaxLoop f2u node_latencies g.edges fuel node_depths
  let max_depth := (depths.map Prod.snd).max?.getD 0
  (depths.filter (fun kv => kv.2 = max_depth)).map Prod.fst

/-- `StaticScheduler::allocate_resources`.  The source takes `&mut
ResourceState` but only reads it (nothing is ever removed from the available
lists), so the state is passed by value and returned allocations only.
`fmtF64` models `format!` on an `f64`. -/
def allocate_resources (fmtF64 : ℝ → String) (start_time end_time : Nat)
    (resource_state : ResourceState) : List ResourceAllocation :=
  (match resource_state.available_wavelengths with
   | [] => []
   | w :: _ =>
      [{ resource_type := "wavelength", resource_id := fmtF64 w.lambda_nm ++ "nm",
         start_ns := start_time, end_ns := end_time }]) ++
  (match resource_state.available_memory_slots with
   | [] => []
   | s :: _ =>
      [{ resource_type := "memory", resource_id := s,
         start_ns := start_time, end_ns := end_time }])

/-- `StaticScheduler::validate_coherence`. -/
noncomputable def validate_coherence (scheduled_node : ScheduledNode)
    (constraints : SchedulingConstraints) : Except String Unit :=
  match scheduled_node.coherence_window_id with
  | none => Except.ok ()
  | some window_id =>
      match constraints.coherence_windows.find? (fun w => w.id = window_id) with
      | none => Except.error ("Coherence window " ++ window_id ++ " not found")
      | some window =>
          if scheduled_node.start_time_ns < window.start_time_ns then
            Except.error ("Node " ++ scheduled_node.node_id ++ " starts before coherence window")
          else
            let window_end := wrap64 (window.start_time_ns + window.duration_ns)
            if scheduled_node.end_time_ns > window_end then
              Except.error ("Node " ++ scheduled_node.node_id ++ " ends after coherence window")
            else
              let duration := wrapSub64 scheduled_node.end_time_ns scheduled_node.start_time_ns
              let fidelity := Real.exp (-1 * (duration : ℝ) / (window.duration_ns : ℝ))
              if fidelity < window.fidelity_threshold then
                Except.error ("Node " ++ scheduled_node.node_id ++ " fidelity below threshold")
              else Except.ok ()

/-- Loop body of `StaticScheduler::validate_feedback_loops`. -/
def checkFeedbackLoops (schedule : SMap ScheduledNode) :
    List FeedbackLoop → Except String Unit
  | [] => Except.ok ()
  | l :: ls =>
      match SMap.find schedule l.measurement_node with
      | none => Except.error ("Measurement node " ++ l.measurement_node ++ " not in schedule")
      | some measurement_node =>
          match SMap.find schedule l.control_node with
          | none => Except.error ("Control node " ++ l.control_node ++ " not in schedule")
          | some control_node =>
              let latency := wrapSub64 control_node.start_time_ns measurement_node.end_time_ns
              if latency > l.deadline_ns then
                Except.error ("Feedback loop " ++ l.id ++ " latency " ++ toString latency ++
                  "ns exceeds deadline " ++ toString l.deadline_ns ++ "ns")
              else checkFeedbackLoops schedule ls

/-- `StaticScheduler::validate_feedback_loops`. -/
def validate_feedback_loops (schedule : SMap ScheduledNode)
    (constraints : SchedulingConstraints) : Except String Unit :=
  checkFeedbackLoops schedule constraints.feedback_loops

/-- The initial `ResourceState` literal built in `StaticScheduler::schedule`. -/
def initialResourceState : ResourceState :=
  { available_wavelengths :=
      [{ lambda_nm := 1550, bandwidth_ghz := 100, dispersion_ps_per_nm := 17,
         skew_compensation_ns := 0 },
       { lambda_nm := 1551, bandwidth_ghz := 100, dispersion_ps_per_nm := 17,
         skew_compensation_ns := 0.17 }],
    available_memory_slots := ["mem_0", "mem_1"],
    device_availability := [] }

/-- Phase-3 loop of `StaticScheduler::schedule`: place nodes in declaration
order, threading the schedule map and the per-node end-time map. -/
noncomputable def scheduleNodes (f2u : ℝ → Nat) (fmtF64 : ℝ → String)
    (g : SchedGraph) (constraints : SchedulingConstraints) :
    List SchedNode → SMap ScheduledNode → SMap Nat →
    Except String (SMap ScheduledNode × SMap Nat)
  | [], schedule, node_end_times => Except.ok (schedule, node_end_times)
  | node :: rest, schedule, node_end_times =>
      let earliest_start := g.edges.foldl
        (fun acc e =>
          if e.dst = node.id then
            let src_end := (SMap.find node_end_times e.src).getD 0
            let edge_delay := f2u (e.delay_ns.getD 0)
            max acc (wrap64 (src_end + edge_delay))
          else acc) 0
      let node_latency := 100
      let allocations := allocate_resources fmtF64 earliest_start
        (wrap64 (earliest_start + node_latency)) initialResourceState
      let coherence_window_id :=
        match constraints.coherence_windows with
        | [] => none
        | w :: _ => some w.id
      let scheduled_node : ScheduledNode :=
        { node_id := node.id, start_time_ns := earliest_start,
          end_time_ns := wrap64 (earliest_start + node_latency),
          allocated_resources := allocations,
          coherence_window_id := coherence_window_id }
      match validate_coherence scheduled_node constraints with
      | Except.error e => Except.error e
      | Except.ok () =>
          scheduleNodes f2u fmtF64 g constraints rest
            (SMap.insert schedule node.id scheduled_node)
            (SMap.insert node_end_times node.id scheduled_node.end_time_ns)

/-- `StaticScheduler::schedule` (fuel feeds only the critical-path relaxation
loop). -/
noncomputable def schedule (f2u : ℝ → Nat) (fmtF64 : ℝ → String) (fuel : Nat)
    (g : SchedGraph) (constraints : SchedulingConstraints) (seed : Nat) :
    Except String ExecutionPlan :=
  let critical_path := compute_critical_path f2u fuel g
  match scheduleNodes f2u fmtF64 g constraints g.nodes [] [] with
  | Except.error e => Except.error e
  | Except.ok (sched, node_end_times) =>
      match validate_feedback_loops sched constraints with
      | Except.error e => Except.error e
      | Except.ok () =>
          let makespan := ((node_end_times.map Prod.snd).max?).getD 0
          let resource_usage : ResourceUsageReport :=
            { wavelengths_used := 2, memory_slots_used := 2,
              peak_concurrent_operations := g.nodes.length,
              average_parallelism :=
                (g.nodes.length : ℝ) / ((makespan : ℝ) / 100) }
          let provenance : SMap String :=
            SMap.insert
              (SMap.insert
                (SMap.insert
                  (SMap.insert [] "algorithm" "static_v0.1")
                  "seed" (toString seed))
                "graph_nodes" (toString g.nodes.length))
              "makespan_ns" (toString makespan)
          Except.ok
            { id := "exec-plan-" ++ toString seed, seed := seed,
              algorithm := "static_v0.1", makespan_ns := makespan,
              critical_path := critical_path, schedule := sched,
              resource_usage := resource_usage, provenance := provenance }

-- ───────────────────────────────────────────────────────────────────────
-- C4 — feedback-loop validation
-- ───────────────────────────────────────────────────────────────────────
/-- The feedback condition exactly as the specification words it: only loops
whose two nodes are in the schedule are constrained, by (mathematical)
`C.start − M.end ≤ D`, here in truncated `Nat` subtraction, which agrees with
integer subtraction against a non-negative deadline. -/
def SpecFeedbackOk (schedule : SMap ScheduledNode) (loops : List FeedbackLoop) : Prop :=
  ∀ l ∈ loops, ∀ m c, SMap.find schedule l.measurement_node = some m →
    SMap.find schedule l.control_node = some c →
    c.start_time_ns - m.end_time_ns ≤ l.deadline_ns

/-- C4 counterexample loop: its measurement node is absent from the schedule. -/
def c4Loop : FeedbackLoop :=
  { id := "fb0", measurement_node := "m", control_node := "c",
    deadline_ns := 50, priority := SchedPriority.high }

/-- C4 counterexample constraints: just the one loop. -/
def c4Constraints : SchedulingConstraints :=
  { coherence_windows := [], feedback_loops := [c4Loop],
    timing_constraints := [],
    resource_limits := { max_wavelengths := 4, max_memory_slots := 4,
                         max_concurrent_operations := 10 } }

/-- C4 witness schedule: measurement `m` ends at 100, control `c` starts at
300, exceeding the 50 ns deadline of `c4Loop`. -/
def c4WitnessSchedule : SMap ScheduledNode :=
  [("m", { node_id := "m", start_time_ns := 0, end_time_ns := 100,
           allocated_resources := [], coherence_window_id := none }),
   ("c", { node_id := "c", start_time_ns := 300, end_time_ns := 400,
           allocated_resources := [], coherence_window_id := none })]

-- ───────────────────────────────────────────────────────────────────────
-- C5 — empty-graph scheduling
-- ───────────────────────────────────────────────────────────────────────
/-- The empty graph (no nodes, no edges). -/
def emptySchedGraph : SchedGraph :=
  { version := "0.2", metadata := [], nodes := [], edges := [] }

/-- Projection used to state the C5 counterexample without binders. -/
noncomputable def planWavelengthsUsed (r : Except String ExecutionPlan) : Option Nat :=
  match r with
  | Except.ok p => some p.resource_usage.wavelengths_used
  | Except.error _ => none

end Scheduler

-- ━━━━━━━━━━━━━━━━━━━━━━━━━━━━━━━━━━━━━━━━━━━━━━━━━━━━━━━━━━━━━━━━━━━━━━━
-- src/state/mod.rs — quantum state model and reference evolver
-- ━━━━━━━━━━━━━━━━━━━━━━━━━━━━━━━━━━━━━━━━━━━━━━━━━━━━━━━━━━━━━━━━━━━━━━━

namespace State

/-- `state::QuantumMode`. -/
structure QuantumMode where
  mode_id : String
  mode_type : String
  photon_numbers : Option (List Nat)
  amplitudes : Option (List ℝ)
  phases : Option (List ℝ)

/-- `state::CoherenceWindow`. -/
structure CoherenceWindow where
  id : String
  start_ns : Nat
  end_ns : Nat
  decoherence_timescale_ns : Option ℝ
  cross_mode_decoherence_ns : Option ℝ
  idle_time_budget_ns : Option Nat
  notes : Option String

/-- `state::QuantumState`. -/
structure QuantumState where
  id : String
  modes : List QuantumMode
  coherence_window : CoherenceWindow
  seed : Option Nat
  provenance : SMap String

/-- `state::MeasurementOutcome`. -/
structure MeasurementOutcome where
  outcome_index : Nat
  photon_count : Nat
  probability : ℝ
  collapsed_state : Option QuantumState
  seed_used : Option Nat

/-- `modes.iter_mut().find(|m| m.mode_id == mid)` followed by a mutation:
apply `f` to the first mode with the given id, leave the rest unchanged. -/
def updateFirstMode (modes : List QuantumMode) (mid : String)
    (f : QuantumMode → QuantumMode) : List QuantumMode :=
  match modes with
  | [] => []
  | m :: rest =>
      if m.mode_id = mid then f m :: rest else m :: updateFirstMode rest mid f

/-- In-place update of the element at index `i` (`out.modes[i] = …`). -/
def listModify {α : Type} (l : List α) (i : Nat) (f : α → α) : List α :=
  match l, i with
  | [], _ => []
  | x :: xs, 0 => f x :: xs
  | x :: xs, n + 1 => x :: listModify xs n f

/-- `amps[0] = v` on a non-empty vector. -/
def setHead (l : List ℝ) (v : ℝ) : List ℝ :=
  match l with
  | [] => []
  | _ :: rest => v :: rest

/-- `ReferenceStateEvolver::evolve_state`.  `f2u` models the `f64 → usize`
cast used to turn numeric mode parameters into mode-id strings; `fmtF64`
models `format!` on an `f64`.  The `match gate` over string literals is the
if-chain it compiles to.  In the `BS` arm the two first-amplitude writes are
performed sequentially (the Rust mutates both vectors in one scope; the mode
indices are distinct in every call the engine makes). -/
noncomputable def evolve_state (f2u : ℝ → Nat) (fmtF64 : ℝ → String)
    (state : QuantumState) (gate : String) (params : SMap ℝ) :
    Except String QuantumState :=
  if gate = "PS" then
    match SMap.find params "mode_id" with
    | none => Except.error "PS gate requires mode_id parameter"
    | some v =>
        let mode_id := toString (f2u v)
        match SMap.find params "phase" with
        | none => Except.error "PS gate requires phase parameter"
        | some phase_shift =>
            let modes := updateFirstMode state.modes mode_id (fun m =>
              { m with phases := m.phases.map (List.map (fun p => p + phase_shift)) })
            Except.ok { state with
              modes := modes,
              provenance := SMap.insert state.provenance "last_gate"
                ("PS(phase=" ++ fmtF64 phase_shift ++ ")") }
  else if gate = "BS" then
    match SMap.find params "mode1" with
    | none => Except.error "BS gate requires mode1 parameter"
    | some v1 =>
        let mode1 := toString (f2u v1)
        match SMap.find params "mode2" with
        | none => Except.error "BS gate requires mode2 parameter"
        | some v2 =>
            let mode2 := toString (f2u v2)
            match SMap.find params "theta" with
            | none => Except.error "BS gate requires theta parameter"
            | some theta =>
                let idx1 := state.modes.findIdx? (fun m => m.mode_id = mode1)
                let idx2 := state.modes.findIdx? (fun m => m.mode_id = mode2)
                let modes :=
                  match idx1, idx2 with
                  | some i1, some i2 =>
                      match ((state.modes.get? i1).bind (fun m => m.amplitudes)),
                            ((state.modes.get? i2).bind (fun m => m.amplitudes)) with
                      | some amp1, some amp2 =>
                          if amp1.length > 0 ∧ amp2.length > 0 then
                            let a1 := amp1.headD 0 * Real.cos theta -
                              amp2.headD 0 * Real.sin theta
                            let a2 := amp1.headD 0 * Real.sin theta +
                              amp2.headD 0 * Real.cos theta
                            let ms1 := listModify state.modes i1 (fun m =>
                              { m with amplitudes := m.amplitudes.map (fun a => setHead a a1) })
                            listModify ms1 i2 (fun m =>
                              { m with amplitudes := m.amplitudes.map (fun a => setHead a a2) })
                          else state.modes
                      | _, _ => state.modes
                  | _, _ => state.modes
                Except.ok { state with
                  modes := modes,
                  provenance := SMap.insert state.provenance "last_gate"
                    ("BS(theta=" ++ fmtF64 theta ++ ")") }
  else if gate = "SQUEEZING" then
    match SMap.find params "mode_id" with
    | none => Except.error "SQUEEZING gate requires mode_id parameter"
    | some v =>
        let mode_id := toString (f2u v)
        match SMap.find params "r" with
        | none => Except.error "SQUEEZING gate requires r parameter"
        | some r =>
            let modes := updateFirstMode state.modes mode_id (fun m =>
              { m with amplitudes := m.amplitudes.map (List.map (fun a => a * Real.exp r)) })
            Except.ok { state with
              modes := modes,
              provenance := SMap.insert state.provenance "last_gate"
                ("SQUEEZING(r=" ++ fmtF64 r ++ ")") }
  else if gate = "PDC" then
    match SMap.find params "pump_id" with
    | none => Except.error "PDC gate requires pump_id parameter"
    | some v =>
        let pump_id := toString (f2u v)
        let nonlinearity := (SMap.find params "nonlinearity").getD 0.1
        let modes := updateFirstMode state.modes pump_id (fun m =>
          { m with amplitudes := m.amplitudes.map (List.map (fun a => a * (1 + nonlinearity))) })
        Except.ok { state with
          modes := modes,
          provenance := SMap.insert state.provenance "last_gate"
            ("PDC(nonlinearity=" ++ fmtF64 nonlinearity ++ ")") }
  else
    Except.error ("unknown gate: " ++ gate)

/-- The categorical-sampling loop of `measure` (`cum_prob` accumulation with
early break); returns `none` when the loop never breaks, in which case the
Rust leaves `outcome_idx = 0`. -/
noncomputable def sampleLoop (r : ℝ) : List ℝ → ℝ → Nat → Option Nat
  | [], _, _ => none
  | p :: ps, cum, i =>
      if r < cum + p then some i else sampleLoop r ps (cum + p) (i + 1)

/-- `amps.iter_mut().enumerate()` zeroing every index other than `keep`. -/
def zeroExcept (amps : List ℝ) (keep : Nat) : List ℝ :=
  go amps 0
where
  go : List ℝ → Nat → List ℝ
    | [], _ => []
    | a :: rest, i => (if i ≠ keep then 0 else a) :: go rest (i + 1)

/-- `ReferenceStateEvolver::measure`.  `rngGen n` models
`StdRng::seed_from_u64(n).gen::<f64>()`, the single uniform draw of the
seeded PRNG (rand crate, opaque here; theorems quantify over it). -/
noncomputable def measure (rngGen : Nat → ℝ) (state : QuantumState)
    (mode_id : String) (seed : Option Nat) : Except String MeasurementOutcome :=
  let seed_val := seed.getD 0xDEADBEEF
  match state.modes.find? (fun m => m.mode_id = mode_id) with
  | none => Except.error ("mode " ++ mode_id ++ " not found")
  | some mode =>
      match mode.amplitudes with
      | none => Except.error ("mode " ++ mode_id ++ " has no amplitudes")
      | some amplitudes =>
          let probs := amplitudes.map (fun a => |a| ^ 2)
          let total := probs.sum
          if total ≤ 0 then
            Except.error "invalid probability distribution for measurement"
          else
            let normalized := probs.map (fun p => p / total)
            let r := rngGen seed_val
            let outcome_idx := (sampleLoop r normalized 0 0).getD 0
            let collapsed_modes := updateFirstMode state.modes mode_id (fun m =>
              { m with amplitudes := m.amplitudes.map (fun a => zeroExcept a outcome_idx) })
            let collapsed_state : QuantumState :=
              { id := state.id ++ "-measured-" ++ toString outcome_idx,
                modes := collapsed_modes,
                coherence_window := state.coherence_window,
                seed := some seed_val,
                provenance := SMap.insert state.provenance "measurement"
                  ("mode:" ++ mode_id ++ " outcome:" ++ toString outcome_idx) }
            Except.ok
              { outcome_index := outcome_idx,
                photon_count := outcome_idx,
                probability := (normalized.get? outcome_idx).getD 0,
                collapsed_state := some collapsed_state,
                seed_used := some seed_val }

/-- `ReferenceStateEvolver::is_coherent`. -/
def is_coherent (state : QuantumState) (current_time_ns : Nat) : Bool :=
  current_time_ns < state.coherence_window.end_ns

/-- `ReferenceCoherenceManager::create_window` (infallible in the source). -/
def create_window (start_ns duration_ns : Nat) (decoherence_model : String) :
    CoherenceWindow :=
  { id := "coh-" ++ toString start_ns ++ "-" ++ decoherence_model,
    start_ns := start_ns,
    end_ns := Scheduler.wrap64 (start_ns + duration_ns),
    decoherence_timescale_ns := some 500,
    cross_mode_decoherence_ns := some 750,
    idle_time_budget_ns := some 200,
    notes := some ("model:" ++ decoherence_model) }

/-- `ReferenceCoherenceManager::validate_coherence`. -/
def validate_coherence (state : QuantumState) (current_time_ns : Nat) :
    Except String Unit :=
  if current_time_ns > state.coherence_window.end_ns then
    Except.error "state exceeds coherence window end time"
  else Except.ok ()

-- ───────────────────────────────────────────────────────────────────────
-- C6 — evolver input validation
-- ───────────────────────────────────────────────────────────────────────
/-- Invalid-input condition stated by the specification: the gate tag is
unknown, or a required parameter key for the recognised gate is missing
(`mode_id`/`phase` for PS, `mode1`/`mode2`/`theta` for BS, `mode_id`/`r` for
SQUEEZING, `pump_id` for PDC; `nonlinearity` is optional for PDC). -/
def EvolveInputInvalid (gate : String) (params : SMap ℝ) : Prop :=
  (gate ≠ "PS" ∧ gate ≠ "BS" ∧ gate ≠ "SQUEEZING" ∧ gate ≠ "PDC") ∨
  (gate = "PS" ∧ (SMap.find params "mode_id" = none ∨ SMap.find params "phase" = none)) ∨
  (gate = "BS" ∧ (SMap.find params "mode1" = none ∨ SMap.find params "mode2" = none ∨
    SMap.find params "theta" = none)) ∨
  (gate = "SQUEEZING" ∧ (SMap.find params "mode_id" = none ∨ SMap.find params "r" = none)) ∨
  (gate = "PDC" ∧ SMap.find params "pump_id" = none)

/-- A one-mode state used by the evolver and measurement witnesses. -/
noncomputable def witnessState : QuantumState :=
  { id := "qstate-w",
    modes := [{ mode_id := "mode_0", mode_type := "quantum_fock",
                photon_numbers := some [0, 1, 2],
                amplitudes := some [0, 0, 0],
                phases := some [0, 0, 0] }],
    coherence_window := create_window 0 10000000 "gaussian",
    seed := some 42,
    provenance := [] }

end State

-- ━━━━━━━━━━━━━━━━━━━━━━━━━━━━━━━━━━━━━━━━━━━━━━━━━━━━━━━━━━━━━━━━━━━━━━━
-- src/engine/mod.rs — `Engine::run_graph` work-list loop (lines 69–147)
-- ━━━━━━━━━━━━━━━━━━━━━━━━━━━━━━━━━━━━━━━━━━━━━━━━━━━━━━━━━━━━━━━━━━━━━━━

namespace Engine

/-- The mutable locals of the `while idx < nodes_to_execute.len()` loop of
`Engine::run_graph`.  `executed` is the `HashSet` of executed node ids,
modelled as the list of insertions in order (each insertion is one actual
node execution).  `halted` records the error of a failed `?` step; once set,
the run is over and the state is frozen. -/
structure EngState where
  nodesToExecute : List String
  idx : Nat
  executed : List String
  qstate : State.QuantumState
  outcomes : SMap State.MeasurementOutcome
  halted : Option String

/-- Ids appended to the work list after a detector execution: for each
branch, the then-nodes when the realized outcome index matches, otherwise the
else-nodes if declared — in both cases only ids not yet executed. -/
def branchAppends (executed : List String) (outcome : State.MeasurementOutcome)
    (branches : List Ir.ConditionalBranch) : List String :=
  branches.flatMap fun b =>
    if outcome.outcome_index = b.outcome_index then
      b.then_nodes.filter (fun i => ¬ executed.contains i)
    else
      match b.else_nodes with
      | none => []
      | some es => es.filter (fun i => ¬ executed.contains i)

/-- Body of one actual node execution (the node was just marked executed and
`idx` already incremented).  Never touches `executed`. -/
noncomputable def execNode (f2u : ℝ → Nat) (fmtF64 : ℝ → String) (rngGen : Nat → ℝ)
    (g : Ir.Graph) (run_seed : Nat) (s : EngState) (node_id : String) : EngState :=
  match g.nodes.find? (fun n => n.id = node_id) with
  | none => { s with halted := some ("node " ++ node_id ++ " not found") }
  | some node =>
      let current_time_ns := s.idx * 1000
      match State.validate_coherence s.qstate current_time_ns with
      | Except.error e => { s with halted := some e }
      | Except.ok () =>
          if node.params.isEmpty then s
          else if node.node_type = "MZI" then
            let gate_params :=
              SMap.insert
                (SMap.insert (SMap.insert node.params "mode1" 0) "mode2" 1)
                "theta" ((SMap.find node.params "phase").getD 0.785)
            match State.evolve_state f2u fmtF64 s.qstate "BS" gate_params with
            | Except.error e => { s with halted := some e }
            | Except.ok st => { s with qstate := st }
          else if node.node_type = "PS" then
            let gp0 := SMap.insert node.params "mode_id" 0
            let gate_params :=
              if SMap.hasKey gp0 "phase" then gp0 else SMap.insert gp0 "phase" 0.1
            match State.evolve_state f2u fmtF64 s.qstate "PS" gate_params with
            | Except.error e => { s with halted := some e }
            | Except.ok st => { s with qstate := st }
          else if node.node_type = "DETECTOR" then
            let measure_mode := node.measure_mode.getD "mode_0"
            match State.measure rngGen s.qstate measure_mode
                (some (Scheduler.wrap64 (run_seed + s.idx))) with
            | Except.error e => { s with halted := some e }
            | Except.ok outcome =>
                match outcome.collapsed_state with
                | none =>
                    { s with
                      halted := some "measurement failed"
                      outcomes := SMap.insert s.outcomes node_id outcome }
                | some st =>
                    match node.conditional_branches with
                    | none =>
                        { s with
                          qstate := st
                          outcomes := SMap.insert s.outcomes node_id outcome }
                    | some branches =>
                        { s with
                          qstate := st
                          outcomes := SMap.insert s.outcomes node_id outcome
                          nodesToExecute := s.nodesToExecute ++
                            branchAppends s.executed outcome branches }
          else s

/-- One iteration of the work-list loop: take the id at `idx`, advance `idx`,
skip it when already executed, otherwise mark it executed and run it. -/
noncomputable def engStep (f2u : ℝ → Nat) (fmtF64 : ℝ → String) (rngGen : Nat → ℝ)
    (g : Ir.Graph) (run_seed : Nat) (s : EngState) : EngState :=
  if s.halted.isSome then s
  else
    match s.nodesToExecute.get? s.idx with
    | none => s
    | some node_id =>
        if s.executed.contains node_id then { s with idx := s.idx + 1 }
        else
          execNode f2u fmtF64 rngGen g run_seed
            { s with idx := s.idx + 1, executed := s.executed ++ [node_id] }
            node_id

/-- Fuel-indexed iteration of the loop (the loop terminates in the source
because every appended id is as-yet-unexecuted and ids come from the finite
graph; the safety theorem below holds at every fuel, so no termination
argument is needed). -/
noncomputable def engRun (f2u : ℝ → Nat) (fmtF64 : ℝ → String) (rngGen : Nat → ℝ)
    (g : Ir.Graph) (run_seed : Nat) : Nat → EngState → EngState
  | 0, s => s
  | fuel + 1, s => engRun f2u fmtF64 rngGen g run_seed fuel
      (engStep f2u fmtF64 rngGen g run_seed s)

/-- The initial loop state built by `run_graph` (work list in declaration
order, one `mode_i` per node in the |0⟩ state, fresh coherence window). -/
noncomputable def initEngState (g : Ir.Graph) (run_seed : Nat) : EngState :=
  { nodesToExecute := g.nodes.map (fun n => n.id),
    idx := 0,
    executed := [],
    qstate :=
      { id := "qstate-" ++ toString run_seed,
        modes := g.nodes.enum.map (fun p =>
          { mode_id := "mode_" ++ toString p.1,
            mode_type := "quantum_fock",
            photon_numbers := some [0, 1, 2],
            amplitudes := some [1, 0, 0],
            phases := some [0, 0, 0] }),
        coherence_window := State.create_window 0 10000000 "gaussian",
        seed := some run_seed,
        provenance := [("origin", "engine.run_graph")] },
    outcomes := [],
    halted := none }

end Engine

-- ━━━━━━━━━━━━━━━━━━━━━━━━━━━━━━━━━━━━━━━━━━━━━━━━━━━━━━━━━━━━━━━━━━━━━━━
-- src/plugins/reference_sim.rs — reference simulator
-- ━━━━━━━━━━━━━━━━━━━━━━━━━━━━━━━━━━━━━━━━━━━━━━━━━━━━━━━━━━━━━━━━━━━━━━━

namespace Sim

/-- `reference_sim::MeasurementResult`. -/
structure MeasurementResult where
  detector_id : String
  outcome : Option Nat
  analog_value : Option ℝ

/-- `reference_sim::NodeResult`. -/
structure NodeResult where
  node_id : String
  out_amplitude : ℝ × ℝ
  phase_noise : ℝ
  power_loss : ℝ
  measurement : Option MeasurementResult

/-- `reference_sim::SimulationResult`. -/
structure SimulationResult where
  run_seed : Nat
  node_results : List NodeResult

/-- Node loop of `run_reference_simulator`.  `draws seed k` models the k-th
value drawn from `StdRng::seed_from_u64(seed)` (the rand crate is opaque;
theorems quantify over the stream): `gen_range` calls yield the drawn value
directly, `gen_bool(p)` is modelled as `draws seed k < p`.  The accumulated
loss is threaded exactly as in the source (it is never read back). -/
noncomputable def simNodes (draws : Nat → Nat → ℝ) (seed : Nat) :
    List Ir.Node → (ℝ × ℝ) → ℝ → Nat → List NodeResult
  | [], _, _, _ => []
  | node :: rest, current, accumulated_loss, k =>
      let node_type := node.node_type.toLower
      if node_type = "mzi" then
        let phi := (SMap.find node.params "phase").getD 0
        let phase_noise := draws seed k
        let total_phase := phi + phase_noise
        let re := current.1
        let im := current.2
        let c := Real.cos total_phase
        let s := Real.sin total_phase
        let current2 := (re * c - im * s, re * s + im * c)
        let power_loss := (SMap.find node.params "loss").getD 0
        { node_id := node.id, out_amplitude := current2, phase_noise := phase_noise,
          power_loss := power_loss, measurement := none } ::
          simNodes draws seed rest current2 (accumulated_loss + power_loss) (k + 1)
      else if node_type = "ring" then
        let coupling := (SMap.find node.params "coupling").getD 0.1
        let detuning := (SMap.find node.params "detuning").getD 0
        let phase_noise := draws seed k
        let effective := coupling * (1 / (1 + |detuning|)) + phase_noise
        let re := current.1
        let im := current.2
        let c := Real.cos effective
        let s := Real.sin effective
        let current2 := (re * c - im * s, re * s + im * c)
        let power_loss := (SMap.find node.params "loss").getD 0
        { node_id := node.id, out_amplitude := current2, phase_noise := phase_noise,
          power_loss := power_loss, measurement := none } ::
          simNodes draws seed rest current2 (accumulated_loss + power_loss) (k + 1)
      else if node_type = "loss" then
        let loss := (SMap.find node.params "loss").getD 0
        let factor := 1 - max 0 (min loss 1)
        let current2 := (current.1 * factor, current.2 * factor)
        { node_id := node.id, out_amplitude := current2, phase_noise := 0,
          power_loss := loss, measurement := none } ::
          simNodes draws seed rest current2 (accumulated_loss + loss) k
      else if node_type = "detector" then
        let power := current.1 * current.1 + current.2 * current.2
        let quantum := (SMap.find node.params "quantum").getD 0
        let outcome :=
          if quantum > 0.5 then
            (if draws seed k < min power 1 then some 1 else some 0)
          else none
        let k2 := if quantum > 0.5 then k + 1 else k
        { node_id := node.id, out_amplitude := current,
          phase_noise := 0, power_loss := 0,
          measurement := some { detector_id := node.id, outcome := outcome,
                                analog_value := some power } } ::
          simNodes draws seed rest current accumulated_loss k2
      else
        { node_id := node.id, out_amplitude := current, phase_noise := 0,
          power_loss := 0, measurement := none } ::
          simNodes draws seed rest current accumulated_loss k

/-- `reference_sim::run_reference_simulator`.  Infallible (every source path
returns `Ok`), so the `Result` wrapper is dropped.  `parseF64` models
`str::parse::<f64>` on the metadata input amplitude. -/
noncomputable def run_reference_simulator (parseF64 : String → Option ℝ)
    (draws : Nat → Nat → ℝ) (g : Ir.Graph) (seed : Option Nat) : SimulationResult :=
  let seed_val := seed.getD 0xDEADBEEF
  let input_amp := ((SMap.find g.metadata "input_amplitude").bind parseF64).getD 1
  { run_seed := seed_val,
    node_results := simNodes draws seed_val g.nodes (input_amp, 0) 0 0 }

end Sim

-- ━━━━━━━━━━━━━━━━━━━━━━━━━━━━━━━━━━━━━━━━━━━━━━━━━━━━━━━━━━━━━━━━━━━━━━━
-- src/gradients.rs — finite-difference and analytic-adjoint providers
-- ━━━━━━━━━━━━━━━━━━━━━━━━━━━━━━━━━━━━━━━━━━━━━━━━━━━━━━━━━━━━━━━━━━━━━━━

namespace Gradients

/-- `gradients::NoiseModel` (never read by either reference provider). -/
structure NoiseModel where
  shot_noise_std : Option ℝ
  thermal_noise_std : Option ℝ
  phase_noise_std : Option ℝ
  loss_variation : Option ℝ
  metadata : Option (SMap String)

/-- `gradients::GradientOptions`. -/
structure GradientOptions where
  strategy : String
  seed : Option Nat
  samples : Option Nat

/-- `gradients::GradientResult`. -/
structure GradientResult where
  gradients : SMap ℝ
  gradient_std : Option (SMap ℝ)
  provenance : SMap String

/-- `iter().position(p)`. -/
def position {α : Type} (p : α → Bool) : List α → Option Nat
  | [] => none
  | x :: xs => if p x then some 0 else (position p xs).map (fun i => i + 1)

/-- `pname.contains(":")`, modelled structurally over the character list so
that it reduces on literals. -/
def hasColon (s : String) : Bool :=
  s.toList.contains ':'

/-- `pname.splitn(2, ':')`: the part before the first colon and the rest. -/
def splitnColon2 (s : String) : String × String :=
  let cs := s.toList
  (String.mk (cs.takeWhile (fun c => c ≠ ':')),
   String.mk ((cs.dropWhile (fun c => c ≠ ':')).drop 1))

/-- Parameter-handle resolution shared verbatim by both providers: a
`node_id:param` handle resolves to the position of the node with that id; a
bare name resolves to the first node whose params contain it.  `none` is
exactly the `node_idx_opt.is_none() || key_opt.is_none()` condition of the
source (in the colon form `key_opt` is always `Some`). -/
def resolveParam (g : Ir.Graph) (pname : String) : Option (Nat × String) :=
  if hasColon pname then
    match position (fun n => n.id = (splitnColon2 pname).1) g.nodes with
    | none => none
    | some i => some (i, (splitnColon2 pname).2)
  else
    match position (fun n => SMap.hasKey n.params pname) g.nodes with
    | none => none
    | some i => some (i, pname)

/-- `graph.nodes[node_idx].params.insert(key, v)`. -/
def setParam (g : Ir.Graph) (i : Nat) (key : String) (v : ℝ) : Ir.Graph :=
  { g with nodes := State.listModify g.nodes i (fun n =>
      { n with params := SMap.insert n.params key v }) }

/-- `ReferenceGradientProvider::evaluate_cost`: output power of the last node
result (infallible, since the simulator is). -/
noncomputable def evaluate_cost (parseF64 : String → Option ℝ)
    (draws : Nat → Nat → ℝ) (g : Ir.Graph) (seed : Option Nat) : ℝ :=
  let sim := Sim.run_reference_simulator parseF64 draws g seed
  match sim.node_results.getLast? with
  | some last => last.out_amplitude.1 * last.out_amplitude.1 +
      last.out_amplitude.2 * last.out_amplitude.2
  | none => 0

/-- The `for s in 0..samples` central-difference loop: perturb, evaluate,
reset — threading the mutated graph exactly as the source does.  Returns the
final graph, the gradient accumulator and the per-sample values. -/
noncomputable def fdSamples (parseF64 : String → Option ℝ) (draws : Nat → Nat → ℝ)
    (eps : ℝ) (seed_base : Nat) (node_idx : Nat) (key : String) (orig : ℝ) :
    Nat → Nat → Ir.Graph → ℝ → List ℝ → Ir.Graph × ℝ × List ℝ
  | 0, _, g, acc, vals => (g, acc, vals)
  | n + 1, s, g, acc, vals =>
      let seed1 := Scheduler.wrap64 (Scheduler.wrap64 (Scheduler.wrap64 (seed_base + s) * 2) + 1)
      let seed2 := Scheduler.wrap64 (Scheduler.wrap64 (Scheduler.wrap64 (seed_base + s) * 2) + 2)
      let gp := setParam g node_idx key (orig + eps)
      let f_plus := evaluate_cost parseF64 draws gp (some seed1)
      let gm := setParam gp node_idx key (orig - eps)
      let f_minus := evaluate_cost parseF64 draws gm (some seed2)
      let gr := setParam gm node_idx key orig
      let grad := (f_plus - f_minus) / (2 * eps)
      fdSamples parseF64 draws eps seed_base node_idx key orig n (s + 1) gr
        (acc + grad) (vals ++ [grad])

/-- Per-handle loop of `ReferenceGradientProvider::compute_gradients`,
threading the (mutated) graph and the two result maps. -/
noncomputable def fdLoop (parseF64 : String → Option ℝ) (draws : Nat → Nat → ℝ)
    (eps : ℝ) (seed_base : Nat) (samples : Nat) :
    List String → Ir.Graph → SMap ℝ → SMap ℝ → SMap ℝ × SMap ℝ
  | [], _, gradients, stds => (gradients, stds)
  | pname :: rest, g, gradients, stds =>
      match resolveParam g pname with
      | none =>
          fdLoop parseF64 draws eps seed_base samples rest g
            (SMap.insert gradients pname 0) (SMap.insert stds pname 0)
      | some (node_idx, key) =>
          let orig := ((g.nodes.get? node_idx).map
            (fun n => (SMap.find n.params key).getD 0)).getD 0
          let res := fdSamples parseF64 draws eps seed_base node_idx key orig
            samples 0 g 0 []
          let avg := res.2.1 / (samples : ℝ)
          let var := res.2.2.foldl (fun a v => a + (v - avg) * (v - avg)) 0
          let std := if samples > 1 then Real.sqrt (var / ((samples : ℝ) - 1)) else 0
          fdLoop parseF64 draws eps seed_base samples rest res.1
            (SMap.insert gradients pname avg) (SMap.insert stds pname std)

/-- `ReferenceGradientProvider::compute_gradients`.  The serialized-IR input
is modelled as the already-parsed graph (the `serde_json::from_str` step is
transport); given that, every source path returns `Ok`, so the `Result`
wrapper is dropped.  The noise model is accepted and ignored, as in the
source (`_noise`). -/
noncomputable def fdComputeGradients (parseF64 : String → Option ℝ)
    (draws : Nat → Nat → ℝ) (g : Ir.Graph) (params : List String)
    (noiseModel : NoiseModel) (opts : GradientOptions) : GradientResult :=
  let _ := noiseModel
  let eps : ℝ := 1e-6
  let seed_base := opts.seed.getD 0x12345678
  let _baseline := evaluate_cost parseF64 draws g (some seed_base)
  let samples := opts.samples.getD 1
  let res := fdLoop parseF64 draws eps seed_base samples params g [] []
  { gradients := res.1, gradient_std := some res.2,
    provenance := [("provider", "reference-fd")] }

/-- `ReferenceAdjointProvider::analytic_grad_for_param`: forward propagation
of the complex amplitude and its sensitivity.  `none` when the analytic path
is unsupported (anything but an `mzi` node's `phase`). -/
noncomputable def analytic_grad_for_param (parseF64 : String → Option ℝ)
    (g : Ir.Graph) (node_idx : Nat) (key : String) : Option ℝ :=
  if node_idx ≥ g.nodes.length then none
  else
    match g.nodes.get? node_idx with
    | none => none
    | some target_node =>
        if ¬ (target_node.node_type.toLower = "mzi" ∧ key = "phase") then none
        else
          let start : ℝ :=
            ((SMap.find g.metadata "input_amplitude").bind parseF64).getD 1
          let final := adjointFold node_idx g.nodes.enum (start, 0) (0, 0)
          let x := final.1.1
          let y := final.1.2
          let sx := final.2.1
          let sy := final.2.2
          some (2 * (x * sx + y * sy))
where
  /-- The `for (i, node) in graph.nodes.iter().enumerate()` propagation. -/
  adjointFold (node_idx : Nat) : List (Nat × Ir.Node) → (ℝ × ℝ) → (ℝ × ℝ) → (ℝ × ℝ) × (ℝ × ℝ)
    | [], current, s => (current, s)
    | (i, node) :: rest, current, s =>
        let node_type := node.node_type.toLower
        if node_type = "mzi" then
          let phi := (SMap.find node.params "phase").getD 0
          let c := Real.cos phi
          let sn := Real.sin phi
          let is_target := i = node_idx
          let cx := current.1
          let cy := current.2
          let s_new_x := (if is_target then (-sn) * cx + (-c) * cy else 0) +
            (c * s.1 + (-sn) * s.2)
          let s_new_y := (if is_target then c * cx + (-sn) * cy else 0) +
            (sn * s.1 + c * s.2)
          let new_x := c * cx + (-sn) * cy
          let new_y := sn * cx + c * cy
          adjointFold node_idx rest (new_x, new_y) (s_new_x, s_new_y)
        else if node_type = "loss" then
          let loss := (SMap.find node.params "loss").getD 0
          let factor := 1 - max 0 (min loss 1)
          adjointFold node_idx rest (current.1 * factor, current.2 * factor)
            (s.1 * factor, s.2 * factor)
        else if node_type = "ring" then
          let coupling := (SMap.find node.params "coupling").getD 0.1
          let detuning := (SMap.find node.params "detuning").getD 0
          let effective :=
            max (-Real.pi) (min (coupling * (1 / (1 + |detuning|))) Real.pi)
          let c := Real.cos effective
          let sn := Real.sin effective
          let cx := current.1
          let cy := current.2
          let s_new_x := 0 * cx + 0 * cy + (c * s.1 + (-sn) * s.2)
          let s_new_y := 0 * cx + 0 * cy + (sn * s.1 + c * s.2)
          let new_x := c * cx + (-sn) * cy
          let new_y := sn * cx + c * cy
          adjointFold node_idx rest (new_x, new_y) (s_new_x, s_new_y)
        else
          adjointFold node_idx rest current s

/-- Per-handle loop of `ReferenceAdjointProvider::compute_gradients`: zero
for unresolved handles, analytic when supported, finite-difference fallback
otherwise.  The fallback re-parses the original serialized IR, so it runs on
the original graph. -/
noncomputable def adjLoop (parseF64 : String → Option ℝ) (draws : Nat → Nat → ℝ)
    (g : Ir.Graph) (noiseModel : NoiseModel) (opts : GradientOptions) :
    List String → SMap ℝ → SMap ℝ → SMap ℝ × SMap ℝ
  | [], gradients, stds => (gradients, stds)
  | pname :: rest, gradients, stds =>
      match resolveParam g pname with
      | none =>
          adjLoop parseF64 draws g noiseModel opts rest
            (SMap.insert gradients pname 0) (SMap.insert stds pname 0)
      | some (node_idx, key) =>
          match analytic_grad_for_param parseF64 g node_idx key with
          | some gval =>
              adjLoop parseF64 draws g noiseModel opts rest
                (SMap.insert gradients pname gval) (SMap.insert stds pname 0)
          | none =>
              let res := fdComputeGradients parseF64 draws g [pname] noiseModel opts
              let gradients2 :=
                match SMap.find res.gradients pname with
                | some v => SMap.insert gradients pname v
                | none => gradients
              let stds2 :=
                match res.gradient_std with
                | none => stds
                | some smap =>
                    match SMap.find smap pname with
                    | some sv => SMap.insert stds pname sv
                    | none => stds
              adjLoop parseF64 draws g noiseModel opts rest gradients2 stds2

/-- `ReferenceAdjointProvider::compute_gradients` (same transport modelling
as the finite-difference provider). -/
noncomputable def adjComputeGradients (parseF64 : String → Option ℝ)
    (draws : Nat → Nat → ℝ) (g : Ir.Graph) (params : List String)
    (noiseModel : NoiseModel) (opts : GradientOptions) : GradientResult :=
  let res := adjLoop parseF64 draws g noiseModel opts params [] []
  { gradients := res.1, gradient_std := some res.2,
    provenance := [("provider", "reference-adjoint")] }

/-- C9 witness graph: one source node, no parameters anywhere. -/
def c9Graph : Ir.Graph :=
  { nodes := [{ id := "n0", node_type := "Source", params := [],
                measure_mode := none, conditional_branches := none }],
    edges := [], metadata := [] }

end Gradients

-- ━━━━━━━━━━━━━━━━━━━━━━━━━━━━━━━━━━━━━━━━━━━━━━━━━━━━━━━━━━━━━━━━━━━━━━━
-- Filesystem model shared by the chokepoint and the artifact storage:
-- a map from path strings to file payloads.  A payload is the typed value a
-- file holds; `json v` stands for the serde_json rendering of `v` (a fixed
-- injective printer, so payload equality models byte equality), `natText n`
-- stands for the decimal rendering of `n` (`u64::to_string`, injective), and
-- `text s` is a raw string.  A `dir` entry marks a directory created by
-- `create_dir_all`, so `Path::exists` is `Fs.read _ p ≠ none` and
-- `file_type().is_file()` distinguishes payloads from markers.
-- ━━━━━━━━━━━━━━━━━━━━━━━━━━━━━━━━━━━━━━━━━━━━━━━━━━━━━━━━━━━━━━━━━━━━━━━
/-- A file payload, or a directory marker (see the comment above). -/
inductive FileData where
  | json (v : Json)
  | text (s : String)
  | natText (n : Nat)
  | dir

/-- A directory tree as a path-keyed map. -/
abbrev Fs := List (String × FileData)

/-- `fs::read`. -/
def Fs.read (fs : Fs) (path : String) : Option FileData :=
  SMap.find fs path

/-- `fs::write` (creates or overwrites). -/
def Fs.write (fs : Fs) (path : String) (d : FileData) : Fs :=
  SMap.insert fs path d

-- ━━━━━━━━━━━━━━━━━━━━━━━━━━━━━━━━━━━━━━━━━━━━━━━━━━━━━━━━━━━━━━━━━━━━━━━
-- src/calibration/mod.rs — basic file-backed calibration helpers
-- ━━━━━━━━━━━━━━━━━━━━━━━━━━━━━━━━━━━━━━━━━━━━━━━━━━━━━━━━━━━━━━━━━━━━━━━

namespace Calibration

/-- `calibration::BasicCalibrationState`. -/
structure BasicCalibrationState where
  handle : String
  scale_factors : SMap ℝ

/-- serde_json value of a `BasicCalibrationState` (struct field order). -/
def calibToJson (st : BasicCalibrationState) : Json :=
  Json.obj
    [("handle", Json.str st.handle),
     ("scale_factors", Json.obj (st.scale_factors.map (fun kv => (kv.1, Json.num kv.2))))]

/-- Decode the numeric entries of a scale-factor object. -/
def scaleFactorsFromJson : List (String × Json) → Option (SMap ℝ)
  | [] => some []
  | (k, Json.num x) :: rest =>
      match scaleFactorsFromJson rest with
      | some m => some ((k, x) :: m)
      | none => none
  | _ => none

/-- serde deserialization of a `BasicCalibrationState`. -/
def calibFromJson (v : Json) : Option BasicCalibrationState :=
  match v with
  | Json.obj fields =>
      match SMap.find fields "handle", SMap.find fields "scale_factors" with
      | some (Json.str h), some (Json.obj sf) =>
          match scaleFactorsFromJson sf with
          | some m => some { handle := h, scale_factors := m }
          | none => none
      | _, _ => none
  | _ => none

/-- `calibration::basic_generate_default_state`; `uuid` models
`Uuid::new_v4()` (an effect of the uuid crate, opaque here). -/
def basic_generate_default_state (uuid : String) : BasicCalibrationState :=
  { handle := "cal-" ++ uuid, scale_factors := [("power", 1.05)] }

/-- `calibration::basic_save_state`: persist under
`dir/handles/<handle>.json` (infallible in the path-map model). -/
def basic_save_state (st : BasicCalibrationState) (dir : String) (fs : Fs) : Fs :=
  Fs.write fs (dir ++ "/handles/" ++ st.handle ++ ".json") (FileData.json (calibToJson st))

/-- `calibration::basic_load_state`: `Ok(None)` when the handle file is
absent, a parse error when present but malformed. -/
def basic_load_state (handle : String) (dir : String) (fs : Fs) :
    Except String (Option BasicCalibrationState) :=
  match Fs.read fs (dir ++ "/handles/" ++ handle ++ ".json") with
  | none => Except.ok none
  | some (FileData.json v) =>
      match calibFromJson v with
      | some st => Except.ok (some st)
      | none => Except.error "calibration parse error"
  | some _ => Except.error "calibration parse error"

/-- `calibration::basic_apply_to_params`: multiply each recognised numeric
parameter in place by its scale factor; anything that is not a JSON object
passes through untouched. -/
noncomputable def basic_apply_to_params (st : BasicCalibrationState)
    (params : Option Json) : Option Json :=
  match params with
  | some (Json.obj map) =>
      some (Json.obj (map.map (fun kv =>
        match SMap.find st.scale_factors kv.1, kv.2 with
        | some scale, Json.num n => (kv.1, Json.num (n * scale))
        | some scale, Json.natNum n => (kv.1, Json.num ((n : ℝ) * scale))
        | _, _ => kv)))
  | other => other

end Calibration

-- ━━━━━━━━━━━━━━━━━━━━━━━━━━━━━━━━━━━━━━━━━━━━━━━━━━━━━━━━━━━━━━━━━━━━━━━
-- src/chokepoint.rs — the non-bypassable execution gateway
-- ━━━━━━━━━━━━━━━━━━━━━━━━━━━━━━━━━━━━━━━━━━━━━━━━━━━━━━━━━━━━━━━━━━━━━━━

namespace Chokepoint

/-- `chokepoint::PhotonicOp`. -/
structure PhotonicOp where
  op_id : String
  op_type : String
  targets : List String
  params : Option Json
  calibration_handle : Option String

/-- `chokepoint::ExecContext`. -/
structure ExecContext where
  run_id : String
  timestamp_ns : Nat

/-- `chokepoint::ExecutionResult`. -/
structure ExecutionResult where
  ok : Bool
  details : Option String

/-- serde_json value of a `PhotonicOp` (struct field order). -/
def photonicOpToJson (op : PhotonicOp) : Json :=
  Json.obj
    [("op_id", Json.str op.op_id),
     ("op_type", Json.str op.op_type),
     ("targets", Json.arr (op.targets.map Json.str)),
     ("params", (op.params).getD Json.null),
     ("calibration_handle",
        match op.calibration_handle with
        | none => Json.null
        | some h => Json.str h)]

/-- The artifact directory `<temp>/awen_runtime_artifacts/<run_id>/<timestamp_ns>`
(the temp-dir prefix is dropped: paths are relative to it). -/
def outDir (ctx : ExecContext) : String :=
  "awen_runtime_artifacts/" ++ ctx.run_id ++ "/" ++ toString ctx.timestamp_ns

/-- `NonBypassableGateway::inject_calibration`, acting on the mutable clone:
with a handle, load and apply the stored state (missing file or load error is
tolerated: proceed unchanged); without one, generate a default state, persist
it, record its handle on the op and apply its scale factors.  Returns the
mutated op and the filesystem. -/
noncomputable def inject_calibration (uuid : String) (op : PhotonicOp)
    (artifacts_dir : String) (fs : Fs) : PhotonicOp × Fs :=
  match op.calibration_handle with
  | some handle =>
      match Calibration.basic_load_state handle artifacts_dir fs with
      | Except.ok (some st) =>
          ({ op with params := Calibration.basic_apply_to_params st op.params }, fs)
      | Except.ok none => (op, fs)
      | Except.error _ => (op, fs)
  | none =>
      let st := Calibration.basic_generate_default_state uuid
      let fs2 := Calibration.basic_save_state st artifacts_dir fs
      ({ op with
          calibration_handle := some st.handle,
          params := Calibration.basic_apply_to_params st op.params }, fs2)

/-- Value of `NonBypassableGateway::execute`, with explicit fields for the
caller's binding after the call (the Rust takes `&PhotonicOp`, so the callee
cannot write through it — the embedding threads it unchanged to make the
frame property a stated fact rather than a convention) and for the op
serialized to `op.json`, when execution reaches that write. -/
structure ExecOutcome where
  result : ExecutionResult
  fs : Fs
  callerOp : PhotonicOp
  writtenOp : Option PhotonicOp

/-- `NonBypassableGateway::execute` (lines 158–213 plus an abstracted tail).
`schemaValidate` models `validate_op_against_schema` — its JSON schema is
embedded from `awen-spec/schemas/photonic_ir.v5.json`, which is not among
the repository's staged sources, so validation is an opaque parameter.
`tail` models lines 214–342 (observability writes, bundle build and save,
plugin routing): that code reads only the injected clone and the context and
never mentions the caller's op, so it is a parameter from the clone, the
context and the filesystem to a result and a filesystem.  `uuid` models
`Uuid::new_v4()`. -/
noncomputable def execute (schemaValidate : PhotonicOp → Except String Unit)
    (tail : PhotonicOp → ExecContext → Fs → ExecutionResult × Fs)
    (uuid : String) (op : PhotonicOp) (ctx : ExecContext) (fs : Fs) : ExecOutcome :=
  if op.op_id = "" then
    { result := { ok := false, details := some "missing op_id" },
      fs := fs, callerOp := op, writtenOp := none }
  else
    match schemaValidate op with
    | Except.error e =>
        { result := { ok := false, details := some ("schema validation failed: " ++ e) },
          fs := fs, callerOp := op, writtenOp := none }
    | Except.ok () =>
        let out_dir := outDir ctx
        let inj := inject_calibration uuid op out_dir fs
        let op_clone := inj.1
        let fs2 := Fs.write inj.2 (out_dir ++ "/op.json")
          (FileData.json (photonicOpToJson op_clone))
        let t := tail op_clone ctx fs2
        { result := t.1, fs := t.2, callerOp := op, writtenOp := some op_clone }

/-- C10 concrete op: numeric `power` parameter, no calibration handle. -/
def c10Op : PhotonicOp :=
  { op_id := "op1", op_type := "phase_shift", targets := ["t0"],
    params := some (Json.obj [("power", Json.num 2)]),
    calibration_handle := none }

end Chokepoint

-- ━━━━━━━━━━━━━━━━━━━━━━━━━━━━━━━━━━━━━━━━━━━━━━━━━━━━━━━━━━━━━━━━━━━━━━━
-- src/storage/{environment,manifest,bundle}.rs — the artifact bundle data
-- model (`f64` as `ℝ`, `u64`/`usize` as `Nat`, `PathBuf` as `String`,
-- `[f64; 2]` as a pair).
-- ━━━━━━━━━━━━━━━━━━━━━━━━━━━━━━━━━━━━━━━━━━━━━━━━━━━━━━━━━━━━━━━━━━━━━━━

namespace Storage

/-- `storage::environment::PluginInfo`. -/
structure PluginInfo where
  name : String
  version : String

/-- `storage::environment::RuntimeInfo`. -/
structure RuntimeInfo where
  runtime_name : String
  version : String
  build_timestamp : String
  build_profile : String
  rust_version : String
  features : List String
  plugins : List PluginInfo

/-- `storage::environment::SystemInfo`. -/
structure SystemInfo where
  os : String
  os_version : String
  arch : String
  cpu_model : String
  cpu_cores : Nat
  memory_gb : Nat
  hostname : String

/-- `storage::environment::DeviceCapabilities`. -/
structure DeviceCapabilities where
  channels : Nat
  max_frequency_hz : ℝ
  wavelength_range_nm : ℝ × ℝ
  phase_resolution_rad : ℝ
  power_range_dbm : ℝ × ℝ

/-- `storage::environment::DeviceInfo`. -/
structure DeviceInfo where
  device_type : String
  device_id : String
  capabilities : DeviceCapabilities
  firmware_version : Option String
  calibration_date : Option String

/-- `storage::bundle::EnvironmentSnapshot`. -/
structure EnvironmentSnapshot where
  runtime : RuntimeInfo
  system : SystemInfo
  device : DeviceInfo

/-- `storage::manifest::ContentIndex`. -/
structure ContentIndex where
  ir : List String
  parameters : List String
  calibration : List String
  environment : List String
  execution : List String
  results : List String
  provenance : List String

/-- `storage::manifest::InputsHash`. -/
structure InputsHash where
  ir_hash : Option String
  parameters_hash : Option String
  calibration_hash : Option String
  seed : Option Nat

/-- `storage::manifest::OutputsHash`. -/
structure OutputsHash where
  results_hash : Option String
  success : Bool
  error : Option String

/-- `storage::manifest::CreatorData`. -/
structure CreatorData where
  user : Option String
  organization : Option String
  machine : String

/-- `storage::manifest::ProvisionInfo`. -/
structure ProvisionInfo where
  creator : Option CreatorData
  parent_artifacts : List String
  tags : List String
  notes : Option String

/-- `storage::manifest::Manifest`. -/
structure Manifest where
  schema_version : String
  artifact_id : String
  artifact_type : String
  created_at : String
  awen_runtime_version : String
  conformance_level : String
  determinism_guarantee : String
  contents : ContentIndex
  inputs : InputsHash
  outputs : OutputsHash
  provenance : ProvisionInfo

/-- `storage::bundle::ArtifactType`. -/
inductive ArtifactType where
  | run
  | gradient
  | calibration
  | replay
  | validation

/-- The citation metadata `export_to_directory` reads from
`bundle.provenance.citation_metadata` (`title`, `authors`, `organization`;
no struct of this name is declared anywhere in the crate). -/
structure CitationMetadata where
  title : String
  authors : String
  organization : String

/-- `storage::bundle::ProvenanceData`, in the shape `export_to_directory`
uses (`parent_artifacts`, `tags`, `notes`, `citation_metadata`).  The
declaration in `bundle.rs` has a conflicting shape (a `creator` and a plain
`citation` string) that `export.rs` does not compile against; the claim
under study cites `export.rs`/`import.rs`, so the shape those two files
agree on is the one embedded. -/
structure ProvenanceData where
  parent_artifacts : List String
  tags : List String
  notes : Option String
  citation_metadata : Option CitationMetadata

/-- `storage::bundle::ObservabilityData` (`PathBuf`s as strings). -/
structure ObservabilityData where
  traces : Option String
  timeline : Option String
  metrics : Option String
  events : Option String

/-- `storage::bundle::ArtifactBundle`. -/
structure ArtifactBundle where
  artifact_id : String
  artifact_type : ArtifactType
  manifest : Manifest
  ir_original : Ir.Graph
  ir_lowered : Option Ir.Graph
  parameters_initial : SMap ℝ
  parameters_final : Option (SMap ℝ)
  calibration_state_initial : Option Json
  calibration_state_final : Option Json
  results : Json
  seed : Option Nat
  observability : Option ObservabilityData
  environment : EnvironmentSnapshot
  provenance : ProvenanceData

-- ━━━━━━━━━━━━━━━━━━━━━━━━━━━━━━━━━━━━━━━━━━━━━━━━━━━━━━━━━━━━━━━━━━━━━━━
-- serde encoders and decoders for the bundle files.  `export::write_json`
-- serializes a struct with `serde_json::to_string_pretty`, which emits the
-- fields in declaration order; the encoders below list keys in that order.
-- `import::read_json::<T>` parses and then deserializes by field name, so
-- the decoders look keys up with `SMap.find`.  Every file `export` writes
-- carries all of its fields (serde writes `None` as `null`), so the
-- serde default of `None` for an absent `Option` field never fires and is
-- not modelled.
-- ━━━━━━━━━━━━━━━━━━━━━━━━━━━━━━━━━━━━━━━━━━━━━━━━━━━━━━━━━━━━━━━━━━━━━━━
/-- serde encoding of an `Option` field (`None` is `null`). -/
def optJson {α : Type} (f : α → Json) : Option α → Json
  | none => Json.null
  | some x => f x

/-- serde decoding of an `Option` field. -/
def jsonOpt {α : Type} (f : Json → Option α) : Json → Option (Option α)
  | Json.null => some none
  | v => (f v).map some

/-- serde encoding of a `Vec<String>`. -/
def strListJson (l : List String) : Json :=
  Json.arr (l.map Json.str)

/-- serde encoding of a `HashMap<String, f64>` (entries in the map's order;
every reader looks fields up by name, so the order never matters
downstream). -/
def realMapJson (m : SMap ℝ) : Json :=
  Json.obj (m.map (fun kv => (kv.1, Json.num kv.2)))

/-- serde encoding of an `[f64; 2]`. -/
def pairJson (p : ℝ × ℝ) : Json :=
  Json.arr [Json.num p.1, Json.num p.2]

/-- serde decoding of a `String`. -/
def jsonStr : Json → Option String
  | Json.str s => some s
  | _ => none

/-- serde decoding of a `u64`/`u32`/`usize`. -/
def jsonNat : Json → Option Nat
  | Json.natNum n => some n
  | _ => none

/-- serde decoding of an `f64` (integer literals are accepted, as by
serde_json's `f64` visitor). -/
def jsonReal : Json → Option ℝ
  | Json.num x => some x
  | Json.natNum n => some (n : ℝ)
  | _ => none

/-- serde decoding of a `bool`. -/
def jsonBool : Json → Option Bool
  | Json.bool b => some b
  | _ => none

/-- serde decoding of the element list of a `Vec<String>`. -/
def decStrList : List Json → Option (List String)
  | [] => some []
  | Json.str s :: rest =>
      match decStrList rest with
      | some l => some (s :: l)
      | none => none
  | _ => none

/-- serde decoding of a `Vec<String>`. -/
def jsonStrList : Json → Option (List String)
  | Json.arr xs => decStrList xs
  | _ => none

/-- serde decoding of an `[f64; 2]`. -/
def jsonPair : Json → Option (ℝ × ℝ)
  | Json.arr [a, b] =>
      match jsonReal a, jsonReal b with
      | some x, some y => some (x, y)
      | _, _ => none
  | _ => none

/-- serde decoding of the entry list of a `HashMap<String, f64>`. -/
def decRealEntries : List (String × Json) → Option (SMap ℝ)
  | [] => some []
  | (k, v) :: rest =>
      match jsonReal v, decRealEntries rest with
      | some x, some m => some ((k, x) :: m)
      | _, _ => none

/-- serde decoding of a `HashMap<String, f64>`. -/
def jsonRealMap : Json → Option (SMap ℝ)
  | Json.obj fields => decRealEntries fields
  | _ => none

/-- Decode one named field of a JSON object. -/
def field {α : Type} (f : List (String × Json)) (k : String)
    (dec : Json → Option α) : Option α :=
  (SMap.find f k).bind dec

/-- serde_json rendering of a `PluginInfo`. -/
def pluginToJson (p : PluginInfo) : Json :=
  Json.obj [("name", Json.str p.name), ("version", Json.str p.version)]

/-- serde decoding of the element list of a `Vec<PluginInfo>`. -/
def decPlugins : List Json → Option (List PluginInfo)
  | [] => some []
  | Json.obj f :: rest =>
      match field f "name" jsonStr, field f "version" jsonStr, decPlugins rest with
      | some n, some v, some l => some ({ name := n, version := v } :: l)
      | _, _, _ => none
  | _ => none

/-- serde decoding of a `Vec<PluginInfo>`. -/
def jsonPlugins : Json → Option (List PluginInfo)
  | Json.arr xs => decPlugins xs
  | _ => none

/-- serde_json rendering of a `RuntimeInfo`. -/
def runtimeInfoToJson (r : RuntimeInfo) : Json :=
  Json.obj
    [("runtime_name", Json.str r.runtime_name),
     ("version", Json.str r.version),
     ("build_timestamp", Json.str r.build_timestamp),
     ("build_profile", Json.str r.build_profile),
     ("rust_version", Json.str r.rust_version),
     ("features", strListJson r.features),
     ("plugins", Json.arr (r.plugins.map pluginToJson))]

/-- serde decoding of a `RuntimeInfo`. -/
def runtimeInfoFromJson : Json → Option RuntimeInfo
  | Json.obj f =>
      match field f "runtime_name" jsonStr, field f "version" jsonStr,
            field f "build_timestamp" jsonStr, field f "build_profile" jsonStr,
            field f "rust_version" jsonStr, field f "features" jsonStrList,
            field f "plugins" jsonPlugins with
      | some a, some b, some c, some d, some e, some fl, some pl =>
          some { runtime_name := a, version := b, build_timestamp := c,
                 build_profile := d, rust_version := e, features := fl,
                 plugins := pl }
      | _, _, _, _, _, _, _ => none
  | _ => none

/-- serde_json rendering of a `SystemInfo`. -/
def systemInfoToJson (s : SystemInfo) : Json :=
  Json.obj
    [("os", Json.str s.os),
     ("os_version", Json.str s.os_version),
     ("arch", Json.str s.arch),
     ("cpu_model", Json.str s.cpu_model),
     ("cpu_cores", Json.natNum s.cpu_cores),
     ("memory_gb", Json.natNum s.memory_gb),
     ("hostname", Json.str s.hostname)]

/-- serde decoding of a `SystemInfo`. -/
def systemInfoFromJson : Json → Option SystemInfo
  | Json.obj f =>
      match field f "os" jsonStr, field f "os_version" jsonStr,
            field f "arch" jsonStr, field f "cpu_model" jsonStr,
            field f "cpu_cores" jsonNat, field f "memory_gb" jsonNat,
            field f "hostname" jsonStr with
      | some a, some b, some c, some d, some e, some g, some h =>
          some { os := a, os_version := b, arch := c, cpu_model := d,
                 cpu_cores := e, memory_gb := g, hostname := h }
      | _, _, _, _, _, _, _ => none
  | _ => none

/-- serde_json rendering of a `DeviceCapabilities`. -/
def capsToJson (c : DeviceCapabilities) : Json :=
  Json.obj
    [("channels", Json.natNum c.channels),
     ("max_frequency_hz", Json.num c.max_frequency_hz),
     ("wavelength_range_nm", pairJson c.wavelength_range_nm),
     ("phase_resolution_rad", Json.num c.phase_resolution_rad),
     ("power_range_dbm", pairJson c.power_range_dbm)]

/-- serde decoding of a `DeviceCapabilities`. -/
def capsFromJson : Json → Option DeviceCapabilities
  | Json.obj f =>
      match field f "channels" jsonNat, field f "max_frequency_hz" jsonReal,
            field f "wavelength_range_nm" jsonPair,
            field f "phase_resolution_rad" jsonReal,
            field f "power_range_dbm" jsonPair with
      | some a, some b, some c, some d, some e =>
          some { channels := a, max_frequency_hz := b, wavelength_range_nm := c,
                 phase_resolution_rad := d, power_range_dbm := e }
      | _, _, _, _, _ => none
  | _ => none

/-- serde_json rendering of a `DeviceInfo`. -/
def deviceInfoToJson (d : DeviceInfo) : Json :=
  Json.obj
    [("device_type", Json.str d.device_type),
     ("device_id", Json.str d.device_id),
     ("capabilities", capsToJson d.capabilities),
     ("firmware_version", optJson Json.str d.firmware_version),
     ("calibration_date", optJson Json.str d.calibration_date)]

/-- serde decoding of a `DeviceInfo`. -/
def deviceInfoFromJson : Json → Option DeviceInfo
  | Json.obj f =>
      match field f "device_type" jsonStr, field f "device_id" jsonStr,
            field f "capabilities" capsFromJson,
            field f "firmware_version" (jsonOpt jsonStr),
            field f "calibration_date" (jsonOpt jsonStr) with
      | some a, some b, some c, some d, some e =>
          some { device_type := a, device_id := b, capabilities := c,
                 firmware_version := d, calibration_date := e }
      | _, _, _, _, _ => none
  | _ => none

/-- serde_json rendering of an `EnvironmentSnapshot`. -/
def envToJson (e : EnvironmentSnapshot) : Json :=
  Json.obj
    [("runtime", runtimeInfoToJson e.runtime),
     ("system", systemInfoToJson e.system),
     ("device", deviceInfoToJson e.device)]

/-- serde decoding of an `EnvironmentSnapshot`. -/
def envFromJson : Json → Option EnvironmentSnapshot
  | Json.obj f =>
      match field f "runtime" runtimeInfoFromJson,
            field f "system" systemInfoFromJson,
            field f "device" deviceInfoFromJson with
      | some r, some s, some d => some { runtime := r, system := s, device := d }
      | _, _, _ => none
  | _ => none

/-- serde_json rendering of a `ContentIndex`. -/
def contentIndexToJson (c : ContentIndex) : Json :=
  Json.obj
    [("ir", strListJson c.ir),
     ("parameters", strListJson c.parameters),
     ("calibration", strListJson c.calibration),
     ("environment", strListJson c.environment),
     ("execution", strListJson c.execution),
     ("results", strListJson c.results),
     ("provenance", strListJson c.provenance)]

/-- serde decoding of a `ContentIndex`. -/
def contentIndexFromJson : Json → Option ContentIndex
  | Json.obj f =>
      match field f "ir" jsonStrList, field f "parameters" jsonStrList,
            field f "calibration" jsonStrList, field f "environment" jsonStrList,
            field f "execution" jsonStrList, field f "results" jsonStrList,
            field f "provenance" jsonStrList with
      | some a, some b, some c, some d, some e, some g, some h =>
          some { ir := a, parameters := b, calibration := c, environment := d,
                 execution := e, results := g, provenance := h }
      | _, _, _, _, _, _, _ => none
  | _ => none

/-- serde_json rendering of an `InputsHash`. -/
def inputsToJson (i : InputsHash) : Json :=
  Json.obj
    [("ir_hash", optJson Json.str i.ir_hash),
     ("parameters_hash", optJson Json.str i.parameters_hash),
     ("calibration_hash", optJson Json.str i.calibration_hash),
     ("seed", optJson Json.natNum i.seed)]

/-- serde decoding of an `InputsHash`. -/
def inputsFromJson : Json → Option InputsHash
  | Json.obj f =>
      match field f "ir_hash" (jsonOpt jsonStr),
            field f "parameters_hash" (jsonOpt jsonStr),
            field f "calibration_hash" (jsonOpt jsonStr),
            field f "seed" (jsonOpt jsonNat) with
      | some a, some b, some c, some d =>
          some { ir_hash := a, parameters_hash := b, calibration_hash := c,
                 seed := d }
      | _, _, _, _ => none
  | _ => none

/-- serde_json rendering of an `OutputsHash`. -/
def outputsToJson (o : OutputsHash) : Json :=
  Json.obj
    [("results_hash", optJson Json.str o.results_hash),
     ("success", Json.bool o.success),
     ("error", optJson Json.str o.error)]

/-- serde decoding of an `OutputsHash`. -/
def outputsFromJson : Json → Option OutputsHash
  | Json.obj f =>
      match field f "results_hash" (jsonOpt jsonStr),
            field f "success" jsonBool,
            field f "error" (jsonOpt jsonStr) with
      | some a, some b, some c =>
          some { results_hash := a, success := b, error := c }
      | _, _, _ => none
  | _ => none

/-- serde_json rendering of a `CreatorData`. -/
def creatorToJson (c : CreatorData) : Json :=
  Json.obj
    [("user", optJson Json.str c.user),
     ("organization", optJson Json.str c.organization),
     ("machine", Json.str c.machine)]

/-- serde decoding of a `CreatorData`. -/
def creatorFromJson : Json → Option CreatorData
  | Json.obj f =>
      match field f "user" (jsonOpt jsonStr),
            field f "organization" (jsonOpt jsonStr),
            field f "machine" jsonStr with
      | some a, some b, some c => some { user := a, organization := b, machine := c }
      | _, _, _ => none
  | _ => none

/-- serde_json rendering of a `ProvisionInfo`. -/
def provisionToJson (p : ProvisionInfo) : Json :=
  Json.obj
    [("creator", optJson creatorToJson p.creator),
     ("parent_artifacts", strListJson p.parent_artifacts),
     ("tags", strListJson p.tags),
     ("notes", optJson Json.str p.notes)]

/-- serde decoding of a `ProvisionInfo`. -/
def provisionFromJson : Json → Option ProvisionInfo
  | Json.obj f =>
      match field f "creator" (jsonOpt creatorFromJson),
            field f "parent_artifacts" jsonStrList,
            field f "tags" jsonStrList,
            field f "notes" (jsonOpt jsonStr) with
      | some a, some b, some c, some d =>
          some { creator := a, parent_artifacts := b, tags := c, notes := d }
      | _, _, _, _ => none
  | _ => none

/-- serde_json rendering of a `Manifest`. -/
def manifestToJson (m : Manifest) : Json :=
  Json.obj
    [("schema_version", Json.str m.schema_version),
     ("artifact_id", Json.str m.artifact_id),
     ("artifact_type", Json.str m.artifact_type),
     ("created_at", Json.str m.created_at),
     ("awen_runtime_version", Json.str m.awen_runtime_version),
     ("conformance_level", Json.str m.conformance_level),
     ("determinism_guarantee", Json.str m.determinism_guarantee),
     ("contents", contentIndexToJson m.contents),
     ("inputs", inputsToJson m.inputs),
     ("outputs", outputsToJson m.outputs),
     ("provenance", provisionToJson m.provenance)]

/-- serde decoding of a `Manifest`. -/
def manifestFromJson : Json → Option Manifest
  | Json.obj f =>
      match field f "schema_version" jsonStr, field f "artifact_id" jsonStr,
            field f "artifact_type" jsonStr, field f "created_at" jsonStr,
            field f "awen_runtime_version" jsonStr,
            field f "conformance_level" jsonStr,
            field f "determinism_guarantee" jsonStr,
            field f "contents" contentIndexFromJson,
            field f "inputs" inputsFromJson,
            field f "outputs" outputsFromJson,
            field f "provenance" provisionFromJson with
      | some a, some b, some c, some d, some e, some g, some h, some ci,
        some ih, some oh, some pv =>
          some { schema_version := a, artifact_id := b, artifact_type := c,
                 created_at := d, awen_runtime_version := e,
                 conformance_level := g, determinism_guarantee := h,
                 contents := ci, inputs := ih, outputs := oh, provenance := pv }
      | _, _, _, _, _, _, _, _, _, _, _ => none
  | _ => none

/-- serde_json rendering of a `CitationMetadata`. -/
def citationToJson (c : CitationMetadata) : Json :=
  Json.obj
    [("title", Json.str c.title),
     ("authors", Json.str c.authors),
     ("organization", Json.str c.organization)]

/-- serde decoding of a `CitationMetadata`. -/
def citationFromJson : Json → Option CitationMetadata
  | Json.obj f =>
      match field f "title" jsonStr, field f "authors" jsonStr,
            field f "organization" jsonStr with
      | some a, some b, some c => some { title := a, authors := b, organization := c }
      | _, _, _ => none
  | _ => none

/-- serde_json rendering of a `ProvenanceData` (`provenance/lineage.json`). -/
def provDataToJson (p : ProvenanceData) : Json :=
  Json.obj
    [("parent_artifacts", strListJson p.parent_artifacts),
     ("tags", strListJson p.tags),
     ("notes", optJson Json.str p.notes),
     ("citation_metadata", optJson citationToJson p.citation_metadata)]

/-- serde decoding of a `ProvenanceData`. -/
def provDataFromJson : Json → Option ProvenanceData
  | Json.obj f =>
      match field f "parent_artifacts" jsonStrList, field f "tags" jsonStrList,
            field f "notes" (jsonOpt jsonStr),
            field f "citation_metadata" (jsonOpt citationFromJson) with
      | some a, some b, some c, some d =>
          some { parent_artifacts := a, tags := b, notes := c,
                 citation_metadata := d }
      | _, _, _, _ => none
  | _ => none

-- serde serialization of `ir::Graph` as `write_json` emits it (struct field
-- order; contrast `Ir.graphToJson`, the sorted `to_value` form hashed by
-- `deterministic_id.rs`).  `Node.node_type` serializes under the key
-- `"type"` (`#[serde(rename = "type")]`).
/-- `write_json` rendering of an `Ir.ConditionalBranch`. -/
def branchSerdeJson (b : Ir.ConditionalBranch) : Json :=
  Json.obj
    [("outcome_index", Json.natNum b.outcome_index),
     ("then_nodes", strListJson b.then_nodes),
     ("else_nodes", optJson strListJson b.else_nodes)]

/-- serde decoding of an `Ir.ConditionalBranch`. -/
def branchFromJson : Json → Option Ir.ConditionalBranch
  | Json.obj f =>
      match field f "outcome_index" jsonNat, field f "then_nodes" jsonStrList,
            field f "else_nodes" (jsonOpt jsonStrList) with
      | some o, some t, some e =>
          some { outcome_index := o, then_nodes := t, else_nodes := e }
      | _, _, _ => none
  | _ => none

/-- serde decoding of the element list of a `Vec<ConditionalBranch>`. -/
def decBranches : List Json → Option (List Ir.ConditionalBranch)
  | [] => some []
  | v :: rest =>
      match branchFromJson v, decBranches rest with
      | some b, some l => some (b :: l)
      | _, _ => none

/-- serde decoding of a `Vec<ConditionalBranch>`. -/
def jsonBranches : Json → Option (List Ir.ConditionalBranch)
  | Json.arr xs => decBranches xs
  | _ => none

/-- `write_json` rendering of an `Ir.Node`. -/
def nodeSerdeJson (n : Ir.Node) : Json :=
  Json.obj
    [("id", Json.str n.id),
     ("type", Json.str n.node_type),
     ("params", realMapJson n.params),
     ("measure_mode", optJson Json.str n.measure_mode),
     ("conditional_branches",
        optJson (fun bs => Json.arr (bs.map branchSerdeJson)) n.conditional_branches)]

/-- serde decoding of an `Ir.Node`. -/
def nodeFromJson : Json → Option Ir.Node
  | Json.obj f =>
      match field f "id" jsonStr, field f "type" jsonStr,
            field f "params" jsonRealMap,
            field f "measure_mode" (jsonOpt jsonStr),
            field f "conditional_branches" (jsonOpt jsonBranches) with
      | some i, some t, some p, some m, some c =>
          some { id := i, node_type := t, params := p, measure_mode := m,
                 conditional_branches := c }
      | _, _, _, _, _ => none
  | _ => none

/-- `write_json` rendering of an `Ir.Edge`. -/
def edgeSerdeJson (e : Ir.Edge) : Json :=
  Json.obj
    [("src_node", Json.str e.src_node),
     ("src_port", optJson Json.str e.src_port),
     ("dst_node", Json.str e.dst_node),
     ("dst_port", optJson Json.str e.dst_port),
     ("delay", optJson Json.num e.delay)]

/-- serde decoding of an `Ir.Edge`. -/
def edgeFromJson : Json → Option Ir.Edge
  | Json.obj f =>
      match field f "src_node" jsonStr, field f "src_port" (jsonOpt jsonStr),
            field f "dst_node" jsonStr, field f "dst_port" (jsonOpt jsonStr),
            field f "delay" (jsonOpt jsonReal) with
      | some a, some b, some c, some d, some e =>
          some { src_node := a, src_port := b, dst_node := c, dst_port := d,
                 delay := e }
      | _, _, _, _, _ => none
  | _ => none

/-- serde decoding of the element list of a `Vec<Node>`. -/
def decNodes : List Json → Option (List Ir.Node)
  | [] => some []
  | v :: rest =>
      match nodeFromJson v, decNodes rest with
      | some n, some l => some (n :: l)
      | _, _ => none

/-- serde decoding of the element list of a `Vec<Edge>`. -/
def decEdges : List Json → Option (List Ir.Edge)
  | [] => some []
  | v :: rest =>
      match edgeFromJson v, decEdges rest with
      | some e, some l => some (e :: l)
      | _, _ => none

/-- serde decoding of the entry list of a `HashMap<String, String>`. -/
def decStrEntries : List (String × Json) → Option (SMap String)
  | [] => some []
  | (k, Json.str s) :: rest =>
      match decStrEntries rest with
      | some m => some ((k, s) :: m)
      | none => none
  | _ => none

/-- `write_json` rendering of an `Ir.Graph`. -/
def graphSerdeJson (g : Ir.Graph) : Json :=
  Json.obj
    [("nodes", Json.arr (g.nodes.map nodeSerdeJson)),
     ("edges", Json.arr (g.edges.map edgeSerdeJson)),
     ("metadata", Json.obj (g.metadata.map (fun kv => (kv.1, Json.str kv.2))))]

/-- serde decoding of an `Ir.Graph`. -/
def graphFromJson : Json → Option Ir.Graph
  | Json.obj f =>
      match SMap.find f "nodes", SMap.find f "edges", SMap.find f "metadata" with
      | some (Json.arr ns), some (Json.arr es), some (Json.obj md) =>
          match decNodes ns, decEdges es, decStrEntries md with
          | some nl, some el, some ml =>
              some { nodes := nl, edges := el, metadata := ml }
          | _, _, _ => none
      | _, _, _ => none
  | _ => none

-- ━━━━━━━━━━━━━━━━━━━━━━━━━━━━━━━━━━━━━━━━━━━━━━━━━━━━━━━━━━━━━━━━━━━━━━━
-- src/storage/export.rs — export_to_directory.  All paths are relative to
-- the bundle directory `output_dir/artifact_id` the function creates and
-- returns; the directory tree is taken fresh (no stale files from an
-- earlier export of the same id).  Two helpers the file calls are missing
-- from the crate and enter as opaque parameters: `compute_checksum_sha256`
-- (`sha`, a pure function of a file's bytes, hence of its payload) and the
-- mod-level `generate_citation` (`genCitation`, applied to artifact id,
-- title, authors, organization and runtime version).
-- ━━━━━━━━━━━━━━━━━━━━━━━━━━━━━━━━━━━━━━━━━━━━━━━━━━━━━━━━━━━━━━━━━━━━━━━
/-- `str::starts_with`, structural on the character lists. -/
def strStartsWith (s pre : String) : Bool :=
  pre.toList.isPrefixOf s.toList

/-- `entry.file_type().is_file()` on a tree entry's payload. -/
def isFile : FileData → Bool
  | FileData.dir => false
  | _ => true

/-- The subdirectories `export_to_directory` creates with `create_dir_all`,
as directory-marker entries. -/
def exportDirs : Fs :=
  [("ir", FileData.dir), ("parameters", FileData.dir),
   ("calibration", FileData.dir), ("environment", FileData.dir),
   ("execution", FileData.dir), ("results", FileData.dir),
   ("provenance", FileData.dir)]

/-- Every file write of `export_to_directory` before the checksum pass, in
source order; a `none` payload is a write whose surrounding `if let` /
`if let Some` guard did not fire. -/
def exportEntries
    (genCitation : String → String → String → String → String → String)
    (b : ArtifactBundle) : List (String × Option FileData) :=
  [("ir/original.json", some (FileData.json (graphSerdeJson b.ir_original))),
   ("ir/lowered.json",
      b.ir_lowered.map (fun g => FileData.json (graphSerdeJson g))),
   ("parameters/initial.json",
      some (FileData.json (realMapJson b.parameters_initial))),
   ("parameters/final.json",
      b.parameters_final.map (fun m => FileData.json (realMapJson m))),
   ("calibration/initial.json", b.calibration_state_initial.map FileData.json),
   ("calibration/final.json", b.calibration_state_final.map FileData.json),
   ("environment/snapshot.json", some (FileData.json (envToJson b.environment))),
   ("environment/seed.txt", b.seed.map FileData.natText),
   ("execution/traces.jsonl",
      (b.observability.bind (fun o => o.traces)).map
        (fun p => FileData.json (Json.str p))),
   ("execution/metrics.json",
      (b.observability.bind (fun o => o.metrics)).map
        (fun p => FileData.json (Json.str p))),
   ("execution/events.jsonl",
      (b.observability.bind (fun o => o.events)).map
        (fun p => FileData.json (Json.str p))),
   ("execution/timeline.json",
      (b.observability.bind (fun o => o.timeline)).map
        (fun p => FileData.json (Json.str p))),
   ("results/outputs.json", some (FileData.json b.results)),
   ("provenance/lineage.json", some (FileData.json (provDataToJson b.provenance))),
   ("provenance/citation.txt",
      b.provenance.citation_metadata.map (fun md =>
        FileData.text (genCitation b.artifact_id md.title md.authors
          md.organization b.environment.runtime.version)))]

/-- Drop the skipped conditional writes, keeping the written path-payload
pairs in write order. -/
def coreOf (l : List (String × Option FileData)) : Fs :=
  l.filterMap (fun pe => pe.2.map (fun d => (pe.1, d)))

/-- `export::compute_bundle_checksums`: one entry per regular file in the
tree at checksum time, keyed by bundle-relative path; the map is a
`serde_json::Map` (a `BTreeMap`), hence sorted. -/
def checksumsJson (sha : FileData → String) (tree : Fs) : Json :=
  Json.obj (sortFields ((tree.filter (fun kv => isFile kv.2)).map
    (fun kv => (kv.1, Json.str (sha kv.2)))))

/-- `export::export_to_directory`, as the directory tree it leaves behind:
the seven subdirectories, the written bundle files, then `checksums.json`
over the files present at that point, then `manifest.json`. -/
def export_to_directory (sha : FileData → String)
    (genCitation : String → String → String → String → String → String)
    (b : ArtifactBundle) : Fs :=
  exportDirs ++ (coreOf (exportEntries genCitation b)
    ++ [("checksums.json", FileData.json (checksumsJson sha
           (exportDirs ++ coreOf (exportEntries genCitation b)))),
        ("manifest.json", FileData.json (manifestToJson b.manifest))])

-- ━━━━━━━━━━━━━━━━━━━━━━━━━━━━━━━━━━━━━━━━━━━━━━━━━━━━━━━━━━━━━━━━━━━━━━━
-- src/storage/import.rs — import_from_directory and validate_bundle.
-- Error strings model the `anyhow` contexts up to their path formatting.
-- ━━━━━━━━━━━━━━━━━━━━━━━━━━━━━━━━━━━━━━━━━━━━━━━━━━━━━━━━━━━━━━━━━━━━━━━
/-- `import::read_json::<T>`: read a file and deserialize it; `dec` is the
derived `Deserialize` impl of `T`.  A `natText` payload renders as a JSON
integer, so it parses; a raw `text` payload stands for a non-JSON string
here (the only one written, `citation.txt`, is never read back). -/
def read_json {α : Type} (dec : Json → Option α) (fs : Fs) (p : String) :
    Except String α :=
  match Fs.read fs p with
  | none => Except.error ("Failed to read " ++ p)
  | some FileData.dir => Except.error ("Failed to read " ++ p)
  | some (FileData.text _) => Except.error ("Failed to parse JSON from " ++ p)
  | some (FileData.natText n) =>
      match dec (Json.natNum n) with
      | some x => Except.ok x
      | none => Except.error ("Failed to parse JSON from " ++ p)
  | some (FileData.json v) =>
      match dec v with
      | some x => Except.ok x
      | none => Except.error ("Failed to parse JSON from " ++ p)

/-- `import::read_json_optional::<T>`: `Ok(None)` when the path does not
exist, otherwise `read_json`. -/
def read_json_optional {α : Type} (dec : Json → Option α) (fs : Fs)
    (p : String) : Except String (Option α) :=
  match Fs.read fs p with
  | none => Except.ok none
  | some _ => (read_json dec fs p).map some

/-- Loop body of `import::validate_checksums`: a listed path that does not
exist is skipped; a non-string expected value is an error; a hash mismatch
aborts with both hashes. -/
def checkEntries (sha : FileData → String) (fs : Fs) :
    List (String × Json) → Except String Unit
  | [] => Except.ok ()
  | (p, ej) :: rest =>
      match Fs.read fs p with
      | none => checkEntries sha fs rest
      | some d =>
          match ej with
          | Json.str expected =>
              if sha d = expected then checkEntries sha fs rest
              else Except.error ("Checksum mismatch for " ++ p ++ ": expected "
                ++ expected ++ ", got " ++ sha d)
          | _ => Except.error "Checksum must be a string"

/-- `import::validate_checksums`. -/
def validate_checksums (sha : FileData → String) (fs : Fs) :
    Except String Unit :=
  match read_json some fs "checksums.json" with
  | Except.error e => Except.error e
  | Except.ok v =>
      match v with
      | Json.obj cs => checkEntries sha fs cs
      | _ => Except.error "checksums.json must be an object"

/-- The conditional checksum step of `import_from_directory`:
`validate_checksums` runs only when `checksums.json` exists. -/
def checksumStep (sha : FileData → String) (fs : Fs) : Except String Unit :=
  match Fs.read fs "checksums.json" with
  | none => Except.ok ()
  | some _ => validate_checksums sha fs

/-- The seed step of `import_from_directory`: if `environment/seed.txt`
exists, its trimmed text must parse as a `u64` (a decimal `natText` payload
or an integer JSON rendering does; anything else models a parse failure
with the std error text). -/
def seedStep (fs : Fs) : Except String (Option Nat) :=
  match Fs.read fs "environment/seed.txt" with
  | none => Except.ok none
  | some (FileData.natText n) => Except.ok (some n)
  | some (FileData.json (Json.natNum n)) => Except.ok (some n)
  | some _ => Except.error "invalid digit found in string"

/-- `import::load_observability`: `None` when the `execution` directory does
not exist or holds none of the four files. -/
def load_observability (fs : Fs) : Except String (Option ObservabilityData) :=
  match Fs.read fs "execution" with
  | none => Except.ok none
  | some _ => do
      let traces ← read_json_optional jsonStr fs "execution/traces.jsonl"
      let metrics ← read_json_optional jsonStr fs "execution/metrics.json"
      let events ← read_json_optional jsonStr fs "execution/events.jsonl"
      let timeline ← read_json_optional jsonStr fs "execution/timeline.json"
      if traces.isNone && metrics.isNone && events.isNone && timeline.isNone then
        Except.ok none
      else
        Except.ok (some { traces := traces, metrics := metrics,
                          events := events, timeline := timeline })

/-- The `artifact_type` string match of `import_from_directory`. -/
def parseArtifactType (s : String) : Except String ArtifactType :=
  if s = "run" then Except.ok ArtifactType.run
  else if s = "gradient" then Except.ok ArtifactType.gradient
  else if s = "calibration" then Except.ok ArtifactType.calibration
  else if s = "replay" then Except.ok ArtifactType.replay
  else if s = "validation" then Except.ok ArtifactType.validation
  else Except.error ("Unknown artifact type: " ++ s)

/-- `import::validate_bundle` (the one the importer calls; a second, weaker
`validate_bundle` in `bundle.rs` is not on the import path).  The
deterministic id is recomputed from the bundle's own fields, so the sha2 /
hex / float-bit externals enter as the same opaque parameters as in
`compute_deterministic_id`. -/
def validate_bundle (sha256 : List Nat → List Nat) (hexEnc : List Nat → String)
    (f64le : ℝ → List Nat) (rf : ℝ → String) (bundle : ArtifactBundle) :
    Except String Unit :=
  if !strStartsWith bundle.manifest.schema_version "awen_artifact" then
    Except.error ("Invalid manifest schema version: "
      ++ bundle.manifest.schema_version)
  else
    let computed_id := compute_deterministic_id sha256 hexEnc f64le rf
      bundle.ir_original bundle.parameters_initial
      bundle.calibration_state_initial bundle.seed
      bundle.environment.runtime.version
    if computed_id ≠ bundle.artifact_id then
      Except.error ("Artifact ID mismatch: manifest says " ++ bundle.artifact_id
        ++ ", computed " ++ computed_id)
    else if SMap.isEmptyMap bundle.parameters_initial then
      Except.error "parameters_initial is required"
    else Except.ok ()

/-- `import::import_from_directory` on a bundle directory tree: manifest
first, then the checksum pass, then every bundle file, then the artifact
type match, then `validate_bundle` on the assembled bundle. -/
def import_from_directory (sha : FileData → String)
    (sha256 : List Nat → List Nat) (hexEnc : List Nat → String)
    (f64le : ℝ → List Nat) (rf : ℝ → String) (fs : Fs) :
    Except String ArtifactBundle := do
  let manifest ← read_json manifestFromJson fs "manifest.json"
  checksumStep sha fs
  let ir_original ← read_json graphFromJson fs "ir/original.json"
  let ir_lowered ← read_json_optional graphFromJson fs "ir/lowered.json"
  let parameters_initial ← read_json jsonRealMap fs "parameters/initial.json"
  let parameters_final ← read_json_optional jsonRealMap fs "parameters/final.json"
  let calibration_state_initial ← read_json_optional some fs "calibration/initial.json"
  let calibration_state_final ← read_json_optional some fs "calibration/final.json"
  let environment ← read_json envFromJson fs "environment/snapshot.json"
  let seed ← seedStep fs
  let observability ← load_observability fs
  let results ← read_json some fs "results/outputs.json"
  let provenance ← read_json provDataFromJson fs "provenance/lineage.json"
  let artifact_type ← parseArtifactType manifest.artifact_type
  let bundle : ArtifactBundle :=
    { artifact_id := manifest.artifact_id
      artifact_type := artifact_type
      manifest := manifest
      ir_original := ir_original
      ir_lowered := ir_lowered
      parameters_initial := parameters_initial
      parameters_final := parameters_final
      calibration_state_initial := calibration_state_initial
      calibration_state_final := calibration_state_final
      results := results
      seed := seed
      observability := observability
      environment := environment
      provenance := provenance }
  validate_bundle sha256 hexEnc f64le rf bundle
  Except.ok bundle

-- ── Concrete bundles: counterexample and witness ──
/-- Constant checksum function standing in for the missing
`compute_checksum_sha256` on concrete runs. -/
def c2sha : FileData → String := fun _ => ""

/-- Constant citation generator standing in for the missing
`generate_citation` on concrete runs. -/
def c2gen : String → String → String → String → String → String :=
  fun _ _ _ _ _ => ""

/-- Constant sha2 model for concrete runs. -/
def c2sha256 : List Nat → List Nat := fun _ => []

/-- Constant hex encoder for concrete runs. -/
def c2hex : List Nat → String := fun _ => ""

/-- Constant `f64::to_le_bytes` model for concrete runs. -/
def c2f64le : ℝ → List Nat := fun _ => []

/-- Constant float formatter for concrete runs. -/
def c2rf : ℝ → String := fun _ => ""

/-- The empty IR graph (as in the export-side test bundle). -/
def c2Graph : Ir.Graph := { nodes := [], edges := [], metadata := [] }

/-- A concrete environment snapshot (the test values of `export.rs`). -/
def c2Env : EnvironmentSnapshot :=
  { runtime :=
      { runtime_name := "awen-runtime", version := "0.5.0",
        build_timestamp := "2024-01-01", build_profile := "release",
        rust_version := "1.75", features := [], plugins := [] },
    system :=
      { os := "linux", os_version := "Ubuntu 24.04", arch := "x86_64",
        cpu_model := "Test CPU", cpu_cores := 8, memory_gb := 16,
        hostname := "test" },
    device :=
      { device_type := "simulated", device_id := "sim_0",
        capabilities :=
          { channels := 64, max_frequency_hz := 0,
            wavelength_range_nm := (1530, 1570), phase_resolution_rad := 0,
            power_range_dbm := (0, 10) },
        firmware_version := none, calibration_date := none } }

/-- The deterministic id of the counterexample bundle (empty parameters). -/
def c2ceId : String :=
  compute_deterministic_id c2sha256 c2hex c2f64le c2rf c2Graph [] none
    (some 42) "0.5.0"

/-- Manifest of the counterexample bundle: well-formed in every respect. -/
def c2ceManifest : Manifest :=
  { schema_version := "awen_artifact.v0.2", artifact_id := c2ceId,
    artifact_type := "run", created_at := "2024-01-01",
    awen_runtime_version := "0.5.0", conformance_level := "full",
    determinism_guarantee := "bit-exact",
    contents := { ir := [], parameters := [], calibration := [],
                  environment := [], execution := [], results := [],
                  provenance := [] },
    inputs := { ir_hash := none, parameters_hash := none,
                calibration_hash := none, seed := some 42 },
    outputs := { results_hash := none, success := true, error := none },
    provenance := { creator := none, parent_artifacts := [], tags := [],
                    notes := none } }

/-- The counterexample bundle: exactly the export-side test bundle shape
(`create_test_bundle`), whose `parameters_initial` is the empty map. -/
def c2ce : ArtifactBundle :=
  { artifact_id := c2ceId, artifact_type := ArtifactType.run,
    manifest := c2ceManifest, ir_original := c2Graph, ir_lowered := none,
    parameters_initial := [], parameters_final := none,
    calibration_state_initial := none, calibration_state_final := none,
    results := Json.obj [("output", Json.natNum 42)], seed := some 42,
    observability := none, environment := c2Env,
    provenance := { parent_artifacts := [], tags := [], notes := none,
                    citation_metadata := none } }

/-- The deterministic id of the witness bundle. -/
def c2wId : String :=
  compute_deterministic_id c2sha256 c2hex c2f64le c2rf c2Graph
    [("test_param", 1)] none (some 42) "0.5.0"

/-- Manifest of the witness bundle. -/
def c2wManifest : Manifest :=
  { schema_version := "awen_artifact.v0.2", artifact_id := c2wId,
    artifact_type := "run", created_at := "2024-01-01",
    awen_runtime_version := "0.5.0", conformance_level := "full",
    determinism_guarantee := "bit-exact",
    contents := { ir := [], parameters := [], calibration := [],
                  environment := [], execution := [], results := [],
                  provenance := [] },
    inputs := { ir_hash := none, parameters_hash := none,
                calibration_hash := none, seed := some 42 },
    outputs := { results_hash := none, success := true, error := none },
    provenance := { creator := none, parent_artifacts := [], tags := [],
                    notes := none } }

/-- The witness bundle: one initial parameter, consistent artifact id. -/
def c2wb : ArtifactBundle :=
  { artifact_id := c2wId, artifact_type := ArtifactType.run,
    manifest := c2wManifest, ir_original := c2Graph, ir_lowered := none,
    parameters_initial := [("test_param", 1)], parameters_final := none,
    calibration_state_initial := none, calibration_state_final := none,
    results := Json.obj [("output", Json.natNum 42)], seed := some 42,
    observability := none, environment := c2Env,
    provenance := { parent_artifacts := [], tags := [], notes := none,
                    citation_metadata := none } }

end Storage

namespace Ir

theorem checkTargets_ok_iff (ids : List String) (msg : String) (ts : List String) :
    checkTargets ids msg ts = Except.ok () ↔ ∀ t ∈ ts, t ∈ ids := by
  induction ts with
  | nil => simp [checkTargets]
  | cons t ts ih =>
      by_cases h : t ∈ ids
      · have hc : ids.contains t = true := List.elem_iff.mpr h
        simp [checkTargets, hc, ih, h]
      · have hc : ¬ (ids.contains t = true) := fun hh => h (List.elem_iff.mp hh)
        simp [checkTargets, hc, h]

theorem checkTargets_error (ids : List String) (msg : String) (ts : List String)
    (e : String) (h : checkTargets ids msg ts = Except.error e) :
    ∃ t, t ∈ ts ∧ t ∉ ids ∧ e = msg ++ t := by
  induction ts with
  | nil => simp [checkTargets] at h
  | cons t ts ih =>
      by_cases hm : t ∈ ids
      · have hc : ids.contains t = true := List.elem_iff.mpr hm
        simp only [checkTargets, hc, if_true] at h
        obtain ⟨u, hu, hc2, he⟩ := ih h
        exact ⟨u, List.mem_cons_of_mem _ hu, hc2, he⟩
      · have hc : ¬ (ids.contains t = true) := fun hh => hm (List.elem_iff.mp hh)
        simp only [checkTargets, hc, if_false] at h
        refine ⟨t, List.mem_cons_self .., hm, ?_⟩
        cases h
        rfl

theorem checkBranches_ok_iff (ids : List String) (bs : List ConditionalBranch) :
    checkBranches ids bs = Except.ok () ↔ ∀ b ∈ bs, BranchOk ids b := by
  induction bs with
  | nil => simp [checkBranches]
  | cons b bs ih =>
      cases hthen : checkTargets ids thenErr b.then_nodes with
      | error e =>
          have hnot : ¬ (∀ t ∈ b.then_nodes, t ∈ ids) := by
            intro hall
            rw [← checkTargets_ok_iff ids thenErr] at hall
            simp [hthen] at hall
          simp only [checkBranches, hthen]
          constructor
          · intro hcontra; cases hcontra
          · intro hall
            exact absurd (hall b (List.mem_cons_self ..)).1 hnot
      | ok u =>
          cases u
          have hthenAll : ∀ t ∈ b.then_nodes, t ∈ ids :=
            (checkTargets_ok_iff ids thenErr b.then_nodes).1 hthen
          cases helse : b.else_nodes with
          | none =>
              simp only [checkBranches, hthen, helse]
              rw [ih]
              constructor
              · intro hall
                intro b0 hb0
                rcases List.mem_cons.mp hb0 with rfl | hb0
                · exact ⟨hthenAll, fun es hes => by rw [helse] at hes; cases hes⟩
                · exact hall b0 hb0
              · intro hall b0 hb0
                exact hall b0 (List.mem_cons_of_mem _ hb0)
          | some es =>
              cases hes : checkTargets ids elseErr es with
              | error e =>
                  have hnot : ¬ (∀ t ∈ es, t ∈ ids) := by
                    intro hall
                    rw [← checkTargets_ok_iff ids elseErr] at hall
                    simp [hes] at hall
                  simp only [checkBranches, hthen, helse, hes]
                  constructor
                  · intro hcontra; cases hcontra
                  · intro hall
                    exact absurd ((hall b (List.mem_cons_self ..)).2 es helse) hnot
              | ok u =>
                  cases u
                  have hesAll : ∀ t ∈ es, t ∈ ids :=
                    (checkTargets_ok_iff ids elseErr es).1 hes
                  simp only [checkBranches, hthen, helse, hes]
                  rw [ih]
                  constructor
                  · intro hall b0 hb0
                    rcases List.mem_cons.mp hb0 with rfl | hb0
                    · refine ⟨hthenAll, fun es0 hes0 => ?_⟩
                      rw [helse] at hes0
                      cases hes0
                      exact hesAll
                    · exact hall b0 hb0
                  · intro hall b0 hb0
                    exact hall b0 (List.mem_cons_of_mem _ hb0)

theorem checkBranches_error (ids : List String) (bs : List ConditionalBranch)
    (e : String) (h : checkBranches ids bs = Except.error e) :
    ∃ b, b ∈ bs ∧ ∃ t, t ∉ ids ∧
      ((t ∈ b.then_nodes ∧ e = thenErr ++ t) ∨
       (∃ es, b.else_nodes = some es ∧ t ∈ es ∧ e = elseErr ++ t)) := by
  induction bs with
  | nil => simp [checkBranches] at h
  | cons b bs ih =>
      cases hthen : checkTargets ids thenErr b.then_nodes with
      | error e0 =>
          simp only [checkBranches, hthen] at h
          obtain ⟨t, ht, hc, he⟩ := checkTargets_error ids thenErr b.then_nodes e0 hthen
          cases h
          exact ⟨b, List.mem_cons_self .., t, hc, Or.inl ⟨ht, he⟩⟩
      | ok u =>
          cases u
          cases helse : b.else_nodes with
          | none =>
              simp only [checkBranches, hthen, helse] at h
              obtain ⟨b0, hb0, rest⟩ := ih h
              exact ⟨b0, List.mem_cons_of_mem _ hb0, rest⟩
          | some es =>
              cases hes : checkTargets ids elseErr es with
              | error e0 =>
                  simp only [checkBranches, hthen, helse, hes] at h
                  obtain ⟨t, ht, hc, he⟩ := checkTargets_error ids elseErr es e0 hes
                  cases h
                  exact ⟨b, List.mem_cons_self .., t, hc, Or.inr ⟨es, helse, ht, he⟩⟩
              | ok u =>
                  cases u
                  simp only [checkBranches, hthen, helse, hes] at h
                  obtain ⟨b0, hb0, rest⟩ := ih h
                  exact ⟨b0, List.mem_cons_of_mem _ hb0, rest⟩

theorem checkNodes_ok_iff (ids : List String) (ns : List Node) :
    checkNodes ids ns = Except.ok () ↔ ∀ n ∈ ns, NodeBranchesOk ids n := by
  induction ns with
  | nil => simp [checkNodes]
  | cons n ns ih =>
      cases hbr : n.conditional_branches with
      | none =>
          simp only [checkNodes, hbr]
          rw [ih]
          constructor
          · intro hall n0 hn0
            rcases List.mem_cons.mp hn0 with rfl | hn0
            · intro bs hbs; rw [hbr] at hbs; cases hbs
            · exact hall n0 hn0
          · intro hall n0 hn0
            exact hall n0 (List.mem_cons_of_mem _ hn0)
      | some bs =>
          cases hcb : checkBranches ids bs with
          | error e =>
              have hnot : ¬ (∀ b ∈ bs, BranchOk ids b) := by
                intro hall
                rw [← checkBranches_ok_iff ids] at hall
                simp [hcb] at hall
              simp only [checkNodes, hbr, hcb]
              constructor
              · intro hcontra; cases hcontra
              · intro hall
                exact absurd (hall n (List.mem_cons_self ..) bs hbr) hnot
          | ok u =>
              cases u
              have hall := (checkBranches_ok_iff ids bs).1 hcb
              simp only [checkNodes, hbr, hcb]
              rw [ih]
              constructor
              · intro h2 n0 hn0
                rcases List.mem_cons.mp hn0 with rfl | hn0
                · intro bs0 hbs0
                  rw [hbr] at hbs0
                  cases hbs0
                  exact hall
                · exact h2 n0 hn0
              · intro h2 n0 hn0
                exact h2 n0 (List.mem_cons_of_mem _ hn0)

theorem checkNodes_error (ids : List String) (ns : List Node)
    (e : String) (h : checkNodes ids ns = Except.error e) :
    ∃ n, n ∈ ns ∧ ∃ bs, n.conditional_branches = some bs ∧
      ∃ b, b ∈ bs ∧ ∃ t, t ∉ ids ∧
        ((t ∈ b.then_nodes ∧ e = thenErr ++ t) ∨
         (∃ es, b.else_nodes = some es ∧ t ∈ es ∧ e = elseErr ++ t)) := by
  induction ns with
  | nil => simp [checkNodes] at h
  | cons n ns ih =>
      cases hbr : n.conditional_branches with
      | none =>
          simp only [checkNodes, hbr] at h
          obtain ⟨n0, hn0, rest⟩ := ih h
          exact ⟨n0, List.mem_cons_of_mem _ hn0, rest⟩
      | some bs =>
          cases hcb : checkBranches ids bs with
          | error e0 =>
              simp only [checkNodes, hbr, hcb] at h
              obtain ⟨b, hb, t, ht, hcase⟩ := checkBranches_error ids bs e0 hcb
              cases h
              exact ⟨n, List.mem_cons_self .., bs, hbr, b, hb, t, ht, hcase⟩
          | ok u =>
              cases u
              simp only [checkNodes, hbr, hcb] at h
              obtain ⟨n0, hn0, rest⟩ := ih h
              exact ⟨n0, List.mem_cons_of_mem _ hn0, rest⟩

/-- C1 counterexample: the specification claims `validate_graph` succeeds iff
every edge endpoint and every branch target resolves, but on a graph with an
undeclared edge endpoint (and no branches) `validate_graph` succeeds while the
claimed condition is violated: edge endpoints are never checked. -/
theorem validate_graph_ignores_edge_endpoints :
    validate_graph c1Graph = Except.ok () ∧ specClaimedValidateOk c1Graph = false := by
  exact ⟨rfl, rfl⟩

/-- C1 (amended): `validate_graph(G)` succeeds iff every then-node / else-node
identifier of every ConditionalBranch of `G` names a declared node (edge
endpoints are not checked), and on failure the error message names an
offending undeclared branch-target identifier. -/
theorem validate_graph_branch_targets_characterisation (g : Graph) :
    (validate_graph g = Except.ok () ↔ ∀ n ∈ g.nodes, NodeBranchesOk (nodeIds g) n) ∧
    (∀ msg, validate_graph g = Except.error msg →
      ∃ t, IsBranchTarget g t ∧ t ∉ nodeIds g ∧
        (msg = thenErr ++ t ∨ msg = elseErr ++ t)) := by
  constructor
  · exact checkNodes_ok_iff (nodeIds g) g.nodes
  · intro msg h
    obtain ⟨n, hn, bs, hbs, b, hb, t, ht, hcase⟩ :=
      checkNodes_error (nodeIds g) g.nodes msg h
    refine ⟨t, ?_, ht, ?_⟩
    · refine ⟨n, hn, bs, hbs, b, hb, ?_⟩
      rcases hcase with ⟨htm, _⟩ | ⟨es, hes, htm, _⟩
      · exact Or.inl htm
      · exact Or.inr ⟨es, hes, htm⟩
    · rcases hcase with ⟨_, he⟩ | ⟨_, _, _, he⟩
      · exact Or.inl he
      · exact Or.inr he

/-- C1 witness: the amended characterisation applied to a concrete graph whose
branch references the undeclared id `ghost`, with the error hypothesis
discharged by evaluation. -/
theorem validate_graph_branch_targets_witness :
    ∃ t, IsBranchTarget c1BadBranchGraph t ∧ t ∉ nodeIds c1BadBranchGraph ∧
      (thenErr ++ "ghost" = thenErr ++ t ∨ thenErr ++ "ghost" = elseErr ++ t) :=
  (validate_graph_branch_targets_characterisation c1BadBranchGraph).2
    (thenErr ++ "ghost") rfl

end Ir

namespace Storage

/-- `storage::deterministic_id::compute_deterministic_id`.  `sha256` and
`hexEnc` model the external sha2 / hex crates as opaque byte functions; every
theorem quantifies over them.  The Rust function is infallible (it returns
`Ok` on every path), so the `Result` wrapper is dropped. -/

theorem SMap.find_eq_of_perm {α : Type} {l1 l2 : SMap α}
    (h : l1.Perm l2) (hn : (l1.map Prod.fst).Nodup) (k : String) :
    SMap.find l1 k = SMap.find l2 k := by
  induction h with
  | nil => rfl
  | cons x h12 ih =>
      obtain ⟨kx, vx⟩ := x
      simp only [Awen.SMap.find]
      split
      · rfl
      · exact ih (by simpa using (List.nodup_cons.mp (by simpa using hn)).2)
  | swap x y l =>
      obtain ⟨kx, vx⟩ := x
      obtain ⟨ky, vy⟩ := y
      have hxy : ky ≠ kx := by
        have h2 := hn
        simp only [List.map_cons, List.nodup_cons, List.mem_cons] at h2
        exact fun he => h2.1 (Or.inl he)
      simp only [Awen.SMap.find]
      by_cases h1 : ky = k
      · by_cases h2 : kx = k
        · exact absurd (h1.trans h2.symm) hxy
        · simp [h1, h2]
      · by_cases h2 : kx = k
        · simp [h1, h2]
        · simp [h1, h2]
  | trans h12 h23 ih12 ih23 =>
      have hn2 := ((h12.map Prod.fst).nodup_iff).mp hn
      exact (ih12 hn).trans (ih23 hn2)

theorem sortedKeys_eq_of_perm {l1 l2 : List String} (h : l1.Perm l2) :
    l1.insertionSort (fun a b => a ≤ b) = l2.insertionSort (fun a b => a ≤ b) := by
  have hs1 : List.Sorted (· ≤ ·) (l1.insertionSort (fun a b => a ≤ b)) :=
    List.sorted_insertionSort (· ≤ ·) l1
  have hs2 : List.Sorted (· ≤ ·) (l2.insertionSort (fun a b => a ≤ b)) :=
    List.sorted_insertionSort (· ≤ ·) l2
  exact List.eq_of_perm_of_sorted
    ((List.perm_insertionSort _ l1).trans (h.trans (List.perm_insertionSort _ l2).symm))
    hs1 hs2

/-- C3: `compute_deterministic_id` is a pure function of (IR, parameters,
calibration, seed, runtime version); it is invariant under permutation of the
parameter map's insertion order and always produces an `awen_`-prefixed hex
digest of the SHA-256 of the canonical byte stream.  (Purity with respect to
wall-clock time and filesystem state is structural: the embedding takes no
other inputs, mirroring the Rust function, whose only effects are hashing.) -/
theorem compute_deterministic_id_param_order_invariant
    (sha256 : List Nat → List Nat) (hexEnc : List Nat → String)
    (f64le : ℝ → List Nat) (rf : ℝ → String)
    (ir : Ir.Graph) (p1 p2 : SMap ℝ) (calib : Option Json)
    (seed : Option Nat) (ver : String)
    (hperm : p1.Perm p2) (hnodup : (p1.map Prod.fst).Nodup) :
    compute_deterministic_id sha256 hexEnc f64le rf ir p1 calib seed ver =
      compute_deterministic_id sha256 hexEnc f64le rf ir p2 calib seed ver ∧
    ∃ digest, compute_deterministic_id sha256 hexEnc f64le rf ir p1 calib seed ver =
      "awen_" ++ digest := by
  constructor
  · unfold compute_deterministic_id idByteStream
    have hkeys : (p1.map Prod.fst).insertionSort (fun a b => a ≤ b) =
        (p2.map Prod.fst).insertionSort (fun a b => a ≤ b) :=
      sortedKeys_eq_of_perm (hperm.map Prod.fst)
    have hfind : ∀ k, SMap.find p1 k = SMap.find p2 k :=
      fun k => SMap.find_eq_of_perm hperm hnodup k
    rw [hkeys]
    have hflat :
        ((p2.map Prod.fst).insertionSort (fun a b => a ≤ b)).flatMap
            (fun k => utf8Bytes k ++ f64le ((SMap.find p1 k).getD 0)) =
        ((p2.map Prod.fst).insertionSort (fun a b => a ≤ b)).flatMap
            (fun k => utf8Bytes k ++ f64le ((SMap.find p2 k).getD 0)) := by
      apply List.flatMap_congr
      intro k _
      rw [hfind k]
    rw [hflat]
  · exact ⟨_, rfl⟩

/-- C3 witness: the invariance theorem applied at the two-entry parameter map
`{a ↦ 1, b ↦ 2}` inserted in both orders, with trivial instantiations of the
external-crate parameters. -/
theorem compute_deterministic_id_param_order_witness :
    compute_deterministic_id (fun _ => []) (fun _ => "") (fun _ => []) (fun _ => "")
        (Ir.Graph.mk [] [] []) [("a", (1 : ℝ)), ("b", 2)] none none "0.5.0" =
      compute_deterministic_id (fun _ => []) (fun _ => "") (fun _ => []) (fun _ => "")
        (Ir.Graph.mk [] [] []) [("b", (2 : ℝ)), ("a", 1)] none none "0.5.0" :=
  (compute_deterministic_id_param_order_invariant
    (fun _ => []) (fun _ => "") (fun _ => []) (fun _ => "")
    (Ir.Graph.mk [] [] []) [("a", (1 : ℝ)), ("b", 2)] [("b", (2 : ℝ)), ("a", 1)]
    none none "0.5.0"
    (List.Perm.swap _ _ _) (by decide)).1

end Storage

namespace Scheduler

/-- C4 counterexample: against the empty schedule, the specification condition
holds vacuously (no loop has both nodes scheduled), yet the validator fails —
it rejects any feedback loop whose nodes are missing from the schedule, so the
claimed "fails exactly on a deadline violation" is false. -/
theorem validate_feedback_loops_rejects_missing_nodes :
    validate_feedback_loops [] c4Constraints =
      Except.error "Measurement node m not in schedule" ∧
    SpecFeedbackOk [] c4Constraints.feedback_loops := by
  constructor
  · rfl
  · intro l _ m c hm _
    simp [Awen.SMap.find] at hm

theorem checkFeedbackLoops_ok_iff (schedule : SMap ScheduledNode)
    (loops : List FeedbackLoop) :
    checkFeedbackLoops schedule loops = Except.ok () ↔
      ∀ l ∈ loops, ∃ m, SMap.find schedule l.measurement_node = some m ∧
        ∃ c, SMap.find schedule l.control_node = some c ∧
          wrapSub64 c.start_time_ns m.end_time_ns ≤ l.deadline_ns := by
  induction loops with
  | nil => simp [checkFeedbackLoops]
  | cons l ls ih =>
      cases hm : SMap.find schedule l.measurement_node with
      | none =>
          simp only [checkFeedbackLoops, hm]
          constructor
          · intro hcontra; cases hcontra
          · intro hall
            obtain ⟨m, hm2, -⟩ := hall l (List.mem_cons_self ..)
            rw [hm] at hm2; cases hm2
      | some m =>
          cases hc : SMap.find schedule l.control_node with
          | none =>
              simp only [checkFeedbackLoops, hm, hc]
              constructor
              · intro hcontra; cases hcontra
              · intro hall
                obtain ⟨m0, hm2, c0, hc2, -⟩ := hall l (List.mem_cons_self ..)
                rw [hc] at hc2; cases hc2
          | some c =>
              by_cases hlat : wrapSub64 c.start_time_ns m.end_time_ns > l.deadline_ns
              · simp only [checkFeedbackLoops, hm, hc, if_pos hlat]
                constructor
                · intro hcontra; cases hcontra
                · intro hall
                  obtain ⟨m0, hm2, c0, hc2, hle⟩ := hall l (List.mem_cons_self ..)
                  rw [hm] at hm2; cases hm2
                  rw [hc] at hc2; cases hc2
                  exact absurd hle (Nat.not_le.mpr hlat)
              · simp only [checkFeedbackLoops, hm, hc, if_neg hlat]
                rw [ih]
                constructor
                · intro hall l0 hl0
                  rcases List.mem_cons.mp hl0 with rfl | hl0
                  · exact ⟨m, hm, c, hc, Nat.not_lt.mp hlat⟩
                  · exact hall l0 hl0
                · intro hall l0 hl0
                  exact hall l0 (List.mem_cons_of_mem _ hl0)

theorem checkFeedbackLoops_error (schedule : SMap ScheduledNode)
    (loops : List FeedbackLoop) (msg : String)
    (h : checkFeedbackLoops schedule loops = Except.error msg) :
    ∃ l ∈ loops,
      msg = "Measurement node " ++ l.measurement_node ++ " not in schedule" ∨
      msg = "Control node " ++ l.control_node ++ " not in schedule" ∨
      ∃ lat : Nat, msg = "Feedback loop " ++ l.id ++ " latency " ++ toString lat ++
        "ns exceeds deadline " ++ toString l.deadline_ns ++ "ns" := by
  induction loops with
  | nil => simp [checkFeedbackLoops] at h
  | cons l ls ih =>
      cases hm : SMap.find schedule l.measurement_node with
      | none =>
          simp only [checkFeedbackLoops, hm] at h
          cases h
          exact ⟨l, List.mem_cons_self .., Or.inl rfl⟩
      | some m =>
          cases hc : SMap.find schedule l.control_node with
          | none =>
              simp only [checkFeedbackLoops, hm, hc] at h
              cases h
              exact ⟨l, List.mem_cons_self .., Or.inr (Or.inl rfl)⟩
          | some c =>
              by_cases hlat : wrapSub64 c.start_time_ns m.end_time_ns > l.deadline_ns
              · simp only [checkFeedbackLoops, hm, hc, if_pos hlat] at h
                cases h
                exact ⟨l, List.mem_cons_self ..,
                  Or.inr (Or.inr ⟨wrapSub64 c.start_time_ns m.end_time_ns, rfl⟩)⟩
              · simp only [checkFeedbackLoops, hm, hc, if_neg hlat] at h
                obtain ⟨l0, hl0, rest⟩ := ih h
                exact ⟨l0, List.mem_cons_of_mem _ hl0, rest⟩

/-- C4 (amended): `validate_feedback_loops` succeeds iff every declared
feedback loop has BOTH its measurement node and its control node present in
the schedule AND the `u64`-wrapping difference `C.start − M.end` is at most
the deadline; on failure the error names the missing node or the loop. -/
theorem validate_feedback_loops_characterisation
    (schedule : SMap ScheduledNode) (constraints : SchedulingConstraints) :
    (validate_feedback_loops schedule constraints = Except.ok () ↔
      ∀ l ∈ constraints.feedback_loops,
        ∃ m, SMap.find schedule l.measurement_node = some m ∧
        ∃ c, SMap.find schedule l.control_node = some c ∧
          wrapSub64 c.start_time_ns m.end_time_ns ≤ l.deadline_ns) ∧
    (∀ msg, validate_feedback_loops schedule constraints = Except.error msg →
      ∃ l ∈ constraints.feedback_loops,
        msg = "Measurement node " ++ l.measurement_node ++ " not in schedule" ∨
        msg = "Control node " ++ l.control_node ++ " not in schedule" ∨
        ∃ lat : Nat, msg = "Feedback loop " ++ l.id ++ " latency " ++ toString lat ++
          "ns exceeds deadline " ++ toString l.deadline_ns ++ "ns") :=
  ⟨checkFeedbackLoops_ok_iff schedule constraints.feedback_loops,
   fun msg h => checkFeedbackLoops_error schedule constraints.feedback_loops msg h⟩

/-- C4 witness: the characterisation applied to a schedule violating the
deadline, with the error hypothesis discharged by evaluation. -/
theorem validate_feedback_loops_characterisation_witness :
    ∃ l ∈ c4Constraints.feedback_loops,
      ("Feedback loop fb0 latency 200ns exceeds deadline 50ns" =
        "Measurement node " ++ l.measurement_node ++ " not in schedule") ∨
      ("Feedback loop fb0 latency 200ns exceeds deadline 50ns" =
        "Control node " ++ l.control_node ++ " not in schedule") ∨
      ∃ lat : Nat, "Feedback loop fb0 latency 200ns exceeds deadline 50ns" =
        "Feedback loop " ++ l.id ++ " latency " ++ toString lat ++
          "ns exceeds deadline " ++ toString l.deadline_ns ++ "ns" :=
  (validate_feedback_loops_characterisation c4WitnessSchedule c4Constraints).2
    "Feedback loop fb0 latency 200ns exceeds deadline 50ns" rfl

/-- C5 counterexample: scheduling the empty graph reports `wavelengths_used =
2` (and likewise two memory slots), not the zero resources the claim states —
the usage report is hardcoded. -/
theorem schedule_empty_graph_reports_two_wavelengths :
    planWavelengthsUsed
        (schedule (fun _ => 0) (fun _ => "") 1 emptySchedGraph c4Constraints 0) = none ∧
    planWavelengthsUsed
        (schedule (fun _ => 0) (fun _ => "")
          1 emptySchedGraph
          { c4Constraints with feedback_loops := [] } 0) = some 2 := by
  constructor
  · rfl
  · rfl

/-- C5 (amended): for the empty graph and any constraints declaring no
feedback loops, `schedule` succeeds with an empty schedule map (zero phases),
makespan 0, and no allocations — but the resource-usage report hardcodes two
wavelengths and two memory slots used. -/
theorem schedule_empty_graph_characterisation
    (f2u : ℝ → Nat) (fmtF64 : ℝ → String) (fuel : Nat)
    (constraints : SchedulingConstraints) (seed : Nat)
    (hfb : constraints.feedback_loops = []) :
    ∃ plan, schedule f2u fmtF64 fuel emptySchedGraph constraints seed = Except.ok plan ∧
      plan.schedule = [] ∧ plan.makespan_ns = 0 ∧
      plan.resource_usage.wavelengths_used = 2 ∧
      plan.resource_usage.memory_slots_used = 2 ∧
      plan.resource_usage.peak_concurrent_operations = 0 ∧
      plan.seed = seed := by
  obtain ⟨cw, fl, tc, rl⟩ := constraints
  simp only at hfb
  subst hfb
  cases fuel with
  | zero => exact ⟨_, rfl, rfl, rfl, rfl, rfl, rfl, rfl⟩
  | succ n => exact ⟨_, rfl, rfl, rfl, rfl, rfl, rfl, rfl⟩

/-- C5 witness: the amended statement applied at concrete inputs with the
no-feedback-loop hypothesis discharged by evaluation. -/
theorem schedule_empty_graph_characterisation_witness :
    ∃ plan, schedule (fun _ => 0) (fun _ => "") 1 emptySchedGraph
        { c4Constraints with feedback_loops := [] } 7 = Except.ok plan ∧
      plan.schedule = [] ∧ plan.makespan_ns = 0 ∧
      plan.resource_usage.wavelengths_used = 2 ∧
      plan.resource_usage.memory_slots_used = 2 ∧
      plan.resource_usage.peak_concurrent_operations = 0 ∧
      plan.seed = 7 :=
  schedule_empty_graph_characterisation (fun _ => 0) (fun _ => "") 1
    { c4Constraints with feedback_loops := [] } 7 rfl

end Scheduler

namespace State

/-- C6: `evolve_state` returns an error (and therefore no transformed state;
the input, taken by shared reference, is untouched) whenever the gate tag is
unknown or a required parameter for the recognised gate is missing. -/
theorem evolve_state_rejects_invalid_input (f2u : ℝ → Nat) (fmtF64 : ℝ → String)
    (state : QuantumState) (gate : String) (params : SMap ℝ)
    (h : EvolveInputInvalid gate params) :
    ∃ e, evolve_state f2u fmtF64 state gate params = Except.error e := by
  unfold evolve_state
  rcases h with ⟨h1, h2, h3, h4⟩ | ⟨rfl, hc⟩ | ⟨rfl, hc⟩ | ⟨rfl, hc⟩ | ⟨rfl, hc⟩
  · rw [if_neg h1, if_neg h2, if_neg h3, if_neg h4]
    exact ⟨_, rfl⟩
  · rw [if_pos rfl]
    rcases hc with hm | hp
    · rw [hm]
      exact ⟨_, rfl⟩
    · cases hfind : SMap.find params "mode_id" with
      | none => exact ⟨_, rfl⟩
      | some v =>
          rw [hp]
          exact ⟨_, rfl⟩
  · rw [if_neg (by decide), if_pos rfl]
    rcases hc with h1 | h2 | h3
    · rw [h1]
      exact ⟨_, rfl⟩
    · cases hfind : SMap.find params "mode1" with
      | none => exact ⟨_, rfl⟩
      | some v =>
          rw [h2]
          exact ⟨_, rfl⟩
    · cases hfind : SMap.find params "mode1" with
      | none => exact ⟨_, rfl⟩
      | some v1 =>
          cases hfind2 : SMap.find params "mode2" with
          | none => exact ⟨_, rfl⟩
          | some v2 =>
              rw [h3]
              exact ⟨_, rfl⟩
  · rw [if_neg (by decide), if_neg (by decide), if_pos rfl]
    rcases hc with hm | hr
    · rw [hm]
      exact ⟨_, rfl⟩
    · cases hfind : SMap.find params "mode_id" with
      | none => exact ⟨_, rfl⟩
      | some v =>
          rw [hr]
          exact ⟨_, rfl⟩
  · rw [if_neg (by decide), if_neg (by decide), if_neg (by decide), if_pos rfl]
    rw [hc]
    exact ⟨_, rfl⟩

/-- C6 witness: a PS gate with an empty parameter map (missing `mode_id` and
`phase`) is rejected; the invalid-input hypothesis is discharged by
evaluation. -/
theorem evolve_state_rejects_invalid_input_witness :
    ∃ e, evolve_state (fun _ => 0) (fun _ => "") witnessState "PS" [] =
      Except.error e :=
  evolve_state_rejects_invalid_input (fun _ => 0) (fun _ => "") witnessState "PS" []
    (Or.inr (Or.inl ⟨rfl, Or.inl rfl⟩))

-- ───────────────────────────────────────────────────────────────────────
-- C7 — measurement on zero-probability modes
-- ───────────────────────────────────────────────────────────────────────
/-- C7: measuring a mode whose squared-amplitude probabilities sum to a
non-positive total fails with the division-guard error, and an outcome is
returned only when the total is strictly positive. -/
theorem measure_zero_total_fails (rngGen : Nat → ℝ) (state : QuantumState)
    (mode_id : String) (seed : Option Nat) :
    (∀ mode amps, state.modes.find? (fun m => m.mode_id = mode_id) = some mode →
      mode.amplitudes = some amps →
      (amps.map (fun a => |a| ^ 2)).sum ≤ 0 →
      measure rngGen state mode_id seed =
        Except.error "invalid probability distribution for measurement") ∧
    (∀ outcome, measure rngGen state mode_id seed = Except.ok outcome →
      ∃ mode amps, state.modes.find? (fun m => m.mode_id = mode_id) = some mode ∧
        mode.amplitudes = some amps ∧ 0 < (amps.map (fun a => |a| ^ 2)).sum) := by
  constructor
  · intro mode amps hfound hamps htotal
    unfold measure
    rw [hfound]
    dsimp only
    rw [hamps]
    dsimp only
    rw [if_pos htotal]
  · intro outcome h
    unfold measure at h
    cases hfound : state.modes.find? (fun m => m.mode_id = mode_id) with
    | none =>
        rw [hfound] at h
        dsimp only at h
        cases h
    | some mode =>
        rw [hfound] at h
        dsimp only at h
        cases hamps : mode.amplitudes with
        | none =>
            rw [hamps] at h
            dsimp only at h
            cases h
        | some amps =>
            rw [hamps] at h
            dsimp only at h
            by_cases htotal : (amps.map (fun a => |a| ^ 2)).sum ≤ 0
            · rw [if_pos htotal] at h
              cases h
            · rw [if_neg htotal] at h
              exact ⟨mode, amps, rfl, hamps, lt_of_not_le htotal⟩

/-- C7 witness: measuring `mode_0` of the all-zero-amplitude witness state
fails; the found-mode, amplitude-presence and zero-total hypotheses are
discharged by evaluation. -/
theorem measure_zero_total_fails_witness :
    measure (fun _ => 0) witnessState "mode_0" (some 42) =
      Except.error "invalid probability distribution for measurement" :=
  (measure_zero_total_fails (fun _ => 0) witnessState "mode_0" (some 42)).1
    _ _ rfl rfl (by norm_num)

end State

namespace Engine

theorem execNode_executed (f2u : ℝ → Nat) (fmtF64 : ℝ → String) (rngGen : Nat → ℝ)
    (g : Ir.Graph) (run_seed : Nat) (s : EngState) (node_id : String) :
    (execNode f2u fmtF64 rngGen g run_seed s node_id).executed = s.executed := by
  unfold execNode
  repeat' first
    | rfl
    | split
    | dsimp only

theorem engStep_nodup (f2u : ℝ → Nat) (fmtF64 : ℝ → String) (rngGen : Nat → ℝ)
    (g : Ir.Graph) (run_seed : Nat) (s : EngState) (h : s.executed.Nodup) :
    (engStep f2u fmtF64 rngGen g run_seed s).executed.Nodup := by
  unfold engStep
  split
  · exact h
  · split
    · exact h
    · rename_i node_id _
      split
      · exact h
      · rename_i hc
        rw [execNode_executed]
        simp only []
        rw [List.nodup_append]
        refine ⟨h, List.nodup_singleton _, ?_⟩
        intro a ha hb
        rw [List.mem_singleton] at hb
        subst hb
        exact hc (List.elem_iff.mpr ha)

/-- C8: during one engine run (at any fuel, over any graph, seed and PRNG
model), every node id is executed at most once — the list of `executed`-set
insertions, one per actual node execution, has no duplicates.  Work-list
appends after a detector only ever add not-yet-executed then- or else-targets,
and an id already executed is skipped. -/
theorem run_graph_executes_each_node_at_most_once
    (f2u : ℝ → Nat) (fmtF64 : ℝ → String) (rngGen : Nat → ℝ)
    (g : Ir.Graph) (run_seed : Nat) (fuel : Nat) :
    ((engRun f2u fmtF64 rngGen g run_seed fuel (initEngState g run_seed)).executed).Nodup := by
  have hgen : ∀ fuel s, (EngState.executed s).Nodup →
      ((engRun f2u fmtF64 rngGen g run_seed fuel s).executed).Nodup := by
    intro fuel
    induction fuel with
    | zero => intro s hs; exact hs
    | succ n ih =>
        intro s hs
        exact ih _ (engStep_nodup f2u fmtF64 rngGen g run_seed s hs)
  exact hgen fuel _ List.nodup_nil

end Engine

namespace Gradients

-- ───────────────────────────────────────────────────────────────────────
-- C9 — unresolved parameter handles
-- ───────────────────────────────────────────────────────────────────────
theorem find_insert_self {α : Type} (m : SMap α) (k : String) (v : α) :
    SMap.find (SMap.insert m k v) k = some v := by
  induction m with
  | nil => simp [Awen.SMap.insert, Awen.SMap.find]
  | cons p rest ih =>
      obtain ⟨k0, v0⟩ := p
      by_cases h : k0 = k
      · simp [Awen.SMap.insert, Awen.SMap.find, h]
      · simp only [Awen.SMap.insert, Awen.SMap.find, if_neg h]
        simpa [Awen.SMap.find, h] using ih

theorem find_insert_ne {α : Type} (m : SMap α) {kIns k : String} (h : kIns ≠ k)
    (v : α) : SMap.find (SMap.insert m kIns v) k = SMap.find m k := by
  induction m with
  | nil => simp [Awen.SMap.insert, Awen.SMap.find, h]
  | cons p rest ih =>
      obtain ⟨k0, v0⟩ := p
      by_cases h0 : k0 = kIns
      · subst h0
        simp [Awen.SMap.insert, Awen.SMap.find, h]
      · simp only [Awen.SMap.insert, if_neg h0]
        by_cases hk : k0 = k
        · simp [Awen.SMap.find, hk]
        · simp only [Awen.SMap.find, if_neg hk]
          exact ih

theorem find_insert_isSome {α : Type} (m : SMap α) (kIns k : String) (v : α)
    (h : kIns = k ∨ (SMap.find m k).isSome) :
    (SMap.find (SMap.insert m kIns v) k).isSome := by
  rcases h with rfl | h
  · rw [find_insert_self]
    rfl
  · by_cases he : kIns = k
    · subst he
      rw [find_insert_self]
      rfl
    · rw [find_insert_ne m he]
      exact h

theorem position_listModify {α : Type} (p : α → Bool) (f : α → α)
    (hp : ∀ a, p (f a) = p a) (l : List α) (i : Nat) :
    position p (State.listModify l i f) = position p l := by
  induction l generalizing i with
  | nil => rfl
  | cons x xs ih =>
      cases i with
      | zero => simp [State.listModify, position, hp x]
      | succ n => simp [State.listModify, position, ih n]

theorem resolveParam_setParam (g : Ir.Graph) (i : Nat) (k : String) (v : ℝ)
    (pname : String) (hk : k ≠ pname) :
    resolveParam (setParam g i k v) pname = resolveParam g pname := by
  unfold resolveParam setParam
  by_cases hc : hasColon pname
  · simp only [if_pos hc]
    have hpos := position_listModify (fun n => decide (n.id = (splitnColon2 pname).1))
      (fun n => { n with params := SMap.insert n.params k v }) (fun a => rfl) g.nodes i
    rw [hpos]
  · simp only [if_neg hc]
    have hpos := position_listModify (fun n => SMap.hasKey n.params pname)
      (fun n => { n with params := SMap.insert n.params k v }) ?hp g.nodes i
    case hp =>
      intro a
      show (SMap.find (SMap.insert a.params k v) pname).isSome =
        (SMap.find a.params pname).isSome
      rw [find_insert_ne a.params hk]
    rw [hpos]

theorem fdSamples_resolve (parseF64 : String → Option ℝ) (draws : Nat → Nat → ℝ)
    (eps : ℝ) (seed_base node_idx : Nat) (key : String) (orig : ℝ)
    (pname : String) (hk : key ≠ pname) :
    ∀ n s g acc vals,
      resolveParam (fdSamples parseF64 draws eps seed_base node_idx key orig
        n s g acc vals).1 pname = resolveParam g pname := by
  intro n
  induction n with
  | zero => intro s g acc vals; rfl
  | succ m ih =>
      intro s g acc vals
      unfold fdSamples
      rw [ih]
      rw [resolveParam_setParam _ _ _ _ _ hk,
          resolveParam_setParam _ _ _ _ _ hk,
          resolveParam_setParam _ _ _ _ _ hk]

theorem resolveParam_key (g : Ir.Graph) (q : String) (i : Nat) (key : String)
    (h : resolveParam g q = some (i, key)) :
    (hasColon q = true ∧ key = (splitnColon2 q).2) ∨
    (hasColon q = false ∧ key = q) := by
  unfold resolveParam at h
  by_cases hc : hasColon q
  · rw [if_pos hc] at h
    cases hp : position (fun n => n.id = (splitnColon2 q).1) g.nodes with
    | none => rw [hp] at h; cases h
    | some j =>
        rw [hp] at h
        cases h
        exact Or.inl ⟨hc, rfl⟩
  · rw [if_neg hc] at h
    cases hp : position (fun n => SMap.hasKey n.params q) g.nodes with
    | none => rw [hp] at h; cases h
    | some j =>
        rw [hp] at h
        cases h
        exact Or.inr ⟨by simpa using hc, rfl⟩

theorem fdLoop_find_not_mem (parseF64 : String → Option ℝ) (draws : Nat → Nat → ℝ)
    (eps : ℝ) (seed_base samples : Nat) (pname : String) :
    ∀ rest g gradients stds, pname ∉ rest →
      SMap.find (fdLoop parseF64 draws eps seed_base samples rest g gradients stds).1 pname =
        SMap.find gradients pname ∧
      SMap.find (fdLoop parseF64 draws eps seed_base samples rest g gradients stds).2 pname =
        SMap.find stds pname := by
  intro rest
  induction rest with
  | nil => intro g gradients stds _; exact ⟨rfl, rfl⟩
  | cons q rest ih =>
      intro g gradients stds hmem
      have hq : q ≠ pname := fun h => hmem (h ▸ List.mem_cons_self ..)
      have hrest : pname ∉ rest := fun h => hmem (List.mem_cons_of_mem _ h)
      unfold fdLoop
      cases hres : resolveParam g q with
      | none =>
          obtain ⟨h1, h2⟩ := ih g (SMap.insert gradients q 0) (SMap.insert stds q 0) hrest
          rw [h1, h2, find_insert_ne gradients hq, find_insert_ne stds hq]
          exact ⟨rfl, rfl⟩
      | some ik =>
          obtain ⟨node_idx, key⟩ := ik
          dsimp only
          obtain ⟨h1, h2⟩ := ih _ _ _ hrest
          rw [h1, h2, find_insert_ne gradients hq, find_insert_ne stds hq]
          exact ⟨rfl, rfl⟩

theorem fdLoop_zero (parseF64 : String → Option ℝ) (draws : Nat → Nat → ℝ)
    (eps : ℝ) (seed_base samples : Nat) (pname : String) :
    ∀ rest g gradients stds,
      resolveParam g pname = none →
      (∀ q ∈ rest, ¬ (hasColon q = true ∧ (splitnColon2 q).2 = pname)) →
      pname ∈ rest →
      SMap.find (fdLoop parseF64 draws eps seed_base samples rest g gradients stds).1 pname =
        some 0 ∧
      SMap.find (fdLoop parseF64 draws eps seed_base samples rest g gradients stds).2 pname =
        some 0 := by
  intro rest
  induction rest with
  | nil => intro g gradients stds _ _ hmem; cases hmem
  | cons q rest ih =>
      intro g gradients stds hnone hstable hmem
      have hstable2 : ∀ q2 ∈ rest, ¬ (hasColon q2 = true ∧
          (splitnColon2 q2).2 = pname) :=
        fun q2 h2 => hstable q2 (List.mem_cons_of_mem _ h2)
      by_cases hq : q = pname
      · subst hq
        unfold fdLoop
        rw [hnone]
        by_cases hrest : q ∈ rest
        · exact ih g _ _ hnone hstable2 hrest
        · obtain ⟨h1, h2⟩ := fdLoop_find_not_mem parseF64 draws eps seed_base
            samples q rest g (SMap.insert gradients q 0) (SMap.insert stds q 0) hrest
          rw [h1, h2, find_insert_self, find_insert_self]
          exact ⟨rfl, rfl⟩
      · have hrest : pname ∈ rest := by
          rcases List.mem_cons.mp hmem with h | h
          · exact absurd h.symm hq
          · exact h
        unfold fdLoop
        cases hres : resolveParam g q with
        | none => exact ih g _ _ hnone hstable2 hrest
        | some ik =>
            obtain ⟨node_idx, key⟩ := ik
            dsimp only
            have hkey : key ≠ pname := by
              rcases resolveParam_key g q node_idx key hres with ⟨hc, rfl⟩ | ⟨hc, rfl⟩
              · exact fun he => hstable q (List.mem_cons_self ..) ⟨hc, he⟩
              · exact hq
            have hg2 : resolveParam (fdSamples parseF64 draws eps seed_base node_idx key
                (((g.nodes.get? node_idx).map
                  (fun n => (SMap.find n.params key).getD 0)).getD 0)
                samples 0 g 0 []).1 pname = none := by
              rw [fdSamples_resolve parseF64 draws eps seed_base node_idx key _ pname hkey]
              exact hnone
            exact ih _ _ _ hg2 hstable2 hrest

theorem fdLoop_isSome (parseF64 : String → Option ℝ) (draws : Nat → Nat → ℝ)
    (eps : ℝ) (seed_base samples : Nat) (pname : String) :
    ∀ rest g gradients stds,
      (pname ∈ rest ∨ ((SMap.find gradients pname).isSome ∧ (SMap.find stds pname).isSome)) →
      (SMap.find (fdLoop parseF64 draws eps seed_base samples rest g gradients stds).1
        pname).isSome ∧
      (SMap.find (fdLoop parseF64 draws eps seed_base samples rest g gradients stds).2
        pname).isSome := by
  intro rest
  induction rest with
  | nil =>
      intro g gradients stds h
      rcases h with h | h
      · cases h
      · exact h
  | cons q rest ih =>
      intro g gradients stds h
      have hnext : ∀ (v1 v2 : ℝ),
          pname ∈ rest ∨ ((SMap.find (SMap.insert gradients q v1) pname).isSome ∧
            (SMap.find (SMap.insert stds q v2) pname).isSome) := by
        intro v1 v2
        rcases h with hmem | hsome
        · rcases List.mem_cons.mp hmem with rfl | hmem2
          · exact Or.inr ⟨find_insert_isSome _ _ _ _ (Or.inl rfl),
              find_insert_isSome _ _ _ _ (Or.inl rfl)⟩
          · exact Or.inl hmem2
        · exact Or.inr ⟨find_insert_isSome _ _ _ _ (Or.inr hsome.1),
            find_insert_isSome _ _ _ _ (Or.inr hsome.2)⟩
      unfold fdLoop
      cases hres : resolveParam g q with
      | none => exact ih g _ _ (hnext 0 0)
      | some ik =>
          obtain ⟨node_idx, key⟩ := ik
          dsimp only
          exact ih _ _ _ (hnext _ _)

theorem adjLoop_find_not_mem (parseF64 : String → Option ℝ) (draws : Nat → Nat → ℝ)
    (g : Ir.Graph) (noiseModel : NoiseModel) (opts : GradientOptions) (pname : String) :
    ∀ rest gradients stds, pname ∉ rest →
      SMap.find (adjLoop parseF64 draws g noiseModel opts rest gradients stds).1 pname =
        SMap.find gradients pname ∧
      SMap.find (adjLoop parseF64 draws g noiseModel opts rest gradients stds).2 pname =
        SMap.find stds pname := by
  intro rest
  induction rest with
  | nil => intro gradients stds _; exact ⟨rfl, rfl⟩
  | cons q rest ih =>
      intro gradients stds hmem
      have hq : q ≠ pname := fun h => hmem (h ▸ List.mem_cons_self ..)
      have hrest : pname ∉ rest := fun h => hmem (List.mem_cons_of_mem _ h)
      unfold adjLoop
      cases hres : resolveParam g q with
      | none =>
          obtain ⟨h1, h2⟩ := ih (SMap.insert gradients q 0) (SMap.insert stds q 0) hrest
          rw [h1, h2, find_insert_ne gradients hq, find_insert_ne stds hq]
          exact ⟨rfl, rfl⟩
      | some ik =>
          obtain ⟨node_idx, key⟩ := ik
          dsimp only
          cases hana : analytic_grad_for_param parseF64 g node_idx key with
          | some gval =>
              obtain ⟨h1, h2⟩ := ih _ _ hrest
              rw [h1, h2, find_insert_ne gradients hq, find_insert_ne stds hq]
              exact ⟨rfl, rfl⟩
          | none =>
              dsimp only
              obtain ⟨h1, h2⟩ := ih _ _ hrest
              rw [h1, h2]
              constructor
              · cases hfd : SMap.find (fdComputeGradients parseF64 draws g [q]
                    noiseModel opts).gradients q with
                | none => rfl
                | some v => exact find_insert_ne gradients hq v
              · cases hstd : (fdComputeGradients parseF64 draws g [q]
                    noiseModel opts).gradient_std with
                | none => rfl
                | some smap =>
                    dsimp only
                    cases hsv : SMap.find smap q with
                    | none => rfl
                    | some sv => exact find_insert_ne stds hq sv

theorem adjLoop_zero (parseF64 : String → Option ℝ) (draws : Nat → Nat → ℝ)
    (g : Ir.Graph) (noiseModel : NoiseModel) (opts : GradientOptions) (pname : String)
    (hnone : resolveParam g pname = none) :
    ∀ rest gradients stds, pname ∈ rest →
      SMap.find (adjLoop parseF64 draws g noiseModel opts rest gradients stds).1 pname =
        some 0 ∧
      SMap.find (adjLoop parseF64 draws g noiseModel opts rest gradients stds).2 pname =
        some 0 := by
  intro rest
  induction rest with
  | nil => intro gradients stds hmem; cases hmem
  | cons q rest ih =>
      intro gradients stds hmem
      by_cases hq : q = pname
      · subst hq
        unfold adjLoop
        rw [hnone]
        by_cases hrest : q ∈ rest
        · exact ih _ _ hrest
        · obtain ⟨h1, h2⟩ := adjLoop_find_not_mem parseF64 draws g noiseModel opts q rest
            (SMap.insert gradients q 0) (SMap.insert stds q 0) hrest
          rw [h1, h2, find_insert_self, find_insert_self]
          exact ⟨rfl, rfl⟩
      · have hrest : pname ∈ rest := by
          rcases List.mem_cons.mp hmem with h | h
          · exact absurd h.symm hq
          · exact h
        unfold adjLoop
        cases hres : resolveParam g q with
        | none => exact ih _ _ hrest
        | some ik =>
            obtain ⟨node_idx, key⟩ := ik
            dsimp only
            cases hana : analytic_grad_for_param parseF64 g node_idx key with
            | some gval => exact ih _ _ hrest
            | none => exact ih _ _ hrest

theorem adjLoop_isSome (parseF64 : String → Option ℝ) (draws : Nat → Nat → ℝ)
    (g : Ir.Graph) (noiseModel : NoiseModel) (opts : GradientOptions) (pname : String) :
    ∀ rest gradients stds,
      (pname ∈ rest ∨ ((SMap.find gradients pname).isSome ∧ (SMap.find stds pname).isSome)) →
      (SMap.find (adjLoop parseF64 draws g noiseModel opts rest gradients stds).1
        pname).isSome ∧
      (SMap.find (adjLoop parseF64 draws g noiseModel opts rest gradients stds).2
        pname).isSome := by
  intro rest
  induction rest with
  | nil =>
      intro gradients stds h
      rcases h with h | h
      · cases h
      · exact h
  | cons q rest ih =>
      intro gradients stds h
      have hnext : ∀ (v1 v2 : ℝ),
          pname ∈ rest ∨ ((SMap.find (SMap.insert gradients q v1) pname).isSome ∧
            (SMap.find (SMap.insert stds q v2) pname).isSome) := by
        intro v1 v2
        rcases h with hmem | hsome
        · rcases List.mem_cons.mp hmem with rfl | hmem2
          · exact Or.inr ⟨find_insert_isSome _ _ _ _ (Or.inl rfl),
              find_insert_isSome _ _ _ _ (Or.inl rfl)⟩
          · exact Or.inl hmem2
        · exact Or.inr ⟨find_insert_isSome _ _ _ _ (Or.inr hsome.1),
            find_insert_isSome _ _ _ _ (Or.inr hsome.2)⟩
      unfold adjLoop
      cases hres : resolveParam g q with
      | none => exact ih _ _ (hnext 0 0)
      | some ik =>
          obtain ⟨node_idx, key⟩ := ik
          dsimp only
          cases hana : analytic_grad_for_param parseF64 g node_idx key with
          | some gval => exact ih _ _ (hnext _ _)
          | none =>
              dsimp only
              -- in the fallback, the single-handle FD run always carries an
              -- entry for q, so the conditional inserts both fire
              have hfdgrad : (SMap.find (fdComputeGradients parseF64 draws g [q]
                  noiseModel opts).gradients q).isSome := by
                unfold fdComputeGradients
                exact (fdLoop_isSome parseF64 draws 1e-6 (opts.seed.getD 0x12345678)
                  (opts.samples.getD 1) q [q] g [] []
                  (Or.inl (List.mem_cons_self ..))).1
              have hfdstd : ∀ smap, (fdComputeGradients parseF64 draws g [q]
                  noiseModel opts).gradient_std = some smap →
                  (SMap.find smap q).isSome := by
                intro smap hsmap
                unfold fdComputeGradients at hsmap
                cases hsmap
                exact (fdLoop_isSome parseF64 draws 1e-6 (opts.seed.getD 0x12345678)
                  (opts.samples.getD 1) q [q] g [] []
                  (Or.inl (List.mem_cons_self ..))).2
              cases hfd : SMap.find (fdComputeGradients parseF64 draws g [q]
                  noiseModel opts).gradients q with
              | none => rw [hfd] at hfdgrad; cases hfdgrad
              | some v =>
                  dsimp only
                  cases hstd : (fdComputeGradients parseF64 draws g [q]
                      noiseModel opts).gradient_std with
                  | none => simp [fdComputeGradients] at hstd
                  | some smap =>
                      dsimp only
                      cases hsv : SMap.find smap q with
                      | none =>
                          have h3 := hfdstd smap hstd
                          rw [hsv] at h3
                          cases h3
                      | some sv =>
                          exact ih _ _ (hnext v sv)

/-- C9: for both gradient providers, a parameter handle `pname` that resolves
to no node (and that no other listed `node_id:param` handle would introduce
into the graph during finite-difference mutation) is reported with gradient 0
and standard deviation 0 without failing the computation, and every listed
handle still receives a gradient entry.  Both providers are total functions
of their inputs (modulo the IR-JSON parse, which is transport): the
computation never fails. -/
theorem gradient_unresolved_handle_zeroed
    (parseF64 : String → Option ℝ) (draws : Nat → Nat → ℝ) (g : Ir.Graph)
    (params : List String) (noiseModel : NoiseModel) (opts : GradientOptions)
    (pname : String)
    (hmem : pname ∈ params)
    (hnone : resolveParam g pname = none)
    (hstable : ∀ q ∈ params, ¬ (hasColon q = true ∧
      (splitnColon2 q).2 = pname)) :
    SMap.find (fdComputeGradients parseF64 draws g params noiseModel opts).gradients
        pname = some 0 ∧
    (∀ stds, (fdComputeGradients parseF64 draws g params noiseModel opts).gradient_std =
        some stds → SMap.find stds pname = some 0) ∧
    SMap.find (adjComputeGradients parseF64 draws g params noiseModel opts).gradients
        pname = some 0 ∧
    (∀ stds, (adjComputeGradients parseF64 draws g params noiseModel opts).gradient_std =
        some stds → SMap.find stds pname = some 0) ∧
    (∀ q ∈ params,
      (SMap.find (fdComputeGradients parseF64 draws g params noiseModel opts).gradients
        q).isSome ∧
      (SMap.find (adjComputeGradients parseF64 draws g params noiseModel opts).gradients
        q).isSome) := by
  have hfd := fdLoop_zero parseF64 draws 1e-6 (opts.seed.getD 0x12345678)
    (opts.samples.getD 1) pname params g [] [] hnone hstable hmem
  have hadj := adjLoop_zero parseF64 draws g noiseModel opts pname hnone params [] [] hmem
  refine ⟨hfd.1, ?_, hadj.1, ?_, ?_⟩
  · intro stds hstds
    unfold fdComputeGradients at hstds
    cases hstds
    exact hfd.2
  · intro stds hstds
    unfold adjComputeGradients at hstds
    cases hstds
    exact hadj.2
  · intro q hq
    exact ⟨(fdLoop_isSome parseF64 draws 1e-6 (opts.seed.getD 0x12345678)
        (opts.samples.getD 1) q params g [] [] (Or.inl hq)).1,
      (adjLoop_isSome parseF64 draws g noiseModel opts q params [] [] (Or.inl hq)).1⟩

/-- C9 witness: the handle `ghost:phase` names a node absent from `c9Graph`;
the membership, non-resolution and stability hypotheses are discharged by
evaluation. -/
theorem gradient_unresolved_handle_zeroed_witness :
    SMap.find (fdComputeGradients (fun _ => none) (fun _ _ => 0) c9Graph
        ["ghost:phase"]
        { shot_noise_std := none, thermal_noise_std := none, phase_noise_std := none,
          loss_variation := none, metadata := none }
        { strategy := "finite_difference", seed := some 42, samples := some 1 }).gradients
      "ghost:phase" = some 0 ∧
    SMap.find (adjComputeGradients (fun _ => none) (fun _ _ => 0) c9Graph
        ["ghost:phase"]
        { shot_noise_std := none, thermal_noise_std := none, phase_noise_std := none,
          loss_variation := none, metadata := none }
        { strategy := "adjoint", seed := some 42, samples := some 1 }).gradients
      "ghost:phase" = some 0 := by
  have h1 := gradient_unresolved_handle_zeroed (fun _ => none) (fun _ _ => 0) c9Graph
    ["ghost:phase"]
    { shot_noise_std := none, thermal_noise_std := none, phase_noise_std := none,
      loss_variation := none, metadata := none }
    { strategy := "finite_difference", seed := some 42, samples := some 1 }
    "ghost:phase" (List.mem_cons_self ..) rfl
    (by
      intro q hq
      rcases List.mem_cons.mp hq with rfl | h2
      · intro hcontra
        have := hcontra.2
        simp [splitnColon2] at this
      · cases h2)
  have h2 := gradient_unresolved_handle_zeroed (fun _ => none) (fun _ _ => 0) c9Graph
    ["ghost:phase"]
    { shot_noise_std := none, thermal_noise_std := none, phase_noise_std := none,
      loss_variation := none, metadata := none }
    { strategy := "adjoint", seed := some 42, samples := some 1 }
    "ghost:phase" (List.mem_cons_self ..) rfl
    (by
      intro q hq
      rcases List.mem_cons.mp hq with rfl | h2
      · intro hcontra
        have := hcontra.2
        simp [splitnColon2] at this
      · cases h2)
  exact ⟨h1.1, h2.2.2.1⟩

end Gradients

namespace Chokepoint

/-- C10: `execute` never modifies the caller's operation — after the call the
caller's op is the op passed in, while the op serialized to `op.json` is the
calibration-injected clone; and the injection really mutates the clone (on a
fresh filesystem, the generated default calibration handle and scaled params
make the written op differ from the caller's). -/
theorem execute_preserves_caller_op :
    (∀ (schemaValidate : PhotonicOp → Except String Unit)
       (tail : PhotonicOp → ExecContext → Fs → ExecutionResult × Fs)
       (uuid : String) (op : PhotonicOp) (ctx : ExecContext) (fs : Fs),
      (execute schemaValidate tail uuid op ctx fs).callerOp = op ∧
      (∀ opw, (execute schemaValidate tail uuid op ctx fs).writtenOp = some opw →
        opw = (inject_calibration uuid op (outDir ctx) fs).1)) ∧
    (inject_calibration "w-uuid" c10Op "d" []).1 ≠ c10Op := by
  constructor
  · intro schemaValidate tail uuid op ctx fs
    constructor
    · unfold execute
      split
      · rfl
      · split <;> rfl
    · intro opw h
      unfold execute at h
      split at h
      · cases h
      · split at h
        · cases h
        · dsimp only at h
          cases h
          rfl
  · intro h
    have h2 := congrArg PhotonicOp.calibration_handle h
    simp [inject_calibration, c10Op, Calibration.basic_generate_default_state] at h2

/-- C10 witness: `execute` on a concrete op with a passing schema and a
trivial tail; the written-op hypothesis is discharged by evaluation. -/
theorem execute_preserves_caller_op_witness :
    (execute (fun _ => Except.ok ()) (fun _ _ fs => ({ ok := true, details := none }, fs))
        "w-uuid" c10Op { run_id := "r", timestamp_ns := 5 } []).callerOp = c10Op ∧
    (inject_calibration "w-uuid" c10Op
        (outDir { run_id := "r", timestamp_ns := 5 }) []).1 =
      (inject_calibration "w-uuid" c10Op
        (outDir { run_id := "r", timestamp_ns := 5 }) []).1 :=
  ⟨(execute_preserves_caller_op.1 (fun _ => Except.ok ())
      (fun _ _ fs => ({ ok := true, details := none }, fs))
      "w-uuid" c10Op { run_id := "r", timestamp_ns := 5 } []).1,
   (execute_preserves_caller_op.1 (fun _ => Except.ok ())
      (fun _ _ fs => ({ ok := true, details := none }, fs))
      "w-uuid" c10Op { run_id := "r", timestamp_ns := 5 } []).2 _ rfl⟩

end Chokepoint

namespace Storage

-- ── Lookup lemmas for the exported tree ──
theorem find_nil {α : Type} {p : String} : SMap.find ([] : SMap α) p = none :=
  rfl

theorem find_cons_ne {α : Type} {k p : String} {v : α} {l : SMap α}
    (h : ¬ k = p) : SMap.find ((k, v) :: l) p = SMap.find l p := by
  simp [SMap.find, h]

theorem find_cons_self {α : Type} {k : String} {v : α} {l : SMap α} :
    SMap.find ((k, v) :: l) k = some v := by
  simp [SMap.find]

theorem coreOf_nil : coreOf [] = [] := rfl

theorem coreOf_cons_some {k : String} {d : FileData}
    {l : List (String × Option FileData)} :
    coreOf ((k, some d) :: l) = (k, d) :: coreOf l := rfl

theorem coreOf_cons_none {k : String} {l : List (String × Option FileData)} :
    coreOf ((k, none) :: l) = coreOf l := rfl

theorem find_coreOf_skip {k p : String} {o : Option FileData}
    {l : List (String × Option FileData)} {t : Fs} (h : ¬ k = p) :
    SMap.find (coreOf ((k, o) :: l) ++ t) p = SMap.find (coreOf l ++ t) p := by
  cases o with
  | none => rw [coreOf_cons_none]
  | some d => rw [coreOf_cons_some, List.cons_append]; exact find_cons_ne h

theorem find_coreOf_here {p : String} {o : Option FileData}
    {l : List (String × Option FileData)} {t : Fs}
    (h : SMap.find (coreOf l ++ t) p = none) :
    SMap.find (coreOf ((p, o) :: l) ++ t) p = o := by
  cases o with
  | none => rw [coreOf_cons_none, h]
  | some d => rw [coreOf_cons_some, List.cons_append]; exact find_cons_self

theorem read_export_manifest (sha genCit b) :
    Fs.read (export_to_directory sha genCit b) "manifest.json"
      = some (FileData.json (manifestToJson b.manifest)) := by
  simp only [Fs.read, export_to_directory, exportDirs, exportEntries,
    List.cons_append, List.nil_append, find_cons_ne, find_cons_self, find_nil,
    find_coreOf_skip, find_coreOf_here, coreOf_nil, String.reduceEq,
    not_false_eq_true]

theorem read_export_checksums (sha genCit b) :
    Fs.read (export_to_directory sha genCit b) "checksums.json"
      = some (FileData.json (checksumsJson sha
          (exportDirs ++ coreOf (exportEntries genCit b)))) := by
  simp only [Fs.read, export_to_directory, exportDirs, exportEntries,
    List.cons_append, List.nil_append, find_cons_ne, find_cons_self, find_nil,
    find_coreOf_skip, find_coreOf_here, coreOf_nil, String.reduceEq,
    not_false_eq_true]

theorem read_export_execDir (sha genCit b) :
    Fs.read (export_to_directory sha genCit b) "execution"
      = some FileData.dir := by
  simp only [Fs.read, export_to_directory, exportDirs, List.cons_append,
    find_cons_ne, find_cons_self, String.reduceEq, not_false_eq_true]

theorem read_export_ir_original (sha genCit b) :
    Fs.read (export_to_directory sha genCit b) "ir/original.json"
      = some (FileData.json (graphSerdeJson b.ir_original)) := by
  simp only [Fs.read, export_to_directory, exportDirs, exportEntries,
    List.cons_append, List.nil_append, find_cons_ne, find_cons_self, find_nil,
    find_coreOf_skip, find_coreOf_here, coreOf_nil, String.reduceEq,
    not_false_eq_true]

theorem read_export_ir_lowered (sha genCit b) :
    Fs.read (export_to_directory sha genCit b) "ir/lowered.json"
      = b.ir_lowered.map (fun g => FileData.json (graphSerdeJson g)) := by
  simp only [Fs.read, export_to_directory, exportDirs, exportEntries,
    List.cons_append, List.nil_append, find_cons_ne, find_cons_self, find_nil,
    find_coreOf_skip, find_coreOf_here, coreOf_nil, String.reduceEq,
    not_false_eq_true]

theorem read_export_params_initial (sha genCit b) :
    Fs.read (export_to_directory sha genCit b) "parameters/initial.json"
      = some (FileData.json (realMapJson b.parameters_initial)) := by
  simp only [Fs.read, export_to_directory, exportDirs, exportEntries,
    List.cons_append, List.nil_append, find_cons_ne, find_cons_self, find_nil,
    find_coreOf_skip, find_coreOf_here, coreOf_nil, String.reduceEq,
    not_false_eq_true]

theorem read_export_params_final (sha genCit b) :
    Fs.read (export_to_directory sha genCit b) "parameters/final.json"
      = b.parameters_final.map (fun m => FileData.json (realMapJson m)) := by
  simp only [Fs.read, export_to_directory, exportDirs, exportEntries,
    List.cons_append, List.nil_append, find_cons_ne, find_cons_self, find_nil,
    find_coreOf_skip, find_coreOf_here, coreOf_nil, String.reduceEq,
    not_false_eq_true]

theorem read_export_calib_initial (sha genCit b) :
    Fs.read (export_to_directory sha genCit b) "calibration/initial.json"
      = b.calibration_state_initial.map FileData.json := by
  simp only [Fs.read, export_to_directory, exportDirs, exportEntries,
    List.cons_append, List.nil_append, find_cons_ne, find_cons_self, find_nil,
    find_coreOf_skip, find_coreOf_here, coreOf_nil, String.reduceEq,
    not_false_eq_true]

theorem read_export_calib_final (sha genCit b) :
    Fs.read (export_to_directory sha genCit b) "calibration/final.json"
      = b.calibration_state_final.map FileData.json := by
  simp only [Fs.read, export_to_directory, exportDirs, exportEntries,
    List.cons_append, List.nil_append, find_cons_ne, find_cons_self, find_nil,
    find_coreOf_skip, find_coreOf_here, coreOf_nil, String.reduceEq,
    not_false_eq_true]

theorem read_export_env (sha genCit b) :
    Fs.read (export_to_directory sha genCit b) "environment/snapshot.json"
      = some (FileData.json (envToJson b.environment)) := by
  simp only [Fs.read, export_to_directory, exportDirs, exportEntries,
    List.cons_append, List.nil_append, find_cons_ne, find_cons_self, find_nil,
    find_coreOf_skip, find_coreOf_here, coreOf_nil, String.reduceEq,
    not_false_eq_true]

theorem read_export_seed (sha genCit b) :
    Fs.read (export_to_directory sha genCit b) "environment/seed.txt"
      = b.seed.map FileData.natText := by
  simp only [Fs.read, export_to_directory, exportDirs, exportEntries,
    List.cons_append, List.nil_append, find_cons_ne, find_cons_self, find_nil,
    find_coreOf_skip, find_coreOf_here, coreOf_nil, String.reduceEq,
    not_false_eq_true]

theorem read_export_traces (sha genCit b) :
    Fs.read (export_to_directory sha genCit b) "execution/traces.jsonl"
      = (b.observability.bind (fun o => o.traces)).map
          (fun p => FileData.json (Json.str p)) := by
  simp only [Fs.read, export_to_directory, exportDirs, exportEntries,
    List.cons_append, List.nil_append, find_cons_ne, find_cons_self, find_nil,
    find_coreOf_skip, find_coreOf_here, coreOf_nil, String.reduceEq,
    not_false_eq_true]

theorem read_export_metrics (sha genCit b) :
    Fs.read (export_to_directory sha genCit b) "execution/metrics.json"
      = (b.observability.bind (fun o => o.metrics)).map
          (fun p => FileData.json (Json.str p)) := by
  simp only [Fs.read, export_to_directory, exportDirs, exportEntries,
    List.cons_append, List.nil_append, find_cons_ne, find_cons_self, find_nil,
    find_coreOf_skip, find_coreOf_here, coreOf_nil, String.reduceEq,
    not_false_eq_true]

theorem read_export_events (sha genCit b) :
    Fs.read (export_to_directory sha genCit b) "execution/events.jsonl"
      = (b.observability.bind (fun o => o.events)).map
          (fun p => FileData.json (Json.str p)) := by
  simp only [Fs.read, export_to_directory, exportDirs, exportEntries,
    List.cons_append, List.nil_append, find_cons_ne, find_cons_self, find_nil,
    find_coreOf_skip, find_coreOf_here, coreOf_nil, String.reduceEq,
    not_false_eq_true]

theorem read_export_timeline (sha genCit b) :
    Fs.read (export_to_directory sha genCit b) "execution/timeline.json"
      = (b.observability.bind (fun o => o.timeline)).map
          (fun p => FileData.json (Json.str p)) := by
  simp only [Fs.read, export_to_directory, exportDirs, exportEntries,
    List.cons_append, List.nil_append, find_cons_ne, find_cons_self, find_nil,
    find_coreOf_skip, find_coreOf_here, coreOf_nil, String.reduceEq,
    not_false_eq_true]

theorem read_export_results (sha genCit b) :
    Fs.read (export_to_directory sha genCit b) "results/outputs.json"
      = some (FileData.json b.results) := by
  simp only [Fs.read, export_to_directory, exportDirs, exportEntries,
    List.cons_append, List.nil_append, find_cons_ne, find_cons_self, find_nil,
    find_coreOf_skip, find_coreOf_here, coreOf_nil, String.reduceEq,
    not_false_eq_true]

theorem read_export_lineage (sha genCit b) :
    Fs.read (export_to_directory sha genCit b) "provenance/lineage.json"
      = some (FileData.json (provDataToJson b.provenance)) := by
  simp only [Fs.read, export_to_directory, exportDirs, exportEntries,
    List.cons_append, List.nil_append, find_cons_ne, find_cons_self, find_nil,
    find_coreOf_skip, find_coreOf_here, coreOf_nil, String.reduceEq,
    not_false_eq_true]

-- ── Decode-after-encode round trips for every file payload ──
theorem jsonOpt_str (o : Option String) :
    jsonOpt jsonStr (optJson Json.str o) = some o := by
  cases o <;> rfl

theorem jsonOpt_nat (o : Option Nat) :
    jsonOpt jsonNat (optJson Json.natNum o) = some o := by
  cases o <;> rfl

theorem jsonOpt_real (o : Option ℝ) :
    jsonOpt jsonReal (optJson Json.num o) = some o := by
  cases o <;> rfl

theorem decStrList_map (l : List String) :
    decStrList (l.map Json.str) = some l := by
  induction l with
  | nil => rfl
  | cons s t ih => simp only [List.map_cons, decStrList, ih]

theorem jsonStrList_strListJson (l : List String) :
    jsonStrList (strListJson l) = some l :=
  decStrList_map l

theorem jsonOpt_strList (o : Option (List String)) :
    jsonOpt jsonStrList (optJson strListJson o) = some o := by
  cases o with
  | none => rfl
  | some l =>
      show (jsonStrList (strListJson l)).map some = some (some l)
      rw [jsonStrList_strListJson]
      rfl

theorem jsonPair_pairJson (p : ℝ × ℝ) : jsonPair (pairJson p) = some p :=
  rfl

theorem decRealEntries_map (m : SMap ℝ) :
    decRealEntries (m.map (fun kv => (kv.1, Json.num kv.2))) = some m := by
  induction m with
  | nil => rfl
  | cons kv t ih => simp only [List.map_cons, decRealEntries, jsonReal, ih]

theorem jsonRealMap_realMapJson (m : SMap ℝ) :
    jsonRealMap (realMapJson m) = some m :=
  decRealEntries_map m

theorem decStrEntries_map (m : SMap String) :
    decStrEntries (m.map (fun kv => (kv.1, Json.str kv.2))) = some m := by
  induction m with
  | nil => rfl
  | cons kv t ih => simp only [List.map_cons, decStrEntries, ih]

theorem decPlugins_map (l : List PluginInfo) :
    decPlugins (l.map pluginToJson) = some l := by
  induction l with
  | nil => rfl
  | cons p t ih => simp [pluginToJson, decPlugins, field, SMap.find, jsonStr, ih]

theorem runtimeInfo_rt (r : RuntimeInfo) :
    runtimeInfoFromJson (runtimeInfoToJson r) = some r := by
  simp [runtimeInfoToJson, runtimeInfoFromJson, field, SMap.find, jsonStr,
        jsonPlugins, jsonStrList, strListJson, decStrList_map, decPlugins_map]

theorem systemInfo_rt (s : SystemInfo) :
    systemInfoFromJson (systemInfoToJson s) = some s := by
  simp [systemInfoToJson, systemInfoFromJson, field, SMap.find, jsonStr,
        jsonNat]

theorem caps_rt (c : DeviceCapabilities) :
    capsFromJson (capsToJson c) = some c := by
  simp [capsToJson, capsFromJson, field, SMap.find, jsonNat, jsonReal,
        jsonPair_pairJson]

theorem deviceInfo_rt (d : DeviceInfo) :
    deviceInfoFromJson (deviceInfoToJson d) = some d := by
  simp [deviceInfoToJson, deviceInfoFromJson, field, SMap.find, jsonStr,
        caps_rt, jsonOpt_str]

theorem env_rt (e : EnvironmentSnapshot) : envFromJson (envToJson e) = some e := by
  simp [envToJson, envFromJson, field, SMap.find, runtimeInfo_rt,
        systemInfo_rt, deviceInfo_rt]

theorem contentIndex_rt (c : ContentIndex) :
    contentIndexFromJson (contentIndexToJson c) = some c := by
  simp [contentIndexToJson, contentIndexFromJson, field, SMap.find,
        jsonStrList_strListJson]

theorem inputs_rt (i : InputsHash) : inputsFromJson (inputsToJson i) = some i := by
  simp [inputsToJson, inputsFromJson, field, SMap.find, jsonOpt_str,
        jsonOpt_nat]

theorem outputs_rt (o : OutputsHash) :
    outputsFromJson (outputsToJson o) = some o := by
  simp [outputsToJson, outputsFromJson, field, SMap.find, jsonOpt_str,
        jsonBool]

theorem creator_rt (c : CreatorData) :
    creatorFromJson (creatorToJson c) = some c := by
  simp [creatorToJson, creatorFromJson, field, SMap.find, jsonStr, jsonOpt_str]

theorem jsonOpt_creator (o : Option CreatorData) :
    jsonOpt creatorFromJson (optJson creatorToJson o) = some o := by
  cases o with
  | none => rfl
  | some c =>
      show (creatorFromJson (creatorToJson c)).map some = some (some c)
      rw [creator_rt]
      rfl

theorem provision_rt (p : ProvisionInfo) :
    provisionFromJson (provisionToJson p) = some p := by
  simp [provisionToJson, provisionFromJson, field, SMap.find, jsonOpt_str,
        jsonOpt_creator, jsonStrList_strListJson]

theorem manifest_rt (m : Manifest) :
    manifestFromJson (manifestToJson m) = some m := by
  simp [manifestToJson, manifestFromJson, field, SMap.find, jsonStr,
        contentIndex_rt, inputs_rt, outputs_rt, provision_rt]

theorem citation_rt (c : CitationMetadata) :
    citationFromJson (citationToJson c) = some c := by
  simp [citationToJson, citationFromJson, field, SMap.find, jsonStr]

theorem jsonOpt_citation (o : Option CitationMetadata) :
    jsonOpt citationFromJson (optJson citationToJson o) = some o := by
  cases o with
  | none => rfl
  | some c =>
      show (citationFromJson (citationToJson c)).map some = some (some c)
      rw [citation_rt]
      rfl

theorem provData_rt (p : ProvenanceData) :
    provDataFromJson (provDataToJson p) = some p := by
  simp [provDataToJson, provDataFromJson, field, SMap.find, jsonOpt_str,
        jsonOpt_citation, jsonStrList_strListJson]

theorem branch_rt (b : Ir.ConditionalBranch) :
    branchFromJson (branchSerdeJson b) = some b := by
  simp [branchSerdeJson, branchFromJson, field, SMap.find, jsonNat,
        jsonStrList_strListJson, jsonOpt_strList]

theorem decBranches_map (l : List Ir.ConditionalBranch) :
    decBranches (l.map branchSerdeJson) = some l := by
  induction l with
  | nil => rfl
  | cons b t ih => simp only [List.map_cons, decBranches, branch_rt, ih]

theorem jsonOpt_branches (o : Option (List Ir.ConditionalBranch)) :
    jsonOpt jsonBranches
      (optJson (fun bs => Json.arr (bs.map branchSerdeJson)) o) = some o := by
  cases o with
  | none => rfl
  | some bs =>
      show (decBranches (bs.map branchSerdeJson)).map some = some (some bs)
      rw [decBranches_map]
      rfl

theorem node_rt (n : Ir.Node) : nodeFromJson (nodeSerdeJson n) = some n := by
  simp [nodeSerdeJson, nodeFromJson, field, SMap.find, jsonStr,
        jsonRealMap_realMapJson, jsonOpt_str, jsonOpt_branches]

theorem decNodes_map (l : List Ir.Node) :
    decNodes (l.map nodeSerdeJson) = some l := by
  induction l with
  | nil => rfl
  | cons n t ih => simp only [List.map_cons, decNodes, node_rt, ih]

theorem edge_rt (e : Ir.Edge) : edgeFromJson (edgeSerdeJson e) = some e := by
  simp [edgeSerdeJson, edgeFromJson, field, SMap.find, jsonStr, jsonOpt_str,
        jsonOpt_real]

theorem decEdges_map (l : List Ir.Edge) :
    decEdges (l.map edgeSerdeJson) = some l := by
  induction l with
  | nil => rfl
  | cons e t ih => simp only [List.map_cons, decEdges, edge_rt, ih]

theorem graph_rt (g : Ir.Graph) : graphFromJson (graphSerdeJson g) = some g := by
  simp [graphSerdeJson, graphFromJson, SMap.find, decNodes_map, decEdges_map,
        decStrEntries_map]

-- ── The checksum pass succeeds on a freshly exported tree ──
theorem mem_sortFieldsIns {α : Type} {q p : String × α} {l : List (String × α)} :
    q ∈ sortFieldsIns p l ↔ q = p ∨ q ∈ l := by
  induction l with
  | nil => simp [sortFieldsIns]
  | cons r t ih =>
      by_cases h : p.1 ≤ r.1
      · simp [sortFieldsIns, h]
      · simp [sortFieldsIns, h, ih]
        tauto

theorem mem_sortFields {α : Type} {q : String × α} {l : List (String × α)} :
    q ∈ sortFields l ↔ q ∈ l := by
  induction l with
  | nil => simp [sortFields]
  | cons p t ih =>
      rw [show sortFields (p :: t) = sortFieldsIns p (sortFields t) from rfl,
        mem_sortFieldsIns, ih, List.mem_cons]

theorem find_of_mem_nodup {α : Type} {l : SMap α} {p : String} {d : α}
    (h : (p, d) ∈ l) (hnd : (l.map Prod.fst).Nodup) :
    SMap.find l p = some d := by
  induction l with
  | nil => cases h
  | cons kv t ih =>
      obtain ⟨k, v⟩ := kv
      rw [List.map_cons] at hnd
      rcases List.nodup_cons.mp hnd with ⟨hk, ht⟩
      rcases List.mem_cons.mp h with heq | hmem
      · obtain ⟨rfl, rfl⟩ := Prod.mk.injEq p d k v ▸ heq
        exact find_cons_self
      · have hne : ¬ k = p := by
          intro he
          apply hk
          rw [he]
          exact List.mem_map.mpr ⟨(p, d), hmem, rfl⟩
        rw [find_cons_ne hne]
        exact ih hmem ht

theorem coreOf_keys_sublist (l : List (String × Option FileData)) :
    List.Sublist ((coreOf l).map Prod.fst) (l.map Prod.fst) := by
  induction l with
  | nil => simp [coreOf]
  | cons pe t ih =>
      obtain ⟨k, o⟩ := pe
      cases o with
      | none =>
          rw [coreOf_cons_none, List.map_cons]
          exact List.Sublist.cons _ ih
      | some d =>
          rw [coreOf_cons_some, List.map_cons, List.map_cons]
          exact List.Sublist.cons₂ _ ih

theorem export_keys_nodup (sha : FileData → String)
    (genCit : String → String → String → String → String → String)
    (b : ArtifactBundle) :
    ((export_to_directory sha genCit b).map Prod.fst).Nodup := by
  have hcore := coreOf_keys_sublist (exportEntries genCit b)
  rw [show (exportEntries genCit b).map Prod.fst =
      ["ir/original.json", "ir/lowered.json", "parameters/initial.json",
       "parameters/final.json", "calibration/initial.json",
       "calibration/final.json", "environment/snapshot.json",
       "environment/seed.txt", "execution/traces.jsonl",
       "execution/metrics.json", "execution/events.jsonl",
       "execution/timeline.json", "results/outputs.json",
       "provenance/lineage.json", "provenance/citation.txt"] from rfl] at hcore
  have hsub : List.Sublist ((export_to_directory sha genCit b).map Prod.fst)
      (["ir", "parameters", "calibration", "environment", "execution",
        "results", "provenance"] ++
       (["ir/original.json", "ir/lowered.json", "parameters/initial.json",
         "parameters/final.json", "calibration/initial.json",
         "calibration/final.json", "environment/snapshot.json",
         "environment/seed.txt", "execution/traces.jsonl",
         "execution/metrics.json", "execution/events.jsonl",
         "execution/timeline.json", "results/outputs.json",
         "provenance/lineage.json", "provenance/citation.txt"] ++
        ["checksums.json", "manifest.json"])) := by
    rw [export_to_directory, List.map_append, List.map_append]
    exact List.Sublist.append (List.Sublist.refl _)
      (List.Sublist.append hcore (List.Sublist.refl _))
  exact List.Nodup.sublist hsub (by decide)

theorem checkEntries_ok (sha : FileData → String) (fs : Fs)
    (cs : List (String × Json))
    (h : ∀ pe ∈ cs, ∃ d, Fs.read fs pe.1 = some d ∧ pe.2 = Json.str (sha d)) :
    checkEntries sha fs cs = Except.ok () := by
  induction cs with
  | nil => rfl
  | cons pe t ih =>
      obtain ⟨p, ej⟩ := pe
      obtain ⟨d, hr, he⟩ := h (p, ej) (List.mem_cons_self _ _)
      dsimp only at hr he
      subst he
      simp only [checkEntries, hr, if_pos rfl]
      exact ih (fun q hq => h q (List.mem_cons_of_mem _ hq))

theorem validate_checksums_export (sha : FileData → String)
    (genCit : String → String → String → String → String → String)
    (b : ArtifactBundle) :
    validate_checksums sha (export_to_directory sha genCit b)
      = Except.ok () := by
  have hrj : read_json some (export_to_directory sha genCit b) "checksums.json"
      = Except.ok (checksumsJson sha
          (exportDirs ++ coreOf (exportEntries genCit b))) := by
    simp only [read_json, read_export_checksums]
  simp only [validate_checksums, hrj, checksumsJson]
  apply checkEntries_ok
  intro pe hpe
  rw [mem_sortFields] at hpe
  obtain ⟨kv, hkv, heq⟩ := List.mem_map.mp hpe
  subst heq
  refine ⟨kv.2, ?_, rfl⟩
  have hmem : kv ∈ export_to_directory sha genCit b := by
    rcases List.mem_append.mp (List.mem_of_mem_filter hkv) with hl | hr
    · exact List.mem_append.mpr (Or.inl hl)
    · exact List.mem_append.mpr (Or.inr (List.mem_append.mpr (Or.inl hr)))
  exact find_of_mem_nodup (by exact hmem) (export_keys_nodup sha genCit b)

theorem checksumStep_export (sha : FileData → String)
    (genCit : String → String → String → String → String → String)
    (b : ArtifactBundle) :
    checksumStep sha (export_to_directory sha genCit b) = Except.ok () := by
  simp only [checksumStep, read_export_checksums]
  exact validate_checksums_export sha genCit b

-- ── Success of each import step on the exported tree ──
theorem read_json_ok {α : Type} {dec : Json → Option α} {fs : Fs} {p : String}
    {v : Json} {x : α} (h : Fs.read fs p = some (FileData.json v))
    (hdec : dec v = some x) : read_json dec fs p = Except.ok x := by
  simp only [read_json, h, hdec]

theorem read_json_optional_ok {α : Type} {dec : Json → Option α} {fs : Fs}
    {p : String} {enc : α → Json} {o : Option α}
    (h : Fs.read fs p = o.map (fun y => FileData.json (enc y)))
    (hdec : ∀ y, dec (enc y) = some y) :
    read_json_optional dec fs p = Except.ok o := by
  cases o with
  | none =>
      dsimp only [Option.map] at h
      simp only [read_json_optional, h]
  | some y =>
      dsimp only [Option.map] at h
      simp only [read_json_optional, h, read_json, hdec, Except.map]

theorem seedStep_export {fs : Fs} {s : Option Nat}
    (h : Fs.read fs "environment/seed.txt" = s.map FileData.natText) :
    seedStep fs = Except.ok s := by
  cases s with
  | none =>
      dsimp only [Option.map] at h
      simp only [seedStep, h]
  | some n =>
      dsimp only [Option.map] at h
      simp only [seedStep, h]

theorem except_bind_ok {α β : Type} (a : α) (f : α → Except String β) :
    Bind.bind (Except.ok a) f = f a :=
  rfl

theorem except_bind_error {α β : Type} (e : String)
    (f : α → Except String β) :
    Bind.bind (Except.error e : Except String α) f = Except.error e :=
  rfl

theorem exists_ok_of_ite {α : Type} {c : Prop} [Decidable c] (x y : α) :
    ∃ o : α, (if c then Except.ok x else Except.ok y : Except String α)
      = Except.ok o := by
  by_cases h : c
  · rw [if_pos h]
    exact ⟨x, rfl⟩
  · rw [if_neg h]
    exact ⟨y, rfl⟩

theorem load_observability_export (sha : FileData → String)
    (genCit : String → String → String → String → String → String)
    (b : ArtifactBundle) :
    ∃ o, load_observability (export_to_directory sha genCit b)
      = Except.ok o := by
  have ht : read_json_optional jsonStr (export_to_directory sha genCit b)
      "execution/traces.jsonl"
      = Except.ok (b.observability.bind (fun o => o.traces)) :=
    read_json_optional_ok (read_export_traces sha genCit b) (fun _ => rfl)
  have hm : read_json_optional jsonStr (export_to_directory sha genCit b)
      "execution/metrics.json"
      = Except.ok (b.observability.bind (fun o => o.metrics)) :=
    read_json_optional_ok (read_export_metrics sha genCit b) (fun _ => rfl)
  have hev : read_json_optional jsonStr (export_to_directory sha genCit b)
      "execution/events.jsonl"
      = Except.ok (b.observability.bind (fun o => o.events)) :=
    read_json_optional_ok (read_export_events sha genCit b) (fun _ => rfl)
  have hti : read_json_optional jsonStr (export_to_directory sha genCit b)
      "execution/timeline.json"
      = Except.ok (b.observability.bind (fun o => o.timeline)) :=
    read_json_optional_ok (read_export_timeline sha genCit b) (fun _ => rfl)
  simp only [load_observability, read_export_execDir, ht, hm, hev, hti,
    except_bind_ok]
  exact exists_ok_of_ite _ _

theorem parseArtifactType_ok {s : String}
    (h : s ∈ ["run", "gradient", "calibration", "replay", "validation"]) :
    ∃ t, parseArtifactType s = Except.ok t := by
  simp only [List.mem_cons, List.not_mem_nil, or_false] at h
  rcases h with rfl | rfl | rfl | rfl | rfl
  all_goals exact ⟨_, rfl⟩

/-- C2 (amended): importing a freshly exported bundle directory succeeds —
manifest read, checksum pass, every file decode, artifact-type match and
`validate_bundle` — and the imported bundle carries the original artifact
id, seed, initial parameters and environment snapshot, provided the bundle
is well-formed in the four ways `import` checks: the manifest schema
version starts with "awen_artifact", the manifest artifact id is the
bundle's own and equals the recomputed deterministic id, the manifest
artifact type is one of the five known strings, and the initial parameter
map is non-empty (each hypothesis is needed: the counterexample shows a
bundle violating the last one fails).  The missing checksum and citation
helpers and the sha2/hex/float externals are opaque parameters. -/
theorem export_import_round_trip
    (sha : FileData → String)
    (genCit : String → String → String → String → String → String)
    (sha256 : List Nat → List Nat) (hexEnc : List Nat → String)
    (f64le : ℝ → List Nat) (rf : ℝ → String) (b : ArtifactBundle)
    (hschema : strStartsWith b.manifest.schema_version "awen_artifact" = true)
    (hmid : b.manifest.artifact_id = b.artifact_id)
    (hid : b.artifact_id = compute_deterministic_id sha256 hexEnc f64le rf
        b.ir_original b.parameters_initial b.calibration_state_initial
        b.seed b.environment.runtime.version)
    (htype : b.manifest.artifact_type ∈
        ["run", "gradient", "calibration", "replay", "validation"])
    (hparams : SMap.isEmptyMap b.parameters_initial = false) :
    ∃ b2 : ArtifactBundle,
      import_from_directory sha sha256 hexEnc f64le rf
          (export_to_directory sha genCit b) = Except.ok b2
        ∧ b2.artifact_id = b.artifact_id
        ∧ b2.seed = b.seed
        ∧ b2.parameters_initial = b.parameters_initial
        ∧ b2.environment = b.environment := by
  have hman := read_json_ok (read_export_manifest sha genCit b)
    (manifest_rt b.manifest)
  have hcks := checksumStep_export sha genCit b
  have hiro := read_json_ok (read_export_ir_original sha genCit b)
    (graph_rt b.ir_original)
  have hirl : read_json_optional graphFromJson (export_to_directory sha genCit b)
      "ir/lowered.json" = Except.ok b.ir_lowered :=
    read_json_optional_ok (read_export_ir_lowered sha genCit b) graph_rt
  have hpi := read_json_ok (read_export_params_initial sha genCit b)
    (jsonRealMap_realMapJson b.parameters_initial)
  have hpf : read_json_optional jsonRealMap (export_to_directory sha genCit b)
      "parameters/final.json" = Except.ok b.parameters_final :=
    read_json_optional_ok (read_export_params_final sha genCit b)
      jsonRealMap_realMapJson
  have hci : read_json_optional some (export_to_directory sha genCit b)
      "calibration/initial.json" = Except.ok b.calibration_state_initial :=
    read_json_optional_ok (read_export_calib_initial sha genCit b) (fun _ => rfl)
  have hcf : read_json_optional some (export_to_directory sha genCit b)
      "calibration/final.json" = Except.ok b.calibration_state_final :=
    read_json_optional_ok (read_export_calib_final sha genCit b) (fun _ => rfl)
  have henv := read_json_ok (read_export_env sha genCit b) (env_rt b.environment)
  have hseed := seedStep_export (read_export_seed sha genCit b)
  obtain ⟨obs, hobs⟩ := load_observability_export sha genCit b
  have hres : read_json some (export_to_directory sha genCit b)
      "results/outputs.json" = Except.ok b.results :=
    read_json_ok (read_export_results sha genCit b) rfl
  have hprov := read_json_ok (read_export_lineage sha genCit b)
    (provData_rt b.provenance)
  obtain ⟨ty, hty⟩ := parseArtifactType_ok htype
  have hvb : validate_bundle sha256 hexEnc f64le rf
      ⟨b.manifest.artifact_id, ty, b.manifest, b.ir_original, b.ir_lowered,
       b.parameters_initial, b.parameters_final, b.calibration_state_initial,
       b.calibration_state_final, b.results, b.seed, obs, b.environment,
       b.provenance⟩ = Except.ok () := by
    unfold validate_bundle
    dsimp only
    rw [hschema, hmid, hid]
    simp only [Bool.not_true, Bool.false_eq_true, if_false]
    rw [if_neg (fun hne => hne rfl), hparams]
    rw [if_neg (fun hft => Bool.false_ne_true hft)]
  refine ⟨⟨b.manifest.artifact_id, ty, b.manifest, b.ir_original, b.ir_lowered,
      b.parameters_initial, b.parameters_final, b.calibration_state_initial,
      b.calibration_state_final, b.results, b.seed, obs, b.environment,
      b.provenance⟩, ?_, hmid, rfl, rfl, rfl⟩
  simp only [import_from_directory, hman, hcks, hiro, hirl, hpi, hpf, hci, hcf,
    henv, hseed, hobs, hres, hprov, hty, except_bind_ok, hvb]

/-- C2 counterexample: the round trip is not unconditional.  The bundle
`c2ce` — the shape of the export module's own test bundle, with an empty
initial parameter map — exports fine, and the import then passes the
checksum pass, every file decode and the artifact-id check, but
`validate_bundle` rejects it, so `import(export(B))` fails for this `B`. -/
theorem export_import_round_trip_fails_empty_params :
    import_from_directory c2sha c2sha256 c2hex c2f64le c2rf
        (export_to_directory c2sha c2gen c2ce)
      = Except.error "parameters_initial is required" := by
  have hman := read_json_ok (read_export_manifest c2sha c2gen c2ce)
    (manifest_rt c2ce.manifest)
  have hcks := checksumStep_export c2sha c2gen c2ce
  have hiro := read_json_ok (read_export_ir_original c2sha c2gen c2ce)
    (graph_rt c2ce.ir_original)
  have hirl : read_json_optional graphFromJson
      (export_to_directory c2sha c2gen c2ce) "ir/lowered.json"
      = Except.ok c2ce.ir_lowered :=
    read_json_optional_ok (read_export_ir_lowered c2sha c2gen c2ce) graph_rt
  have hpi := read_json_ok (read_export_params_initial c2sha c2gen c2ce)
    (jsonRealMap_realMapJson c2ce.parameters_initial)
  have hpf : read_json_optional jsonRealMap
      (export_to_directory c2sha c2gen c2ce) "parameters/final.json"
      = Except.ok c2ce.parameters_final :=
    read_json_optional_ok (read_export_params_final c2sha c2gen c2ce)
      jsonRealMap_realMapJson
  have hci : read_json_optional some (export_to_directory c2sha c2gen c2ce)
      "calibration/initial.json" = Except.ok c2ce.calibration_state_initial :=
    read_json_optional_ok (read_export_calib_initial c2sha c2gen c2ce)
      (fun _ => rfl)
  have hcf : read_json_optional some (export_to_directory c2sha c2gen c2ce)
      "calibration/final.json" = Except.ok c2ce.calibration_state_final :=
    read_json_optional_ok (read_export_calib_final c2sha c2gen c2ce)
      (fun _ => rfl)
  have henv := read_json_ok (read_export_env c2sha c2gen c2ce)
    (env_rt c2ce.environment)
  have hseed := seedStep_export (read_export_seed c2sha c2gen c2ce)
  obtain ⟨obs, hobs⟩ := load_observability_export c2sha c2gen c2ce
  have hres : read_json some (export_to_directory c2sha c2gen c2ce)
      "results/outputs.json" = Except.ok c2ce.results :=
    read_json_ok (read_export_results c2sha c2gen c2ce) rfl
  have hprov := read_json_ok (read_export_lineage c2sha c2gen c2ce)
    (provData_rt c2ce.provenance)
  have hty : parseArtifactType c2ce.manifest.artifact_type
      = Except.ok ArtifactType.run := rfl
  have hvb : validate_bundle c2sha256 c2hex c2f64le c2rf
      ⟨c2ce.manifest.artifact_id, ArtifactType.run, c2ce.manifest,
       c2ce.ir_original, c2ce.ir_lowered, c2ce.parameters_initial,
       c2ce.parameters_final, c2ce.calibration_state_initial,
       c2ce.calibration_state_final, c2ce.results, c2ce.seed, obs,
       c2ce.environment, c2ce.provenance⟩
      = Except.error "parameters_initial is required" := rfl
  simp only [import_from_directory, hman, hcks, hiro, hirl, hpi, hpf, hci,
    hcf, henv, hseed, hobs, hres, hprov, hty, except_bind_ok, hvb,
    except_bind_error]

/-- Witness for the amended C2 theorem: the concrete bundle `c2wb`
satisfies every hypothesis, and the theorem applied to it yields the
successful round trip. -/
theorem export_import_round_trip_witness :
    (strStartsWith c2wb.manifest.schema_version "awen_artifact" = true
      ∧ c2wb.manifest.artifact_id = c2wb.artifact_id
      ∧ c2wb.artifact_id = compute_deterministic_id c2sha256 c2hex c2f64le c2rf
          c2wb.ir_original c2wb.parameters_initial
          c2wb.calibration_state_initial c2wb.seed
          c2wb.environment.runtime.version
      ∧ c2wb.manifest.artifact_type ∈
          ["run", "gradient", "calibration", "replay", "validation"]
      ∧ SMap.isEmptyMap c2wb.parameters_initial = false)
    ∧ ∃ b2 : ArtifactBundle,
        import_from_directory c2sha c2sha256 c2hex c2f64le c2rf
            (export_to_directory c2sha c2gen c2wb) = Except.ok b2
          ∧ b2.artifact_id = c2wb.artifact_id
          ∧ b2.seed = c2wb.seed
          ∧ b2.parameters_initial = c2wb.parameters_initial
          ∧ b2.environment = c2wb.environment :=
  ⟨⟨by decide, rfl, rfl, by decide, rfl⟩,
   export_import_round_trip c2sha c2gen c2sha256 c2hex c2f64le c2rf c2wb
     (by decide) rfl rfl (by decide) rfl⟩

end Storage

end Awen
